import Mathlib

/-!
# Parking-management backend: request workflow, accounts, inventory and audit log

A shallow embedding of the request handlers of `backend/src/controllers`.
The relational store behind the ORM is a record of tables, each table a list
of rows in storage order.  A handler is a function from the store (and the
inputs of the HTTP request) to the store afterwards and the HTTP response.

Conventions of the embedding:

* an id in a route is a natural number; `page` and `limit` are integers; a body value
  that the handler passes on unchecked (`userId` of `verifyOtp` and `resendOtp`, `otpCode`
  of `verifyOtp`, `vehicle_id` of `createRequest` and `updateRequest`) is a raw value, which
  the store may reject;
* `new Date()` is the argument `now`;
* the outcome of an outbound e-mail is the argument `emailOk`; password hashing, password
  comparison and token signing are arguments as well;
* a store call throws exactly when its arguments make it throw (a unique
  `update` without a record, a negative `skip`, a value outside the column's type, a log
  entry for a user that has no row); a thrown error reaches the handler's `catch` and
  becomes its error response, with the writes made before it kept.  Failures of the
  connection to the store are outside the embedding.
-/

namespace Parking

/-! ## Rows and store -/

structure User where
  id : Nat
  name : String
  email : String
  password : String
  role : String
  is_verified : Bool
  deriving DecidableEq, Repr

structure Otp where
  id : Nat
  userId : Nat
  otp_code : String
  expires_at : Nat
  is_verified : Bool
  deriving DecidableEq, Repr

structure Vehicle where
  id : Nat
  userId : Nat
  plate_number : String
  vehicle_type : String
  size : String
  deriving DecidableEq, Repr

structure ParkingSlot where
  id : Nat
  slot_number : String
  size : String
  vehicle_type : String
  location : String
  status : String
  deriving DecidableEq, Repr

structure SlotRequest where
  id : Nat
  vehicleId : Nat
  request_status : String
  slot_id : Option Nat
  approved_at : Option Nat
  deriving DecidableEq, Repr

structure Log where
  userId : Nat
  action : String
  createdAt : Nat
  deriving DecidableEq, Repr

structure State where
  users : List User
  otp : List Otp
  vehicles : List Vehicle
  parking_slots : List ParkingSlot
  slot_requests : List SlotRequest
  logs : List Log
  deriving DecidableEq, Repr

/-- The authenticated caller, `req.user`. -/
structure Caller where
  id : Nat
  role : String
  deriving DecidableEq, Repr

/-- An HTTP response: `res.status(c).json(payload)` or `res.status(c).json({ error })`. -/
inductive Response (α : Type) where
  | ok (status : Nat) (payload : α)
  | error (status : Nat) (error : String)
  deriving DecidableEq, Repr

namespace Response

def status {α : Type} : Response α → Nat
  | ok c _ => c
  | error c _ => c

def isOk {α : Type} : Response α → Bool
  | ok _ _ => true
  | error _ _ => false

end Response

/-! ## Store primitives -/

/-- Rows changed by `updateMany({ where, data })`: every matching row gets `data`. -/
def updateMany {α : Type} (p : α → Bool) (f : α → α) (rows : List α) : List α :=
  rows.map (fun r => if p r then f r else r)

/-- The `count` reported by `updateMany` and `deleteMany`. -/
def countWhere {α : Type} (p : α → Bool) (rows : List α) : Nat :=
  (rows.filter p).length

/-- Rows left by `deleteMany({ where })`. -/
def deleteMany {α : Type} (p : α → Bool) (rows : List α) : List α :=
  rows.filter (fun r => !p r)

/-- Unique `update({ where: { id }, data })`: throws (`none`) when no record has the key. -/
def updateUnique {α : Type} (key : α → Nat) (id : Nat) (f : α → α) (rows : List α) :
    Option (List α) :=
  if rows.any (fun r => key r == id) then
    some (updateMany (fun r => key r == id) f rows)
  else none

/-- Unique lookup by primary key. -/
def findUnique {α : Type} (key : α → Nat) (id : Nat) (rows : List α) : Option α :=
  rows.find? (fun r => key r == id)

/-- Interactive transaction `prisma.$transaction(fn)`: the writes of `fn` are kept when it
returns and dropped when it throws. -/
def transaction (s : State) (fn : State → Option State) : Option State :=
  match fn s with
  | some s' => some s'
  | none => none

/-- The store with one more log entry, stamped with the time of the call. -/
def logs_create (s : State) (now : Nat) (userId : Nat) (action : String) : State :=
  { s with logs := s.logs ++ [{ userId := userId, action := action, createdAt := now }] }

/-- Modelled from the spec: the schema is not among the sources.  A LogEntry belongs to a
User, so `prisma.logs.create({ data: { userId, action } })` throws (`none`) when no user
row has the id, and appends the entry otherwise. -/
def logs_write (s : State) (now : Nat) (userId : Nat) (action : String) : Option State :=
  if s.users.any (fun u => u.id == userId) then some (logs_create s now userId action)
  else none

/-- The end of a handler: `await prisma.logs.create(...)` and then the response.  When the
log write throws, the handler's `catch` answers `failure` and the writes made so far stay. -/
def logged {α : Type} (s : State) (now : Nat) (userId : Nat) (action : String)
    (failure success : Response α) : State × Response α :=
  match logs_write s now userId action with
  | none => (s, failure)
  | some s' => (s', success)

/-- Modelled from the spec: the schema is not among the sources.  Ids are `Int` columns of
the store, which hold 32-bit integers; a value outside that range makes the store call
throw. -/
def intColumn (n : Int) : Bool :=
  decide (-2147483648 ≤ n) && decide (n ≤ 2147483647)

/-- A raw body value that a handler tests with `!v` and reads with `parseInt(v)`: its
truthiness and the integer `parseInt` makes of it (`none` for `NaN`). -/
structure RawId where
  truthy : Bool
  parsed : Option Int
  deriving DecidableEq, Repr

/-- The JSON number `n`. -/
def RawId.number (n : Nat) : RawId := { truthy := n != 0, parsed := some n }

/-- The JSON string `text`, with the integer `parseInt` makes of it. -/
def RawId.text (text : String) (parsed : Option Int) : RawId :=
  { truthy := text != "", parsed := parsed }

/-- A raw body value used as a string condition of a `where`: a falsy value, a string, a
string filter object (given by the strings it accepts), or any other value, which the store
rejects. -/
inductive RawCode where
  | falsy
  | text (code : String)
  | filter (accepts : String → Bool)
  | invalid

def RawCode.truthy : RawCode → Bool
  | .falsy => false
  | .text code => code != ""
  | .filter _ => true
  | .invalid => true

def RawCode.valid : RawCode → Bool
  | .invalid => false
  | _ => true

/-- The condition `{ otp_code: v }` on a stored code. -/
def RawCode.accepts : RawCode → String → Bool
  | .text code, stored => stored == code
  | .filter f, stored => f stored
  | _, _ => false

/-- A raw body value used where the store expects an `Int`: `undefined`, an integer, or
any other value, which the store rejects. -/
inductive RawInt where
  | absent
  | int (n : Int)
  | invalid
  deriving DecidableEq, Repr

def RawInt.valid : RawInt → Bool
  | .absent => true
  | .int n => intColumn n
  | .invalid => false

/-- The condition `{ id: v }`: an `undefined` value is no condition. -/
def RawInt.selects : RawInt → Nat → Bool
  | .absent, _ => true
  | .int n, id => (id : Int) == n
  | .invalid, _ => false

/-- The field after `data: { field: v }`: an `undefined` value leaves it as it is. -/
def RawInt.assign : RawInt → Nat → Nat
  | .absent, old => old
  | .int n, _ => n.toNat
  | .invalid, old => old

/-- The relation filter `vehicle: { userId }` of a slot request. -/
def vehicleOwnedBy (s : State) (r : SlotRequest) (userId : Nat) : Bool :=
  match findUnique Vehicle.id r.vehicleId s.vehicles with
  | some v => v.userId == userId
  | none => false

/-! ## approveRequest -/

structure Approved where
  message : String
  slot : ParkingSlot
  emailStatus : String
  deriving DecidableEq, Repr

/-- The two writes inside the transaction of `approveRequest`. -/
def approveWrites (now id : Nat) (slot : ParkingSlot) (tx : State) : Option State :=
  match updateUnique SlotRequest.id id
      (fun r => { r with request_status := "approved", slot_id := some slot.id,
                         approved_at := some now }) tx.slot_requests with
  | none => none
  | some rs =>
    match updateUnique ParkingSlot.id slot.id
        (fun p => { p with status := "unavailable" }) tx.parking_slots with
    | none => none
    | some ps => some { tx with slot_requests := rs, parking_slots := ps }

def approveRequest (s : State) (now : Nat) (emailOk : Bool) (user : Caller) (id : Nat) :
    State × Response Approved :=
  if user.role != "admin" then
    (s, .error 403 "Admin access required")
  else
    match s.slot_requests.find? (fun r => r.id == id && r.request_status == "pending") with
    | none => (s, .error 404 "Request not found or already processed")
    | some request =>
      -- include: { vehicle: { include: { user: true } } }; destructuring a missing
      -- relation throws
      match findUnique Vehicle.id request.vehicleId s.vehicles with
      | none => (s, .error 500 "Server error")
      | some vehicle =>
        match findUnique User.id vehicle.userId s.users with
        | none => (s, .error 500 "Server error")
        | some _owner =>
          match s.parking_slots.find? (fun p => p.vehicle_type == vehicle.vehicle_type
              && p.size == vehicle.size && p.status == "available") with
          | none => (s, .error 400 "No compatible slots available")
          | some slot =>
            match transaction s (approveWrites now id slot) with
            | none => (s, .error 500 "Server error")
            | some s1 =>
              let emailStatus := if emailOk then "sent" else "failed"
              logged s1 now user.id
                ("Slot request " ++ toString id ++ " approved, assigned slot "
                  ++ slot.slot_number ++ ", email " ++ emailStatus)
                (.error 500 "Server error")
                (.ok 200 { message := "Request approved", slot := slot,
                           emailStatus := emailStatus })

/-! ## rejectRequest -/

structure Rejected where
  message : String
  request : SlotRequest
  emailStatus : String
  deriving DecidableEq, Repr

def rejectRequest (s : State) (now : Nat) (emailOk : Bool) (user : Caller) (id : Nat)
    (reason : String) : State × Response Rejected :=
  if user.role != "admin" then
    (s, .error 403 "Admin access required")
  else if reason == "" then
    (s, .error 400 "Rejection reason is required")
  else
    match s.slot_requests.find? (fun r => r.id == id && r.request_status == "pending") with
    | none => (s, .error 404 "Request not found or already processed")
    | some request =>
      match findUnique Vehicle.id request.vehicleId s.vehicles with
      | none => (s, .error 500 "Server error")
      | some vehicle =>
        match findUnique User.id vehicle.userId s.users with
        | none => (s, .error 500 "Server error")
        | some _owner =>
          -- the slot is looked up for the text of the e-mail only
          let _slot := s.parking_slots.find? (fun p => p.vehicle_type == vehicle.vehicle_type
              && p.size == vehicle.size)
          match updateUnique SlotRequest.id id
              (fun r => { r with request_status := "rejected" }) s.slot_requests with
          | none => (s, .error 500 "Server error")
          | some rs =>
            let s1 := { s with slot_requests := rs }
            let emailStatus := if emailOk then "sent" else "failed"
            logged s1 now user.id
              ("Slot request " ++ toString id ++ " rejected with reason: " ++ reason
                ++ ", email " ++ emailStatus)
              (.error 500 "Server error")
              (.ok 200 { message := "Request rejected",
                         request := { request with request_status := "rejected" },
                         emailStatus := emailStatus })

/-! ## updateRequest and deleteRequest -/

def updateRequest (s : State) (now : Nat) (user : Caller) (id : Nat) (vehicle_id : RawInt) :
    State × Response (Option SlotRequest) :=
  if !vehicle_id.valid then
    -- `vehicles.findFirst` rejects the value
    (s, .error 500 "Server error")
  else
    match s.vehicles.find? (fun v => vehicle_id.selects v.id && v.userId == user.id) with
    | none => (s, .error 404 "Vehicle not found")
    | some _ =>
      let cond := fun (r : SlotRequest) =>
        r.id == id && vehicleOwnedBy s r user.id && r.request_status == "pending"
      if countWhere cond s.slot_requests == 0 then
        (s, .error 404 "Request not found or not editable")
      else
        let rs := updateMany cond
          (fun r => { r with vehicleId := vehicle_id.assign r.vehicleId }) s.slot_requests
        let s1 := { s with slot_requests := rs }
        logged s1 now user.id ("Slot request " ++ toString id ++ " updated")
          (.error 500 "Server error")
          (.ok 200 (findUnique SlotRequest.id id rs))

structure Message where
  message : String
  deriving DecidableEq, Repr

def deleteRequest (s : State) (now : Nat) (user : Caller) (id : Nat) :
    State × Response Message :=
  let cond := fun (r : SlotRequest) =>
    r.id == id && vehicleOwnedBy s r user.id && r.request_status == "pending"
  if countWhere cond s.slot_requests == 0 then
    (s, .error 404 "Request not found or not deletable")
  else
    let s1 := { s with slot_requests := deleteMany cond s.slot_requests }
    logged s1 now user.id ("Slot request " ++ toString id ++ " deleted")
      (.error 500 "Server error")
      (.ok 200 { message := "Request deleted" })

/-! ## verifyOtp -/

/-- The `where` of the lookup in `verifyOtp`: a row of the user that the code condition
accepts, unexpired and unconsumed. -/
def otpUsable (now : Nat) (userId : Int) (otpCode : RawCode) (o : Otp) : Bool :=
  (o.userId : Int) == userId && otpCode.accepts o.otp_code && decide (now < o.expires_at)
    && o.is_verified == false

/-- The OTP table after the `updateMany` of `verifyOtp`. -/
def consumeOtp (userId : Int) (otpCode : RawCode) (rows : List Otp) : List Otp :=
  updateMany (fun o => (o.userId : Int) == userId && otpCode.accepts o.otp_code)
    (fun o => { o with is_verified := true }) rows

def verifyOtp (s : State) (now : Nat) (userId : RawId) (otpCode : RawCode) :
    State × Response Message :=
  if !userId.truthy || !otpCode.truthy then
    (s, .error 400 "User ID and OTP code are required")
  else
    match userId.parsed with
    | none => (s, .error 500 "Server error")
    | some n =>
      if !intColumn n || !otpCode.valid then
        -- `otp.findFirst` rejects the value
        (s, .error 500 "Server error")
      else
        match s.otp.find? (otpUsable now n otpCode) with
        | none => (s, .error 400 "Invalid or expired OTP")
        | some _ =>
          let s1 := { s with otp := consumeOtp n otpCode s.otp }
          match updateUnique User.id n.toNat (fun u => { u with is_verified := true })
              s1.users with
          | none => (s1, .error 500 "Server error")
          | some us =>
            let s2 := { s1 with users := us }
            logged s2 now n.toNat "User verified OTP"
              (.error 500 "Server error")
              (.ok 200 { message := "OTP verified, user registration completed" })

/-! ## Listings -/

/-- The match of a `LIKE` pattern against a text: `%` stands for any run of characters,
`_` for any one character, and a backslash makes the next character literal. -/
def likeMatch : List Char → List Char → Bool
  | [], text => text.isEmpty
  | '%' :: pattern, text => text.tails.any (likeMatch pattern)
  | '_' :: pattern, text =>
    match text with
    | [] => false
    | _ :: rest => likeMatch pattern rest
  | '\\' :: c :: pattern, text =>
    match text with
    | [] => false
    | d :: rest => c == d && likeMatch pattern rest
  | c :: pattern, text =>
    match text with
    | [] => false
    | d :: rest => c == d && likeMatch pattern rest

/-- The string filter `{ contains: search, mode: 'insensitive' }`, which reaches the store
as `ILIKE '%search%'` with the wildcards of `search` left as they are.  Case is folded for
the letters `A` to `Z` only; the store folds letters outside ASCII as well. -/
def containsInsensitive (field search : String) : Bool :=
  likeMatch ('%' :: (search.toList.map Char.toLower ++ ['%'])) (field.toList.map Char.toLower)

/-- The window `skip`/`take` of `findMany` over the ordered matching rows.  A negative `skip`
is rejected by the store (`none`); a negative `take` counts from the end of the list. -/
def window {α : Type} (rows : List α) (skip take : Int) : Option (List α) :=
  if skip < 0 then none
  else if 0 ≤ take then some ((rows.drop skip.toNat).take take.toNat)
  else some (((rows.reverse.drop skip.toNat).take take.natAbs).reverse)

/-- The value of `Math.ceil(totalItems / limit)`: the ceiling of the quotient, and no finite
number (`none`, serialised as `null`) when `limit` is 0. -/
def totalPagesOf (totalItems : Nat) (limit : Int) : Option Int :=
  if limit = 0 then none else some (Int.ceil ((totalItems : ℚ) / (limit : ℚ)))

structure Meta where
  totalItems : Nat
  currentPage : Int
  totalPages : Option Int
  limit : Int
  deriving DecidableEq, Repr

structure Page (α : Type) where
  data : List α
  meta : Meta
  deriving DecidableEq, Repr

structure VehicleSummary where
  plate_number : String
  vehicle_type : String
  deriving DecidableEq, Repr

structure RequestRow where
  request : SlotRequest
  vehicle : Option VehicleSummary
  deriving DecidableEq, Repr

/-- The `searchFilter` of `getRequests`. -/
def requestSearchFilter (s : State) (search : String) (r : SlotRequest) : Bool :=
  (match findUnique Vehicle.id r.vehicleId s.vehicles with
   | some v => containsInsensitive v.plate_number search
   | none => false)
  || containsInsensitive r.request_status search

/-- The `whereFilter` of `getRequests`. -/
def requestWhereFilter (s : State) (user : Caller) (search : String) (r : SlotRequest) : Bool :=
  if user.role == "admin" then requestSearchFilter s search r
  else requestSearchFilter s search r && vehicleOwnedBy s r user.id

def getRequests (s : State) (now : Nat) (user : Caller) (page limit : Option Int)
    (search : Option String) : State × Response (Page RequestRow) :=
  let page := page.getD 1
  let limit := limit.getD 10
  let search := search.getD ""
  let skip := (page - 1) * limit
  let totalItems := countWhere (requestWhereFilter s user search) s.slot_requests
  let ordered := (s.slot_requests.filter (requestWhereFilter s user search)).insertionSort
    (fun a b => a.id ≤ b.id)
  match window ordered skip limit with
  | none => (s, .error 500 "Server error")
  | some requests =>
    logged s now user.id "Slot requests list viewed"
      (.error 500 "Server error")
      (.ok 200
        { data := requests.map (fun r =>
            { request := r,
              vehicle := (findUnique Vehicle.id r.vehicleId s.vehicles).map
                (fun v => { plate_number := v.plate_number,
                            vehicle_type := v.vehicle_type }) }),
          meta := { totalItems := totalItems, currentPage := page,
                    totalPages := totalPagesOf totalItems limit, limit := limit } })

/-- The `where` of `getSlots`. -/
def slotWhere (user : Caller) (search : String) (p : ParkingSlot) : Bool :=
  (containsInsensitive p.slot_number search || containsInsensitive p.vehicle_type search)
  && (if user.role == "admin" then true else p.status == "available")

def getSlots (s : State) (now : Nat) (user : Caller) (page limit : Option Int)
    (search : Option String) : State × Response (Page ParkingSlot) :=
  let page := page.getD 1
  let limit := limit.getD 10
  let search := search.getD ""
  let offset := (page - 1) * limit
  let totalItems := countWhere (slotWhere user search) s.parking_slots
  let ordered := (s.parking_slots.filter (slotWhere user search)).insertionSort
    (fun a b => a.id ≤ b.id)
  match window ordered offset limit with
  | none => (s, .error 500 "Server error")
  | some slots =>
    logged s now user.id "Slots list viewed"
      (.error 500 "Server error")
      (.ok 200
        { data := slots,
          meta := { totalItems := totalItems, currentPage := page,
                    totalPages := totalPagesOf totalItems limit, limit := limit } })

structure UserSummary where
  id : Nat
  name : String
  email : String
  deriving DecidableEq, Repr

structure LogRow where
  log : Log
  user : Option UserSummary
  deriving DecidableEq, Repr

/-- The `whereClause` of `getLogs`.  `searchNumber` is `Number(search)`, `none` when that is
`NaN` (the `userId` condition is then popped). -/
def logWhere (search : String) (searchNumber : Option Int) (l : Log) : Bool :=
  containsInsensitive l.action search
  || (match searchNumber with
      | some n => (l.userId : Int) == n
      | none => false)

def getLogs (s : State) (now : Nat) (user : Caller) (page limit : Option Int)
    (search : Option String) (searchNumber : Option Int) : State × Response (Page LogRow) :=
  let page := page.getD 1
  let limit := limit.getD 10
  let search := search.getD ""
  if user.role != "admin" then
    (s, .error 403 "Admin access required")
  else
    let offset := (page - 1) * limit
    let ordered := (s.logs.filter (logWhere search searchNumber)).insertionSort
      (fun a b => b.createdAt ≤ a.createdAt)
    let totalItems := countWhere (logWhere search searchNumber) s.logs
    match window ordered offset limit with
    | none => (s, .error 500 "Server error")
    | some logs =>
      logged s now user.id "Logs list viewed"
        (.error 500 "Server error")
        (.ok 200
          { data := logs.map (fun l =>
              { log := l,
                user := (findUnique User.id l.userId s.users).map
                  (fun u => { id := u.id, name := u.name, email := u.email }) }),
            meta := { totalItems := totalItems, currentPage := page,
                      totalPages := totalPagesOf totalItems limit, limit := limit } })

/-! ## Store well-formedness and sample stores -/

/-- Row ids are unique keys: the handlers address rows with `findUnique` and `update`
`where: { id }`, which the ORM admits for unique fields only. -/
def PrimaryKeys (s : State) : Prop :=
  (s.users.map User.id).Nodup ∧ (s.otp.map Otp.id).Nodup ∧ (s.vehicles.map Vehicle.id).Nodup
  ∧ (s.parking_slots.map ParkingSlot.id).Nodup ∧ (s.slot_requests.map SlotRequest.id).Nodup

instance (s : State) : Decidable (PrimaryKeys s) := by
  unfold PrimaryKeys; infer_instance

def adminCaller : Caller := { id := 1, role := "admin" }

def annCaller : Caller := { id := 2, role := "user" }

def bobCaller : Caller := { id := 3, role := "user" }

/-- A store with an admin, two users owning one small car each, two pending requests and a
single slot for small cars. -/
def demoStore : State :=
  { users := [⟨1, "Admin", "admin@park.com", "h1", "admin", true⟩,
              ⟨2, "Ann", "ann@x.com", "h2", "user", false⟩,
              ⟨3, "Bob", "bob@x.com", "h3", "user", true⟩],
    otp := [⟨1, 2, "123456", 100, false⟩],
    vehicles := [⟨1, 2, "RAA001", "car", "small"⟩, ⟨2, 3, "RAB002", "car", "small"⟩],
    parking_slots := [⟨1, "A1", "small", "car", "north", "available"⟩,
                      ⟨2, "B1", "large", "truck", "south", "unavailable"⟩],
    slot_requests := [⟨1, 1, "pending", none, none⟩, ⟨2, 2, "pending", none, none⟩],
    logs := [] }

/-- A store in which request 1 has been approved (slot 1 taken) and request 2 rejected. -/
def terminalStore : State :=
  { users := [⟨1, "Admin", "admin@park.com", "h1", "admin", true⟩,
              ⟨2, "Ann", "ann@x.com", "h2", "user", true⟩,
              ⟨3, "Bob", "bob@x.com", "h3", "user", true⟩],
    otp := [],
    vehicles := [⟨1, 2, "RAA001", "car", "small"⟩, ⟨2, 3, "RAB002", "car", "small"⟩],
    parking_slots := [⟨1, "A1", "small", "car", "north", "unavailable"⟩,
                      ⟨2, "A2", "small", "car", "north", "available"⟩],
    slot_requests := [⟨1, 1, "approved", some 1, some 3⟩, ⟨2, 2, "rejected", none, none⟩],
    logs := [] }

/-- The four operations on a slot request, with the caller and arguments of one call. -/
inductive RequestOp where
  | update (user : Caller) (id : Nat) (vehicle_id : RawInt)
  | delete (user : Caller) (id : Nat)
  | approve (emailOk : Bool) (user : Caller) (id : Nat)
  | reject (emailOk : Bool) (user : Caller) (id : Nat) (reason : String)
  deriving DecidableEq, Repr

/-- The store after one call made at time `now`. -/
def RequestOp.run (s : State) (now : Nat) : RequestOp → State
  | .update user id vehicle_id => (updateRequest s now user id vehicle_id).1
  | .delete user id => (deleteRequest s now user id).1
  | .approve emailOk user id => (approveRequest s now emailOk user id).1
  | .reject emailOk user id reason => (rejectRequest s now emailOk user id reason).1

/-- The store after a sequence of calls, each with its time. -/
def runOps (s : State) : List (Nat × RequestOp) → State
  | [] => s
  | (now, op) :: rest => runOps (op.run s now) rest

/-- The store written by a successful `approveRequest`, before the log entry. -/
def approvedStore (s : State) (now id : Nat) (slot : ParkingSlot) : State :=
  { s with
    slot_requests := updateMany (fun r => r.id == id)
      (fun r => { r with request_status := "approved", slot_id := some slot.id,
                         approved_at := some now }) s.slot_requests,
    parking_slots := updateMany (fun p => p.id == slot.id)
      (fun p => { p with status := "unavailable" }) s.parking_slots }

/-- Modelled from the spec: the schema is not among the sources.  An OtpCode belongs to one
User: `otp.userId` is a foreign key into `users`. -/
def OtpOwnersExist (s : State) : Prop :=
  ∀ o ∈ s.otp, ∃ u ∈ s.users, u.id = o.userId

instance (s : State) : Decidable (OtpOwnersExist s) := by
  unfold OtpOwnersExist; infer_instance

/-- The payload of a successful response. -/
def Response.payload? {α : Type} : Response α → Option α
  | .ok _ p => some p
  | .error _ _ => none

/-- The pagination contract of a list response for the limit in force and the number of
rows matching the filter: `totalItems` is that number, `data` holds at most `limit` rows,
and `totalPages` is the ceiling of `totalItems / limit`, the least number of pages of
`limit` rows that hold `totalItems` rows. -/
def PaginationContract {α : Type} (limit : Int) (matching : Nat) (p : Page α) : Prop :=
  p.meta.totalItems = matching
  ∧ (0 ≤ limit → (p.data.length : Int) ≤ limit)
  ∧ (limit ≠ 0 → p.meta.totalPages = some (Int.ceil ((p.meta.totalItems : ℚ) / (limit : ℚ))))
  ∧ (1 ≤ limit → ∃ n : Int, p.meta.totalPages = some n
      ∧ (n - 1) * limit < (p.meta.totalItems : Int) ∧ (p.meta.totalItems : Int) ≤ n * limit)

/-! ## login -/

structure LoginUser where
  id : Nat
  name : String
  email : String
  role : String
  deriving DecidableEq, Repr

structure LoggedIn where
  token : String
  user : LoginUser
  deriving DecidableEq, Repr

/-- The handler `login`.  `compare` is `bcrypt.compare(password, hash)` and `sign` is
`jwt.sign({ id, email, role }, secret, { expiresIn: '1h' })`; both are external. -/
def login (s : State) (now : Nat) (compare : String → String → Bool)
    (sign : Nat → String → String → String) (email password : String) :
    State × Response LoggedIn :=
  if email == "" || password == "" then
    (s, .error 400 "Email and password are required")
  else
    match s.users.find? (fun u => u.email == email) with
    | none => (s, .error 401 "Invalid credentials")
    | some user =>
      if !user.is_verified then
        (s, .error 403 "Account not verified. Please verify OTP.")
      else if !(compare password user.password) then
        (s, .error 401 "Invalid credentials")
      else
        let token := sign user.id user.email user.role
        logged s now user.id "User logged in"
          (.error 500 "Server error")
          (.ok 200 { token := token,
                     user := { id := user.id, name := user.name, email := user.email,
                               role := user.role } })

/-- A stand-in for `bcrypt.compare` on the sample stores: the stored hash of a password is
the password itself. -/
def plainCompare (password hash : String) : Bool := password == hash

/-- A stand-in for `jwt.sign` on the sample stores. -/
def plainSign (id : Nat) (email role : String) : String :=
  toString id ++ ":" ++ email ++ ":" ++ role

/-! ## The remaining handlers

The schema is not among the sources.  From the spec: a user's email, a vehicle's plate number
and a slot's number are unique; a new slot is `available`, a new request has no slot, a new
OTP code is unconsumed.  The id of a new row is taken to be one more than the largest id in
its table (any unused id would do).  A vehicle, an OTP row and a log entry belong to a user:
a user that still has such rows cannot be deleted, and a vehicle or a log entry cannot be
created for a user that has no row.  What the schema does to the rows that reference a
deleted vehicle or slot is not modelled. -/

/-- Modelled from the spec: the schema is not among the sources.  The id the store gives a
new row, taken to be one more than the largest id in its table; any unused id would do. -/
def nextId (ids : List Nat) : Nat :=
  ids.foldr max 0 + 1

/-- Unique `delete({ where: { id } })`: throws (`none`) when no record has the key. -/
def deleteUnique {α : Type} (key : α → Nat) (id : Nat) (rows : List α) : Option (List α) :=
  if rows.any (fun r => key r == id) then
    some (deleteMany (fun r => key r == id) rows)
  else none

structure Registered where
  message : String
  userId : Nat
  deriving DecidableEq, Repr

/-- The handler `register`.  `hash` is `bcrypt.hash(password, 10)` and `otpCode` the six
random digits. -/
def register (s : State) (now : Nat) (emailOk : Bool) (hash : String → String)
    (otpCode name email password : String) : State × Response Registered :=
  match s.users.find? (fun u => u.email == email) with
  | some _ => (s, .error 400 "Email already exists")
  | none =>
    -- the count of admins is only written to the console
    let hashedPassword := hash password
    let expiresAt := now + 15 * 60 * 1000
    if !emailOk then
      (s, .error 500 "Failed to send OTP email")
    else
      let newUser : User :=
        { id := nextId (s.users.map User.id), name := name, email := email,
          password := hashedPassword, role := "user", is_verified := false }
      let newOtp : Otp :=
        { id := nextId (s.otp.map Otp.id), userId := newUser.id, otp_code := otpCode,
          expires_at := expiresAt, is_verified := false }
      let s1 := { s with users := s.users ++ [newUser] }
      let s2 := { s1 with otp := s1.otp ++ [newOtp] }
      (s2, .ok 201 { message := "User registered, OTP sent to email", userId := newUser.id })

def resendOtp (s : State) (now : Nat) (emailOk : Bool) (otpCode : String) (userId : RawId) :
    State × Response Message :=
  if !userId.truthy then
    (s, .error 400 "User ID is required")
  else
    match userId.parsed with
    | none => (s, .error 500 "Server error")
    | some n =>
      if !intColumn n then
        -- `users.findFirst` rejects the value
        (s, .error 500 "Server error")
      else
        match s.users.find? (fun u => (u.id : Int) == n && u.is_verified == false) with
        | none => (s, .error 400 "User not found or already verified")
        | some user =>
          let expiresAt := now + 5 * 60 * 1000
          let kept := deleteMany (fun o => o.userId == user.id) s.otp
          let newOtp : Otp :=
            { id := nextId (s.otp.map Otp.id), userId := user.id, otp_code := otpCode,
              expires_at := expiresAt, is_verified := false }
          let s1 := { s with otp := kept ++ [newOtp] }
          if !emailOk then
            (s1, .error 500 "Failed to resend OTP email")
          else
            logged s1 now user.id "OTP resent"
              (.error 500 "Server error")
              (.ok 200 { message := "OTP resent to email" })

/-! ### Users -/

/-- The handler `updateProfile`; an empty field is one that was not supplied. -/
def updateProfile (s : State) (now : Nat) (hash : String → String) (user : Caller)
    (name email password : String) : State × Response LoginUser :=
  let change := fun (u : User) =>
    { u with name := if name != "" then name else u.name,
             email := if email != "" then email else u.email,
             password := if password != "" then hash password else u.password }
  if email != "" && s.users.any (fun u => u.id != user.id && u.email == email) then
    -- unique email
    (s, .error 500 "Server error")
  else
    match findUnique User.id user.id s.users, updateUnique User.id user.id change s.users with
    | some u, some us =>
      let updatedUser := change u
      let s1 := { s with users := us }
      logged s1 now user.id "User profile updated"
        (.error 500 "Server error")
        (.ok 200 { id := updatedUser.id, name := updatedUser.name,
                   email := updatedUser.email, role := updatedUser.role })
    | _, _ => (s, .error 500 "Server error")

structure UserRow where
  id : Nat
  name : String
  email : String
  role : String
  is_verified : Bool
  deriving DecidableEq, Repr

/-- The `where` of `getUsers`. -/
def userWhere (search : String) (u : User) : Bool :=
  containsInsensitive u.name search || containsInsensitive u.email search

def getUsers (s : State) (now : Nat) (user : Caller) (page limit : Option Int)
    (search : Option String) : State × Response (Page UserRow) :=
  let page := page.getD 1
  let limit := limit.getD 10
  let search := search.getD ""
  let skip := (page - 1) * limit
  let ordered := (s.users.filter (userWhere search)).insertionSort (fun a b => a.id ≤ b.id)
  let totalItems := countWhere (userWhere search) s.users
  match window ordered skip limit with
  | none => (s, .error 500 "Server error")
  | some users =>
    logged s now user.id "Users list viewed"
      (.error 500 "Server error")
      (.ok 200
        { data := users.map (fun u =>
            { id := u.id, name := u.name, email := u.email, role := u.role,
              is_verified := u.is_verified }),
          meta := { totalItems := totalItems, currentPage := page,
                    totalPages := totalPagesOf totalItems limit, limit := limit } })

/-- Modelled from the spec: the schema is not among the sources.  Whether a row of `otp`,
`vehicles` or `logs` belongs to the user `id`; the store refuses to delete such a user. -/
def userReferenced (s : State) (id : Nat) : Bool :=
  s.otp.any (fun o => o.userId == id) || s.vehicles.any (fun v => v.userId == id)
    || s.logs.any (fun l => l.userId == id)

def deleteUser (s : State) (now : Nat) (user : Caller) (id : Nat) :
    State × Response Message :=
  match deleteUnique User.id id s.users with
  | none => (s, .error 500 "Server error")
  | some us =>
    if userReferenced s id then
      (s, .error 500 "Server error")
    else
      let s1 := { s with users := us }
      logged s1 now user.id ("User " ++ toString id ++ " deleted")
        (.error 500 "Server error")
        (.ok 200 { message := "User deleted" })

/-! ### Vehicles -/

def createVehicle (s : State) (now : Nat) (user : Caller)
    (plate_number vehicle_type size : String) : State × Response Vehicle :=
  if s.vehicles.any (fun v => v.plate_number == plate_number)
      || !s.users.any (fun u => u.id == user.id) then
    -- unique plate number; the owner is a user
    (s, .error 400 "Plate number already exists or server error")
  else
    let vehicle : Vehicle :=
      { id := nextId (s.vehicles.map Vehicle.id), userId := user.id,
        plate_number := plate_number, vehicle_type := vehicle_type, size := size }
    let s1 := { s with vehicles := s.vehicles ++ [vehicle] }
    logged s1 now user.id ("Vehicle " ++ plate_number ++ " created")
      (.error 400 "Plate number already exists or server error")
      (.ok 201 vehicle)

structure VehicleRow where
  vehicle : Vehicle
  slot_requests : List SlotRequest
  approval_status : Option String
  deriving DecidableEq, Repr

/-- The `where` of `getVehicles`.  `searchNumber` is `parseInt(searchQuery)`, `none` when
`isNaN(searchQuery)`. -/
def vehicleWhere (user : Caller) (search : String) (searchNumber : Option Int) (v : Vehicle) :
    Bool :=
  let searchQuery := search.toLower
  let searchCondition :=
    containsInsensitive v.plate_number searchQuery
    || containsInsensitive v.vehicle_type searchQuery
    || (match searchNumber with
        | some n => (v.id : Int) == n
        | none => false)
  if searchQuery != "" then
    (if user.role == "admin" then searchCondition else v.userId == user.id && searchCondition)
  else if user.role != "admin" then v.userId == user.id
  else true

def getVehicles (s : State) (now : Nat) (user : Caller) (page limit : Option Int)
    (search : Option String) (searchNumber : Option Int) : State × Response (Page VehicleRow) :=
  let page := page.getD 1
  let limit := limit.getD 10
  let search := search.getD ""
  let offset := (page - 1) * limit
  let totalItems := countWhere (vehicleWhere user search searchNumber) s.vehicles
  let ordered := (s.vehicles.filter (vehicleWhere user search searchNumber)).insertionSort
    (fun a b => a.id ≤ b.id)
  match window ordered offset limit with
  | none => (s, .error 500 "Server error")
  | some vehicles =>
    let data := vehicles.map (fun v =>
      let approved := (s.slot_requests.filter
        (fun r => r.vehicleId == v.id && r.request_status == "approved")).take 1
      { vehicle := v, slot_requests := approved,
        approval_status := approved.head?.map SlotRequest.request_status : VehicleRow })
    logged s now user.id "Vehicles list viewed"
      (.error 500 "Server error")
      (.ok 200
        { data := data,
          meta := { totalItems := totalItems, currentPage := page,
                    totalPages := totalPagesOf totalItems limit, limit := limit } })

def updateVehicle (s : State) (now : Nat) (user : Caller) (id : Nat)
    (plate_number vehicle_type size : String) : State × Response (Option Vehicle) :=
  let cond := fun (v : Vehicle) => v.id == id && v.userId == user.id
  if s.vehicles.any cond
      && s.vehicles.any (fun v => !cond v && v.plate_number == plate_number) then
    -- unique plate number
    (s, .error 400 "Plate number already exists or server error")
  else if countWhere cond s.vehicles == 0 then
    (s, .error 404 "Vehicle not found")
  else
    let vs := updateMany cond
      (fun v => { v with plate_number := plate_number, vehicle_type := vehicle_type,
                         size := size }) s.vehicles
    let s1 := { s with vehicles := vs }
    logged s1 now user.id ("Vehicle " ++ plate_number ++ " updated")
      (.error 400 "Plate number already exists or server error")
      (.ok 200 (findUnique Vehicle.id id vs))

def deleteVehicle (s : State) (now : Nat) (user : Caller) (id : Nat) :
    State × Response Message :=
  match s.vehicles.find? (fun v => v.id == id
      && (if user.role == "admin" then true else v.userId == user.id)) with
  | none => (s, .error 404 "Vehicle not found")
  | some vehicle =>
    match deleteUnique Vehicle.id vehicle.id s.vehicles with
    | none => (s, .error 500 "Server error")
    | some vs =>
      let s1 := { s with vehicles := vs }
      logged s1 now user.id ("Vehicle " ++ vehicle.plate_number ++ " deleted")
        (.error 500 "Server error")
        (.ok 200 { message := "Vehicle deleted" })

/-! ### Slots -/

structure SlotInput where
  slot_number : String
  size : String
  vehicle_type : String
  location : String
  deriving DecidableEq, Repr

/-- Rows after `createMany({ data, skipDuplicates: true })`: an input whose slot number is
already in the table is skipped. -/
def createManySlots : List SlotInput → List ParkingSlot → List ParkingSlot
  | [], rows => rows
  | i :: rest, rows =>
    if rows.any (fun p => p.slot_number == i.slot_number) then
      createManySlots rest rows
    else
      let created : ParkingSlot :=
        { id := nextId (rows.map ParkingSlot.id), slot_number := i.slot_number,
          size := i.size, vehicle_type := i.vehicle_type, location := i.location,
          status := "available" }
      createManySlots rest (rows ++ [created])

def bulkCreateSlots (s : State) (now : Nat) (user : Caller) (slots : List SlotInput) :
    State × Response (List ParkingSlot) :=
  let s1 := { s with parking_slots := createManySlots slots s.parking_slots }
  let allCreated := (s1.parking_slots.insertionSort (fun a b => b.id ≤ a.id)).take slots.length
  logged s1 now user.id ("Bulk created " ++ toString slots.length ++ " slots")
    (.error 400 "Slot number already exists or server error")
    (.ok 201 allCreated)

def updateSlot (s : State) (now : Nat) (user : Caller) (id : Nat)
    (slot_number size vehicle_type location : String) : State × Response ParkingSlot :=
  if s.parking_slots.any (fun p => p.id != id && p.slot_number == slot_number) then
    -- unique slot number
    (s, .error 400 "Slot not found or already exists")
  else
    let change := fun (p : ParkingSlot) =>
      { p with slot_number := slot_number, size := size, vehicle_type := vehicle_type,
               location := location }
    match findUnique ParkingSlot.id id s.parking_slots,
        updateUnique ParkingSlot.id id change s.parking_slots with
    | some p, some ps =>
      let s1 := { s with parking_slots := ps }
      logged s1 now user.id ("Slot " ++ slot_number ++ " updated")
        (.error 400 "Slot not found or already exists")
        (.ok 200 (change p))
    | _, _ => (s, .error 400 "Slot not found or already exists")

def deleteSlot (s : State) (now : Nat) (user : Caller) (id : Nat) :
    State × Response Message :=
  match findUnique ParkingSlot.id id s.parking_slots,
      deleteUnique ParkingSlot.id id s.parking_slots with
  | some deletedSlot, some ps =>
    let s1 := { s with parking_slots := ps }
    logged s1 now user.id ("Slot " ++ deletedSlot.slot_number ++ " deleted")
      (.error 404 "Slot not found")
      (.ok 200 { message := "Slot deleted" })
  | _, _ => (s, .error 404 "Slot not found")

/-! ### createRequest -/

def createRequest (s : State) (now : Nat) (user : Caller) (vehicle_id : RawInt) :
    State × Response SlotRequest :=
  if !vehicle_id.valid then
    -- `vehicles.findFirst` rejects the value
    (s, .error 500 "Server error")
  else
    match s.vehicles.find? (fun v => vehicle_id.selects v.id && v.userId == user.id) with
    | none => (s, .error 404 "Vehicle not found")
    | some _ =>
      match vehicle_id with
      | .int n =>
        let slotRequest : SlotRequest :=
          { id := nextId (s.slot_requests.map SlotRequest.id), vehicleId := n.toNat,
            request_status := "pending", slot_id := none, approved_at := none }
        let s1 := { s with slot_requests := s.slot_requests ++ [slotRequest] }
        logged s1 now user.id ("Slot request created for vehicle " ++ toString n)
          (.error 500 "Server error")
          (.ok 201 slotRequest)
      | _ =>
        -- `slot_requests.create` without its vehicle
        (s, .error 500 "Server error")

/-! ## Operations as data -/

/-- The external functions of the handlers: `bcrypt.hash`, `bcrypt.compare`, `jwt.sign`. -/
structure Env where
  hash : String → String
  compare : String → String → Bool
  sign : Nat → String → String → String

/-- A stand-in for `bcrypt.hash` on the sample stores. -/
def plainHash (password : String) : String := password

def plainEnv : Env := { hash := plainHash, compare := plainCompare, sign := plainSign }

/-- Status and success of a response, without its payload. -/
structure Outcome where
  status : Nat
  ok : Bool
  deriving DecidableEq, Repr

def Response.outcome {α : Type} (r : Response α) : Outcome :=
  { status := r.status, ok := r.isOk }

/-- One call of a handler, with its caller and arguments. -/
inductive Operation where
  | register (emailOk : Bool) (otpCode name email password : String)
  | verifyOtp (userId : RawId) (otpCode : RawCode)
  | resendOtp (emailOk : Bool) (otpCode : String) (userId : RawId)
  | login (email password : String)
  | updateProfile (user : Caller) (name email password : String)
  | getUsers (user : Caller) (page limit : Option Int) (search : Option String)
  | deleteUser (user : Caller) (id : Nat)
  | createVehicle (user : Caller) (plate_number vehicle_type size : String)
  | getVehicles (user : Caller) (page limit : Option Int) (search : Option String)
      (searchNumber : Option Int)
  | updateVehicle (user : Caller) (id : Nat) (plate_number vehicle_type size : String)
  | deleteVehicle (user : Caller) (id : Nat)
  | bulkCreateSlots (user : Caller) (slots : List SlotInput)
  | getSlots (user : Caller) (page limit : Option Int) (search : Option String)
  | updateSlot (user : Caller) (id : Nat) (slot_number size vehicle_type location : String)
  | deleteSlot (user : Caller) (id : Nat)
  | createRequest (user : Caller) (vehicle_id : RawInt)
  | getRequests (user : Caller) (page limit : Option Int) (search : Option String)
  | updateRequest (user : Caller) (id : Nat) (vehicle_id : RawInt)
  | deleteRequest (user : Caller) (id : Nat)
  | approveRequest (emailOk : Bool) (user : Caller) (id : Nat)
  | rejectRequest (emailOk : Bool) (user : Caller) (id : Nat) (reason : String)
  | getLogs (user : Caller) (page limit : Option Int) (search : Option String)
      (searchNumber : Option Int)

/-- Drops the payload of a handler's result. -/
def summary {α : Type} (r : State × Response α) : State × Outcome :=
  (r.1, r.2.outcome)

/-- The store and the outcome after one call made at time `now`. -/
def Operation.exec (env : Env) (s : State) (now : Nat) : Operation → State × Outcome
  | .register emailOk otpCode name email password =>
    summary (Parking.register s now emailOk env.hash otpCode name email password)
  | .verifyOtp userId otpCode => summary (Parking.verifyOtp s now userId otpCode)
  | .resendOtp emailOk otpCode userId => summary (Parking.resendOtp s now emailOk otpCode userId)
  | .login email password => summary (Parking.login s now env.compare env.sign email password)
  | .updateProfile user name email password =>
    summary (Parking.updateProfile s now env.hash user name email password)
  | .getUsers user page limit search => summary (Parking.getUsers s now user page limit search)
  | .deleteUser user id => summary (Parking.deleteUser s now user id)
  | .createVehicle user plate_number vehicle_type size =>
    summary (Parking.createVehicle s now user plate_number vehicle_type size)
  | .getVehicles user page limit search searchNumber =>
    summary (Parking.getVehicles s now user page limit search searchNumber)
  | .updateVehicle user id plate_number vehicle_type size =>
    summary (Parking.updateVehicle s now user id plate_number vehicle_type size)
  | .deleteVehicle user id => summary (Parking.deleteVehicle s now user id)
  | .bulkCreateSlots user slots => summary (Parking.bulkCreateSlots s now user slots)
  | .getSlots user page limit search => summary (Parking.getSlots s now user page limit search)
  | .updateSlot user id slot_number size vehicle_type location =>
    summary (Parking.updateSlot s now user id slot_number size vehicle_type location)
  | .deleteSlot user id => summary (Parking.deleteSlot s now user id)
  | .createRequest user vehicle_id => summary (Parking.createRequest s now user vehicle_id)
  | .getRequests user page limit search =>
    summary (Parking.getRequests s now user page limit search)
  | .updateRequest user id vehicle_id => summary (Parking.updateRequest s now user id vehicle_id)
  | .deleteRequest user id => summary (Parking.deleteRequest s now user id)
  | .approveRequest emailOk user id => summary (Parking.approveRequest s now emailOk user id)
  | .rejectRequest emailOk user id reason =>
    summary (Parking.rejectRequest s now emailOk user id reason)
  | .getLogs user page limit search searchNumber =>
    summary (Parking.getLogs s now user page limit search searchNumber)

/-- The acting user of a call: the caller, or the user the call names (`verifyOtp`,
`resendOtp`), or the user with the email (`login`).  `register` has none. -/
def Operation.actor (s : State) : Operation → Option Nat
  | .register _ _ _ _ _ => none
  | .verifyOtp userId _ => userId.parsed.map Int.toNat
  | .resendOtp _ _ userId => userId.parsed.map Int.toNat
  | .login email _ => (s.users.find? (fun u => u.email == email)).map User.id
  | .updateProfile user _ _ _ => some user.id
  | .getUsers user _ _ _ => some user.id
  | .deleteUser user _ => some user.id
  | .createVehicle user _ _ _ => some user.id
  | .getVehicles user _ _ _ _ => some user.id
  | .updateVehicle user _ _ _ _ => some user.id
  | .deleteVehicle user _ => some user.id
  | .bulkCreateSlots user _ => some user.id
  | .getSlots user _ _ _ => some user.id
  | .updateSlot user _ _ _ _ _ => some user.id
  | .deleteSlot user _ => some user.id
  | .createRequest user _ => some user.id
  | .getRequests user _ _ _ => some user.id
  | .updateRequest user _ _ => some user.id
  | .deleteRequest user _ => some user.id
  | .approveRequest _ user _ => some user.id
  | .rejectRequest _ user _ _ => some user.id
  | .getLogs user _ _ _ _ => some user.id

/-- The audit contract of one call from store `s` to store `s'`: a successful call appends
exactly one entry, by the acting user and stamped with the time of the call; a failing call
appends none. -/
def AuditContract (s s' : State) (ok : Bool) (actor : Option Nat) (now : Nat) : Prop :=
  (ok = true → ∃ userId action, actor = some userId
      ∧ s'.logs = s.logs ++ [{ userId := userId, action := action, createdAt := now }])
  ∧ (ok = false → s'.logs = s.logs)

/-- The operations of the request workflow and of slot creation and update. -/
inductive WorkflowOp where
  | createRequest (user : Caller) (vehicle_id : RawInt)
  | updateRequest (user : Caller) (id : Nat) (vehicle_id : RawInt)
  | deleteRequest (user : Caller) (id : Nat)
  | approveRequest (emailOk : Bool) (user : Caller) (id : Nat)
  | rejectRequest (emailOk : Bool) (user : Caller) (id : Nat) (reason : String)
  | bulkCreateSlots (user : Caller) (slots : List SlotInput)
  | updateSlot (user : Caller) (id : Nat) (slot_number size vehicle_type location : String)

/-- The store after one workflow call made at time `now`. -/
def WorkflowOp.run (s : State) (now : Nat) : WorkflowOp → State
  | .createRequest user vehicle_id => (Parking.createRequest s now user vehicle_id).1
  | .updateRequest user id vehicle_id => (Parking.updateRequest s now user id vehicle_id).1
  | .deleteRequest user id => (Parking.deleteRequest s now user id).1
  | .approveRequest emailOk user id => (Parking.approveRequest s now emailOk user id).1
  | .rejectRequest emailOk user id reason =>
    (Parking.rejectRequest s now emailOk user id reason).1
  | .bulkCreateSlots user slots => (Parking.bulkCreateSlots s now user slots).1
  | .updateSlot user id slot_number size vehicle_type location =>
    (Parking.updateSlot s now user id slot_number size vehicle_type location).1

/-- The store after a sequence of workflow calls, each with its time. -/
def runWorkflow (s : State) : List (Nat × WorkflowOp) → State
  | [] => s
  | (now, op) :: rest => runWorkflow (op.run s now) rest

/-- The slot-assignment invariant: approved requests with different ids hold different
slots, and the slot of an approved request is a stored slot with status `unavailable`. -/
def SlotsAssignedOnce (s : State) : Prop :=
  (∀ r1 ∈ s.slot_requests, ∀ r2 ∈ s.slot_requests,
      r1.request_status = "approved" → r2.request_status = "approved" → r1.id ≠ r2.id →
      r1.slot_id ≠ r2.slot_id)
  ∧ (∀ r ∈ s.slot_requests, r.request_status = "approved" →
      ∃ p ∈ s.parking_slots, r.slot_id = some p.id ∧ p.status = "unavailable")

/-- A store like `demoStore` with one more user, who owns no row. -/
def guestStore : State :=
  { demoStore with
    users := demoStore.users ++ [⟨4, "Guest", "guest@x.com", "h4", "user", true⟩] }

def Operation.isRegister : Operation → Bool
  | .register _ _ _ _ _ => true
  | _ => false

/-- A sequence of workflow calls on `demoStore`: both requests compete for the single slot,
a second slot is created, and a new request is made and approved. -/
def demoWorkflow : List (Nat × WorkflowOp) :=
  [(7, .approveRequest true adminCaller 1), (8, .approveRequest true adminCaller 2),
   (9, .bulkCreateSlots adminCaller [⟨"A2", "small", "car", "north"⟩]),
   (10, .approveRequest false adminCaller 2),
   (11, .updateSlot adminCaller 1 "A1" "large" "truck" "north"),
   (12, .createRequest annCaller (.int 1)), (13, .approveRequest true adminCaller 3)]

/-! ## Store lemmas -/

theorem updateMany_cons {α : Type} (p : α → Bool) (f : α → α) (a : α) (t : List α) :
    updateMany p f (a :: t) = (if p a then f a else a) :: updateMany p f t := rfl

theorem findUnique_updateMany_key {α : Type} (key : α → Nat) (id : Nat) (f : α → α)
    (rows : List α) (hf : ∀ r, key (f r) = key r) :
    findUnique key id (updateMany (fun r => key r == id) f rows)
      = (findUnique key id rows).map f := by
  induction rows with
  | nil => rfl
  | cons a t ih =>
    rw [updateMany_cons]
    unfold findUnique at ih ⊢
    cases h1 : (key a == id)
    · simp only [List.find?_cons, h1, Bool.false_eq_true, if_false]
      exact ih
    · have h2 : (key (f a) == id) = true := by rw [hf]; exact h1
      simp only [List.find?_cons, h1, h2, if_true, Option.map_some']

theorem findUnique_updateMany_other {α : Type} (key : α → Nat) (id id' : Nat) (f : α → α)
    (rows : List α) (hf : ∀ r, key (f r) = key r) (hne : id' ≠ id) :
    findUnique key id' (updateMany (fun r => key r == id) f rows)
      = findUnique key id' rows := by
  induction rows with
  | nil => rfl
  | cons a t ih =>
    rw [updateMany_cons]
    unfold findUnique at ih ⊢
    cases h1 : (key a == id)
    · simp only [List.find?_cons, Bool.false_eq_true, if_false]
      rw [ih]
    · have hka : key a = id := by simpa using h1
      have h2 : (key a == id') = false := by
        rw [hka]; exact beq_eq_false_iff_ne.mpr (fun e => hne e.symm)
      have h3 : (key (f a) == id') = false := by rw [hf]; exact h2
      simp only [List.find?_cons, h2, h3, if_true]
      exact ih

theorem updateUnique_eq_some {α : Type} {key : α → Nat} {id : Nat} {f : α → α}
    {rows rs : List α} (h : updateUnique key id f rows = some rs) :
    rs = updateMany (fun r => key r == id) f rows := by
  unfold updateUnique at h
  split at h
  · exact (Option.some.inj h).symm
  · exact absurd h (by simp)

theorem findUnique_isSome_of_updateUnique {α : Type} {key : α → Nat} {id : Nat} {f : α → α}
    {rows rs : List α} (h : updateUnique key id f rows = some rs) :
    ∃ r, findUnique key id rows = some r := by
  unfold updateUnique at h
  split at h
  · rename_i hany
    rw [List.any_eq_true] at hany
    obtain ⟨x, hx, hk⟩ := hany
    cases hfind : findUnique key id rows with
    | some r => exact ⟨r, rfl⟩
    | none =>
      unfold findUnique at hfind
      rw [List.find?_eq_none] at hfind
      exact absurd hk (hfind x hx)
  · exact absurd h (by simp)

theorem findUnique_updateUnique {α : Type} {key : α → Nat} {id : Nat} {f : α → α}
    {rows rs : List α} (h : updateUnique key id f rows = some rs)
    (hf : ∀ r, key (f r) = key r) :
    ∃ r, findUnique key id rows = some r ∧ findUnique key id rs = some (f r) := by
  obtain ⟨r, hr⟩ := findUnique_isSome_of_updateUnique h
  refine ⟨r, hr, ?_⟩
  rw [updateUnique_eq_some h, findUnique_updateMany_key key id f rows hf, hr]
  rfl

theorem approveWrites_spec {now id : Nat} {slot : ParkingSlot} {tx s1 : State}
    (h : approveWrites now id slot tx = some s1) :
    (∃ q, findUnique SlotRequest.id id s1.slot_requests = some q
        ∧ q.request_status = "approved" ∧ q.slot_id = some slot.id
        ∧ q.approved_at = some now)
    ∧ (∃ p, findUnique ParkingSlot.id slot.id s1.parking_slots = some p
        ∧ p.status = "unavailable") := by
  unfold approveWrites at h
  split at h
  · exact absurd h (by simp)
  · rename_i rs hrs
    split at h
    · exact absurd h (by simp)
    · rename_i ps hps
      obtain rfl := Option.some.inj h
      obtain ⟨q, _, hq⟩ := findUnique_updateUnique hrs (fun _ => rfl)
      obtain ⟨p, _, hp⟩ := findUnique_updateUnique hps (fun _ => rfl)
      exact ⟨⟨_, hq, rfl, rfl, rfl⟩, ⟨_, hp, rfl⟩⟩
/-! ## The log write at the end of a handler -/

theorem logged_cases {α : Type} (s : State) (now userId : Nat) (action : String)
    (failure success : Response α) :
    (s.users.any (fun u => u.id == userId) = true
      ∧ logged s now userId action failure success
          = (logs_create s now userId action, success))
    ∨ (s.users.any (fun u => u.id == userId) = false
      ∧ logged s now userId action failure success = (s, failure)) := by
  unfold logged logs_write
  cases h : s.users.any (fun u => u.id == userId)
  · exact Or.inr ⟨rfl, by simp⟩
  · exact Or.inl ⟨rfl, by simp⟩

theorem logged_of_user {α : Type} (s : State) (now userId : Nat) (action : String)
    (failure success : Response α) (h : s.users.any (fun u => u.id == userId) = true) :
    logged s now userId action failure success
      = (logs_create s now userId action, success) := by
  rcases logged_cases s now userId action failure success with ⟨_, h1⟩ | ⟨h0, _⟩
  · exact h1
  · rw [h] at h0
    exact absurd h0 (by simp)

theorem logged_of_no_user {α : Type} (s : State) (now userId : Nat) (action : String)
    (failure success : Response α) (h : s.users.any (fun u => u.id == userId) = false) :
    logged s now userId action failure success = (s, failure) := by
  rcases logged_cases s now userId action failure success with ⟨h1, _⟩ | ⟨_, h0⟩
  · rw [h] at h1
    exact absurd h1 (by simp)
  · exact h0

/-- The log write touches no table but `logs`. -/
theorem logged_tables {α : Type} (s : State) (now userId : Nat) (action : String)
    (failure success : Response α) :
    (logged s now userId action failure success).1.users = s.users
    ∧ (logged s now userId action failure success).1.otp = s.otp
    ∧ (logged s now userId action failure success).1.vehicles = s.vehicles
    ∧ (logged s now userId action failure success).1.parking_slots = s.parking_slots
    ∧ (logged s now userId action failure success).1.slot_requests = s.slot_requests := by
  rcases logged_cases s now userId action failure success with ⟨_, h⟩ | ⟨_, h⟩
  · rw [h]; exact ⟨rfl, rfl, rfl, rfl, rfl⟩
  · rw [h]; exact ⟨rfl, rfl, rfl, rfl, rfl⟩

theorem logged_users {α : Type} (s : State) (now userId : Nat) (action : String)
    (failure success : Response α) :
    (logged s now userId action failure success).1.users = s.users :=
  (logged_tables s now userId action failure success).1

theorem logged_otp {α : Type} (s : State) (now userId : Nat) (action : String)
    (failure success : Response α) :
    (logged s now userId action failure success).1.otp = s.otp :=
  (logged_tables s now userId action failure success).2.1

theorem logged_vehicles {α : Type} (s : State) (now userId : Nat) (action : String)
    (failure success : Response α) :
    (logged s now userId action failure success).1.vehicles = s.vehicles :=
  (logged_tables s now userId action failure success).2.2.1

theorem logged_parking_slots {α : Type} (s : State) (now userId : Nat) (action : String)
    (failure success : Response α) :
    (logged s now userId action failure success).1.parking_slots = s.parking_slots :=
  (logged_tables s now userId action failure success).2.2.2.1

theorem logged_slot_requests {α : Type} (s : State) (now userId : Nat) (action : String)
    (failure success : Response α) :
    (logged s now userId action failure success).1.slot_requests = s.slot_requests :=
  (logged_tables s now userId action failure success).2.2.2.2

/-- A successful answer after the log write is the answer `success`, and the log write was
made. -/
theorem logged_ok {α : Type} {s : State} {now userId : Nat} {action : String}
    {failure success : Response α} (hf : failure.isOk = false)
    (h : (logged s now userId action failure success).2.isOk = true) :
    logged s now userId action failure success
      = (logs_create s now userId action, success) := by
  rcases logged_cases s now userId action failure success with ⟨_, h1⟩ | ⟨_, h0⟩
  · exact h1
  · rw [h0] at h
    rw [hf] at h
    exact absurd h (by simp)

theorem any_id_of_mem {rows : List User} {u : User} (h : u ∈ rows) :
    rows.any (fun x => x.id == u.id) = true :=
  List.any_eq_true.mpr ⟨u, h, by simp⟩

/-- Every run of `approveRequest` either answers an error and returns the store it was
given, or commits both writes; it then appends the log entry and answers 200 when the caller
has a user row, and answers 500 with both writes kept when the caller has none. -/
theorem approveRequest_cases (s : State) (now : Nat) (emailOk : Bool) (user : Caller)
    (id : Nat) :
    (∃ c m, approveRequest s now emailOk user id = (s, .error c m))
    ∨ (∃ request vehicle slot s1,
        user.role = "admin"
        ∧ s.slot_requests.find? (fun r => r.id == id && r.request_status == "pending")
            = some request
        ∧ findUnique Vehicle.id request.vehicleId s.vehicles = some vehicle
        ∧ s.parking_slots.find? (fun p => p.vehicle_type == vehicle.vehicle_type
              && p.size == vehicle.size && p.status == "available") = some slot
        ∧ approveWrites now id slot s = some s1
        ∧ ((s1.users.any (fun u => u.id == user.id) = true
            ∧ approveRequest s now emailOk user id
              = (logs_create s1 now user.id
                  ("Slot request " ++ toString id ++ " approved, assigned slot "
                    ++ slot.slot_number ++ ", email "
                    ++ (if emailOk then "sent" else "failed")),
                 .ok 200 { message := "Request approved", slot := slot,
                           emailStatus := if emailOk then "sent" else "failed" }))
          ∨ (s1.users.any (fun u => u.id == user.id) = false
            ∧ approveRequest s now emailOk user id = (s1, .error 500 "Server error")))) := by
  generalize hres : approveRequest s now emailOk user id = res
  unfold approveRequest at hres
  split at hres
  · exact Or.inl ⟨_, _, hres.symm⟩
  · rename_i hrole
    split at hres
    · exact Or.inl ⟨_, _, hres.symm⟩
    · rename_i request hreq
      split at hres
      · exact Or.inl ⟨_, _, hres.symm⟩
      · rename_i vehicle hveh
        split at hres
        · exact Or.inl ⟨_, _, hres.symm⟩
        · split at hres
          · exact Or.inl ⟨_, _, hres.symm⟩
          · rename_i slot hslot
            split at hres
            · exact Or.inl ⟨_, _, hres.symm⟩
            · rename_i s1 htx
              have hw : approveWrites now id slot s = some s1 := by
                unfold transaction at htx
                split at htx
                · rename_i s1' h1
                  rw [h1, ← Option.some.inj htx]
                · exact absurd htx (by simp)
              refine Or.inr ⟨request, vehicle, slot, s1, ?_, hreq, hveh, hslot, hw, ?_⟩
              · simpa using hrole
              · rw [← hres]
                exact logged_cases s1 now user.id _ _ _

theorem approveWrites_users {now id : Nat} {slot : ParkingSlot} {tx s1 : State}
    (h : approveWrites now id slot tx = some s1) : s1.users = tx.users := by
  unfold approveWrites at h
  split at h
  · exact absurd h (by simp)
  · split at h
    · exact absurd h (by simp)
    · obtain rfl := Option.some.inj h
      rfl

theorem approveWrites_logs {now id : Nat} {slot : ParkingSlot} {tx s1 : State}
    (h : approveWrites now id slot tx = some s1) : s1.logs = tx.logs := by
  unfold approveWrites at h
  split at h
  · exact absurd h (by simp)
  · split at h
    · exact absurd h (by simp)
    · obtain rfl := Option.some.inj h
      rfl

/-- C1 as stated fails: an admin caller whose user row is gone (id 99 in `demoStore`)
approves request 1.  Both writes are committed, then the log write fails: the answer is 500
"Server error", not 200, and neither table is the one the call was given. -/
theorem approveRequest_error_after_commit :
    (approveRequest demoStore 7 true ⟨99, "admin"⟩ 1).2 = .error 500 "Server error"
    ∧ findUnique SlotRequest.id 1
        (approveRequest demoStore 7 true ⟨99, "admin"⟩ 1).1.slot_requests
        = some ⟨1, 1, "approved", some 1, some 7⟩
    ∧ findUnique ParkingSlot.id 1
        (approveRequest demoStore 7 true ⟨99, "admin"⟩ 1).1.parking_slots
        = some ⟨1, "A1", "small", "car", "north", "unavailable"⟩
    ∧ (approveRequest demoStore 7 true ⟨99, "admin"⟩ 1).1.slot_requests
        ≠ demoStore.slot_requests
    ∧ (approveRequest demoStore 7 true ⟨99, "admin"⟩ 1).1.parking_slots
        ≠ demoStore.parking_slots := by
  decide

/-- C1, amended: every call of `approveRequest` ends in exactly one of two ways: it answers
200 "Request approved" and afterwards request `id` is `approved` with `slot_id` the chosen
slot and that slot is `unavailable`; or it answers an error, and then either `slot_requests`
and `parking_slots` are the tables it was given, or the caller has no user row, the answer
is 500 "Server error", the log is as it was, and request `id` is `approved` with `slot_id`
the chosen slot and that slot is `unavailable`.  So the two writes are made together or not
at all, and for a caller who has a user row the call ends in exactly one of the two ways of
the claim. -/
theorem approveRequest_writes_both_or_neither (s : State) (now : Nat) (emailOk : Bool)
    (user : Caller) (id : Nat) :
    Xor'
      (∃ slot emailStatus q p,
        (approveRequest s now emailOk user id).2
            = .ok 200 { message := "Request approved", slot := slot, emailStatus := emailStatus }
        ∧ findUnique SlotRequest.id id (approveRequest s now emailOk user id).1.slot_requests
            = some q
        ∧ q.request_status = "approved" ∧ q.slot_id = some slot.id
        ∧ findUnique ParkingSlot.id slot.id
            (approveRequest s now emailOk user id).1.parking_slots = some p
        ∧ p.status = "unavailable")
      (∃ code msg,
        (approveRequest s now emailOk user id).2 = .error code msg
        ∧ (((approveRequest s now emailOk user id).1.slot_requests = s.slot_requests
            ∧ (approveRequest s now emailOk user id).1.parking_slots = s.parking_slots)
          ∨ (s.users.any (fun u => u.id == user.id) = false
            ∧ code = 500 ∧ msg = "Server error"
            ∧ (approveRequest s now emailOk user id).1.logs = s.logs
            ∧ ∃ slot q p, slot ∈ s.parking_slots
              ∧ findUnique SlotRequest.id id
                  (approveRequest s now emailOk user id).1.slot_requests = some q
              ∧ q.request_status = "approved" ∧ q.slot_id = some slot.id
              ∧ findUnique ParkingSlot.id slot.id
                  (approveRequest s now emailOk user id).1.parking_slots = some p
              ∧ p.status = "unavailable")))
    ∧ (s.users.any (fun u => u.id == user.id) = true →
      Xor'
        (∃ slot emailStatus q p,
          (approveRequest s now emailOk user id).2
              = .ok 200 { message := "Request approved", slot := slot,
                          emailStatus := emailStatus }
          ∧ findUnique SlotRequest.id id (approveRequest s now emailOk user id).1.slot_requests
              = some q
          ∧ q.request_status = "approved" ∧ q.slot_id = some slot.id
          ∧ findUnique ParkingSlot.id slot.id
              (approveRequest s now emailOk user id).1.parking_slots = some p
          ∧ p.status = "unavailable")
        (∃ code msg,
          (approveRequest s now emailOk user id).2 = .error code msg
          ∧ (approveRequest s now emailOk user id).1.slot_requests = s.slot_requests
          ∧ (approveRequest s now emailOk user id).1.parking_slots = s.parking_slots)) := by
  rcases approveRequest_cases s now emailOk user id with
    ⟨c, m, h⟩ | ⟨_, _, slot, s1, _, _, _, hslot, hw, ⟨_, h⟩ | ⟨hno, h⟩⟩
  · rw [h]
    refine ⟨Or.inr ⟨⟨c, m, rfl, Or.inl ⟨rfl, rfl⟩⟩, ?_⟩, fun _ => Or.inr ⟨⟨c, m, rfl, rfl, rfl⟩, ?_⟩⟩
    · rintro ⟨_, _, _, _, hbad, _⟩
      exact absurd hbad (by simp)
    · rintro ⟨_, _, _, _, hbad, _⟩
      exact absurd hbad (by simp)
  · rw [h]
    obtain ⟨⟨q, hq, hq1, hq2, _⟩, ⟨p, hp, hp1⟩⟩ := approveWrites_spec hw
    refine ⟨Or.inl ⟨⟨slot, _, q, p, rfl, hq, hq1, hq2, hp, hp1⟩, ?_⟩,
      fun _ => Or.inl ⟨⟨slot, _, q, p, rfl, hq, hq1, hq2, hp, hp1⟩, ?_⟩⟩
    · rintro ⟨_, _, hbad, _⟩
      exact absurd hbad (by simp)
    · rintro ⟨_, _, hbad, _⟩
      exact absurd hbad (by simp)
  · rw [h]
    obtain ⟨⟨q, hq, hq1, hq2, _⟩, ⟨p, hp, hp1⟩⟩ := approveWrites_spec hw
    have hu : s1.users = s.users := approveWrites_users hw
    have hl : s1.logs = s.logs := approveWrites_logs hw
    rw [hu] at hno
    refine ⟨Or.inr ⟨⟨500, "Server error", rfl, Or.inr ⟨hno, rfl, rfl, hl, slot, q, p,
      List.mem_of_find?_eq_some hslot, hq, hq1, hq2, hp, hp1⟩⟩, ?_⟩, ?_⟩
    · rintro ⟨_, _, _, _, hbad, _⟩
      exact absurd hbad (by simp)
    · intro hyes
      rw [hno] at hyes
      exact absurd hyes (by simp)

theorem approveRequest_writes_both_or_neither_witness :
    demoStore.users.any (fun u => u.id == adminCaller.id) = true
    ∧ Xor'
        (∃ slot emailStatus q p,
          (approveRequest demoStore 7 true adminCaller 1).2
              = .ok 200 { message := "Request approved", slot := slot,
                          emailStatus := emailStatus }
          ∧ findUnique SlotRequest.id 1
              (approveRequest demoStore 7 true adminCaller 1).1.slot_requests = some q
          ∧ q.request_status = "approved" ∧ q.slot_id = some slot.id
          ∧ findUnique ParkingSlot.id slot.id
              (approveRequest demoStore 7 true adminCaller 1).1.parking_slots = some p
          ∧ p.status = "unavailable")
        (∃ code msg,
          (approveRequest demoStore 7 true adminCaller 1).2 = .error code msg
          ∧ (approveRequest demoStore 7 true adminCaller 1).1.slot_requests
              = demoStore.slot_requests
          ∧ (approveRequest demoStore 7 true adminCaller 1).1.parking_slots
              = demoStore.parking_slots) :=
  ⟨by decide, (approveRequest_writes_both_or_neither demoStore 7 true adminCaller 1).2 (by decide)⟩

theorem eq_of_key_eq {α : Type} {key : α → Nat} {rows : List α}
    (hnd : (rows.map key).Nodup) {x y : α} (hx : x ∈ rows) (hy : y ∈ rows)
    (h : key x = key y) : x = y :=
  List.inj_on_of_nodup_map hnd hx hy h

theorem find?_eq_some_of_key {α : Type} {key : α → Nat} {rows : List α}
    (hnd : (rows.map key).Nodup) {P : α → Bool} {x : α} (hx : x ∈ rows) (hP : P x = true)
    (hkey : ∀ y ∈ rows, P y = true → key y = key x) : rows.find? P = some x := by
  cases hf : rows.find? P with
  | none =>
    rw [List.find?_eq_none] at hf
    exact absurd hP (hf x hx)
  | some y =>
    have hy : y ∈ rows := List.mem_of_find?_eq_some hf
    have hPy : P y = true := List.find?_some hf
    rw [eq_of_key_eq hnd hy hx (hkey y hy hPy)]

theorem findUnique_eq_some_of_mem {α : Type} {key : α → Nat} {rows : List α}
    (hnd : (rows.map key).Nodup) {x : α} (hx : x ∈ rows) :
    findUnique key (key x) rows = some x :=
  find?_eq_some_of_key hnd hx (by simp) (fun y _ hy => by simpa using hy)

theorem findUnique_some {α : Type} {key : α → Nat} {id : Nat} {rows : List α} {x : α}
    (h : findUnique key id rows = some x) : x ∈ rows ∧ key x = id :=
  ⟨List.mem_of_find?_eq_some h, by simpa using List.find?_some h⟩

/-- C2: when `approveRequest` succeeds, the slot it assigns is a row of the store before the
call with status `available` and with the `vehicle_type` and `size` of the vehicle of the
pending request; the request afterwards carries that slot's id. -/
theorem approveRequest_assigns_compatible_slot (s : State) (now : Nat) (emailOk : Bool)
    (user : Caller) (id c : Nat) (body : Approved) (hpk : PrimaryKeys s)
    (hok : (approveRequest s now emailOk user id).2 = .ok c body) :
    ∃ request vehicle q,
      findUnique SlotRequest.id id s.slot_requests = some request
      ∧ request.request_status = "pending"
      ∧ findUnique Vehicle.id request.vehicleId s.vehicles = some vehicle
      ∧ findUnique ParkingSlot.id body.slot.id s.parking_slots = some body.slot
      ∧ body.slot.status = "available"
      ∧ body.slot.vehicle_type = vehicle.vehicle_type
      ∧ body.slot.size = vehicle.size
      ∧ findUnique SlotRequest.id id (approveRequest s now emailOk user id).1.slot_requests
          = some q
      ∧ q.slot_id = some body.slot.id := by
  obtain ⟨_, _, _, hslots, hreqs⟩ := hpk
  rcases approveRequest_cases s now emailOk user id with
    ⟨c', m, h⟩ | ⟨request, vehicle, slot, s1, _, hreq, hveh, hslot, hw, ⟨_, h⟩ | ⟨_, h⟩⟩
  · rw [h] at hok
    exact absurd hok (by simp)
  swap
  · rw [h] at hok
    exact absurd hok (by simp)
  · rw [h] at hok ⊢
    have hbody : body.slot = slot := by
      injection hok with _ hb
      rw [← hb]
    rw [hbody]
    have hrmem : request ∈ s.slot_requests := List.mem_of_find?_eq_some hreq
    have hrP := List.find?_some hreq
    simp only [Bool.and_eq_true, beq_iff_eq] at hrP
    have hsmem : slot ∈ s.parking_slots := List.mem_of_find?_eq_some hslot
    have hsP := List.find?_some hslot
    simp only [Bool.and_eq_true, beq_iff_eq] at hsP
    obtain ⟨⟨q, hq, _, hq2, _⟩, _⟩ := approveWrites_spec hw
    refine ⟨request, vehicle, q, ?_, hrP.2, hveh, findUnique_eq_some_of_mem hslots hsmem,
      hsP.2, hsP.1.1, hsP.1.2, hq, hq2⟩
    rw [← hrP.1]
    exact findUnique_eq_some_of_mem hreqs hrmem

theorem approveRequest_assigns_compatible_slot_witness :
    ∃ request vehicle q,
      findUnique SlotRequest.id 1 demoStore.slot_requests = some request
      ∧ request.request_status = "pending"
      ∧ findUnique Vehicle.id request.vehicleId demoStore.vehicles = some vehicle
      ∧ findUnique ParkingSlot.id 1 demoStore.parking_slots
          = some ⟨1, "A1", "small", "car", "north", "available"⟩
      ∧ "available" = "available"
      ∧ "car" = vehicle.vehicle_type
      ∧ "small" = vehicle.size
      ∧ findUnique SlotRequest.id 1 (approveRequest demoStore 7 true adminCaller 1).1.slot_requests
          = some q
      ∧ q.slot_id = some 1 :=
  approveRequest_assigns_compatible_slot demoStore 7 true adminCaller 1 200
    ⟨"Request approved", ⟨1, "A1", "small", "car", "north", "available"⟩, "sent"⟩
    (by decide) (by decide)

/-! ## Terminal requests -/

theorem map_key_updateMany {α : Type} (key : α → Nat) (p : α → Bool) (f : α → α)
    (hf : ∀ r, key (f r) = key r) (rows : List α) :
    (updateMany p f rows).map key = rows.map key := by
  induction rows with
  | nil => rfl
  | cons a t ih =>
    rw [updateMany_cons, List.map_cons, List.map_cons, ih]
    by_cases h : p a = true
    · rw [if_pos h, hf]
    · rw [if_neg h]

theorem nodup_key_deleteMany {α : Type} (key : α → Nat) (p : α → Bool) (rows : List α)
    (hnd : (rows.map key).Nodup) : ((deleteMany p rows).map key).Nodup :=
  List.Nodup.sublist (List.Sublist.map key (List.filter_sublist rows)) hnd

theorem findUnique_updateMany_keep {α : Type} (key : α → Nat) (id : Nat) (p : α → Bool)
    (f : α → α) (hf : ∀ r, key (f r) = key r) (rows : List α) (q : α)
    (hq : findUnique key id rows = some q) (hp : p q = false) :
    findUnique key id (updateMany p f rows) = some q := by
  induction rows with
  | nil => exact absurd hq (by simp [findUnique])
  | cons a t ih =>
    rw [updateMany_cons]
    unfold findUnique at ih hq ⊢
    cases h1 : (key a == id)
    · have h2 : (key (if p a = true then f a else a) == id) = false := by
        by_cases h : p a = true
        · rw [if_pos h, hf]; exact h1
        · rw [if_neg h]; exact h1
      simp only [List.find?_cons, h1] at hq
      simp only [List.find?_cons, h2]
      exact ih hq
    · simp only [List.find?_cons, h1, Option.some.injEq] at hq
      subst hq
      have h3 : ¬ (p a = true) := by simp [hp]
      rw [if_neg h3]
      simp only [List.find?_cons, h1]

theorem findUnique_deleteMany_keep {α : Type} (key : α → Nat) (id : Nat) (p : α → Bool)
    (rows : List α) (q : α)
    (hq : findUnique key id rows = some q) (hp : p q = false) :
    findUnique key id (deleteMany p rows) = some q := by
  induction rows with
  | nil => exact absurd hq (by simp [findUnique])
  | cons a t ih =>
    unfold findUnique at ih hq ⊢
    unfold deleteMany at ih ⊢
    cases h1 : (key a == id)
    · simp only [List.find?_cons, h1] at hq
      rw [List.filter_cons]
      split
      · simp only [List.find?_cons, h1]
        exact ih hq
      · exact ih hq
    · simp only [List.find?_cons, h1, Option.some.injEq] at hq
      subst hq
      have h3 : (!p a) = true := by simp [hp]
      rw [List.filter_cons, if_pos h3]
      simp only [List.find?_cons, h1]

/-- With unique ids, a request that is not pending is not found by the pending-only
lookup of `approveRequest` and `rejectRequest`. -/
theorem find?_pending_eq_none {rows : List SlotRequest} {id : Nat} {q : SlotRequest}
    (hnd : (rows.map SlotRequest.id).Nodup)
    (hq : findUnique SlotRequest.id id rows = some q) (hnp : q.request_status ≠ "pending") :
    rows.find? (fun r => r.id == id && r.request_status == "pending") = none := by
  rw [List.find?_eq_none]
  intro x hx hP
  simp only [Bool.and_eq_true, beq_iff_eq] at hP
  obtain ⟨hqm, hqid⟩ := findUnique_some hq
  have : x = q := eq_of_key_eq hnd hx hqm (hP.1.trans hqid.symm)
  exact hnp (this ▸ hP.2)

theorem countWhere_eq_zero {α : Type} {p : α → Bool} {rows : List α}
    (h : ∀ x ∈ rows, p x = false) : countWhere p rows = 0 := by
  unfold countWhere
  rw [List.length_eq_zero, List.filter_eq_nil_iff]
  intro x hx
  simp [h x hx]

theorem approveRequest_of_no_pending (s : State) (now : Nat) (emailOk : Bool) (user : Caller)
    (id : Nat)
    (h : s.slot_requests.find? (fun r => r.id == id && r.request_status == "pending") = none) :
    approveRequest s now emailOk user id
      = (s, if user.role = "admin" then .error 404 "Request not found or already processed"
            else .error 403 "Admin access required") := by
  unfold approveRequest
  by_cases hr : user.role = "admin"
  · simp [hr, h]
  · simp [hr]

theorem rejectRequest_of_no_pending (s : State) (now : Nat) (emailOk : Bool) (user : Caller)
    (id : Nat) (reason : String)
    (h : s.slot_requests.find? (fun r => r.id == id && r.request_status == "pending") = none) :
    rejectRequest s now emailOk user id reason
      = (s, if user.role = "admin" then
              (if reason = "" then .error 400 "Rejection reason is required"
               else .error 404 "Request not found or already processed")
            else .error 403 "Admin access required") := by
  unfold rejectRequest
  by_cases hr : user.role = "admin"
  · by_cases hreason : reason = ""
    · simp [hr, hreason]
    · simp [hr, hreason, h]
  · simp [hr]

/-- The requests table after `rejectRequest`: unchanged, or the pending request `id`
marked `rejected`. -/
theorem rejectRequest_requests (s : State) (now : Nat) (emailOk : Bool) (user : Caller)
    (id : Nat) (reason : String) :
    (rejectRequest s now emailOk user id reason).1.slot_requests = s.slot_requests
    ∨ (∃ request,
        s.slot_requests.find? (fun r => r.id == id && r.request_status == "pending")
          = some request
        ∧ (rejectRequest s now emailOk user id reason).1.slot_requests
          = updateMany (fun r => r.id == id)
              (fun r => { r with request_status := "rejected" }) s.slot_requests) := by
  generalize hres : rejectRequest s now emailOk user id reason = res
  unfold rejectRequest at hres
  split at hres
  · subst hres; exact Or.inl rfl
  · split at hres
    · subst hres; exact Or.inl rfl
    · split at hres
      · subst hres; exact Or.inl rfl
      · rename_i request hreq
        split at hres
        · subst hres; exact Or.inl rfl
        · split at hres
          · subst hres; exact Or.inl rfl
          · simp only at hres
            split at hres
            · subst hres; exact Or.inl rfl
            · rename_i rs hrs
              subst hres
              refine Or.inr ⟨request, hreq, ?_⟩
              rw [logged_slot_requests]
              exact updateUnique_eq_some hrs

/-- The requests table after `approveRequest`: unchanged, or the pending request `id`
marked `approved`. -/
theorem approveRequest_requests (s : State) (now : Nat) (emailOk : Bool) (user : Caller)
    (id : Nat) :
    (approveRequest s now emailOk user id).1.slot_requests = s.slot_requests
    ∨ (∃ (request : SlotRequest) (slot : ParkingSlot),
        s.slot_requests.find? (fun r => r.id == id && r.request_status == "pending")
          = some request
        ∧ (approveRequest s now emailOk user id).1.slot_requests
          = updateMany (fun r => r.id == id)
              (fun r => { r with request_status := "approved", slot_id := some slot.id,
                                 approved_at := some now }) s.slot_requests) := by
  rcases approveRequest_cases s now emailOk user id with
    ⟨c, m, h⟩ | ⟨request, _, slot, s1, _, hreq, _, _, hw, h⟩
  · rw [h]; exact Or.inl rfl
  · have h1 : (approveRequest s now emailOk user id).1.slot_requests = s1.slot_requests := by
      rcases h with ⟨_, h⟩ | ⟨_, h⟩
      · rw [h]; rfl
      · rw [h]
    rw [h1]
    refine Or.inr ⟨request, slot, hreq, ?_⟩
    unfold approveWrites at hw
    split at hw
    · exact absurd hw (by simp)
    · rename_i rs hrs
      split at hw
      · exact absurd hw (by simp)
      · obtain rfl := Option.some.inj hw
        exact updateUnique_eq_some hrs

theorem not_pending_of_terminal {q : SlotRequest}
    (h : q.request_status = "approved" ∨ q.request_status = "rejected") :
    q.request_status ≠ "pending" := by
  rcases h with h | h <;> rw [h] <;> decide

theorem updateRequest_requests (s : State) (now : Nat) (user : Caller) (id : Nat)
    (vehicle_id : RawInt) :
    (updateRequest s now user id vehicle_id).1.slot_requests = s.slot_requests
    ∨ (updateRequest s now user id vehicle_id).1.slot_requests
        = updateMany (fun r => r.id == id && vehicleOwnedBy s r user.id
              && r.request_status == "pending")
            (fun r => { r with vehicleId := vehicle_id.assign r.vehicleId })
            s.slot_requests := by
  unfold updateRequest
  split
  · exact Or.inl rfl
  · split
    · exact Or.inl rfl
    · simp only
      split
      · exact Or.inl rfl
      · rw [logged_slot_requests]
        exact Or.inr rfl

theorem deleteRequest_requests (s : State) (now : Nat) (user : Caller) (id : Nat) :
    (deleteRequest s now user id).1.slot_requests
      = deleteMany (fun r => r.id == id && vehicleOwnedBy s r user.id
            && r.request_status == "pending") s.slot_requests := by
  unfold deleteRequest
  simp only
  split
  · rename_i h0
    simp only [beq_iff_eq, countWhere, List.length_eq_zero] at h0
    unfold deleteMany
    symm
    rw [List.filter_eq_self]
    intro x hx
    rw [List.filter_eq_nil_iff] at h0
    have h := h0 x hx
    simp only [Bool.not_eq_true] at h
    simp only [h, Bool.not_false]
  · rw [logged_slot_requests]

/-- One call of any of the four request operations leaves a processed request in place. -/
theorem run_keeps_terminal (s : State) (now : Nat) (op : RequestOp) (id : Nat)
    (q : SlotRequest) (hnd : (s.slot_requests.map SlotRequest.id).Nodup)
    (hq : findUnique SlotRequest.id id s.slot_requests = some q)
    (hterm : q.request_status = "approved" ∨ q.request_status = "rejected") :
    ((op.run s now).slot_requests.map SlotRequest.id).Nodup
    ∧ findUnique SlotRequest.id id (op.run s now).slot_requests = some q := by
  have hnp := not_pending_of_terminal hterm
  have hcond : ∀ (uid i : Nat), (fun (r : SlotRequest) => r.id == i && vehicleOwnedBy s r uid
      && r.request_status == "pending") q = false := by
    intro uid i
    simp [hnp]
  have hkey : ∀ (i : Nat) (request : SlotRequest),
      s.slot_requests.find? (fun r => r.id == i && r.request_status == "pending")
        = some request → (fun (r : SlotRequest) => r.id == i) q = false := by
    intro i request hreq
    by_contra hcon
    have hqi : q.id = i := by simpa using hcon
    have hid : id = i := (findUnique_some hq).2.symm.trans hqi
    subst hid
    rw [find?_pending_eq_none hnd hq hnp] at hreq
    exact absurd hreq (by simp)
  cases op with
  | update user i v =>
    show ((updateRequest s now user i v).1.slot_requests.map SlotRequest.id).Nodup
      ∧ findUnique SlotRequest.id id (updateRequest s now user i v).1.slot_requests = some q
    rcases updateRequest_requests s now user i v with h | h
    · rw [h]; exact ⟨hnd, hq⟩
    · rw [h]
      refine ⟨?_, findUnique_updateMany_keep _ _ _ _ ?_ _ _ hq (hcond user.id i)⟩
      · rw [map_key_updateMany]
        · exact hnd
        · intro r; rfl
      · intro r; rfl
  | delete user i =>
    show ((deleteRequest s now user i).1.slot_requests.map SlotRequest.id).Nodup
      ∧ findUnique SlotRequest.id id (deleteRequest s now user i).1.slot_requests = some q
    rw [deleteRequest_requests]
    exact ⟨nodup_key_deleteMany _ _ _ hnd,
      findUnique_deleteMany_keep _ _ _ _ _ hq (hcond user.id i)⟩
  | approve e user i =>
    show ((approveRequest s now e user i).1.slot_requests.map SlotRequest.id).Nodup
      ∧ findUnique SlotRequest.id id (approveRequest s now e user i).1.slot_requests = some q
    rcases approveRequest_requests s now e user i with h | ⟨request, slot, hreq, h⟩
    · rw [h]; exact ⟨hnd, hq⟩
    · rw [h]
      refine ⟨?_, findUnique_updateMany_keep _ _ _ _ ?_ _ _ hq (hkey i request hreq)⟩
      · rw [map_key_updateMany]
        · exact hnd
        · intro r; rfl
      · intro r; rfl
  | reject e user i reason =>
    show ((rejectRequest s now e user i reason).1.slot_requests.map SlotRequest.id).Nodup
      ∧ findUnique SlotRequest.id id (rejectRequest s now e user i reason).1.slot_requests
          = some q
    rcases rejectRequest_requests s now e user i reason with h | ⟨request, hreq, h⟩
    · rw [h]; exact ⟨hnd, hq⟩
    · rw [h]
      refine ⟨?_, findUnique_updateMany_keep _ _ _ _ ?_ _ _ hq (hkey i request hreq)⟩
      · rw [map_key_updateMany]
        · exact hnd
        · intro r; rfl
      · intro r; rfl

theorem runOps_keeps_terminal (ops : List (Nat × RequestOp)) (s : State) (id : Nat)
    (q : SlotRequest) (hnd : (s.slot_requests.map SlotRequest.id).Nodup)
    (hq : findUnique SlotRequest.id id s.slot_requests = some q)
    (hterm : q.request_status = "approved" ∨ q.request_status = "rejected") :
    findUnique SlotRequest.id id (runOps s ops).slot_requests = some q := by
  induction ops generalizing s with
  | nil => exact hq
  | cons a rest ih =>
    obtain ⟨now, op⟩ := a
    obtain ⟨h1, h2⟩ := run_keeps_terminal s now op id q hnd hq hterm
    exact ih (op.run s now) h1 h2

/-- C3 as stated fails: on an approved request, a caller who is not an admin gets 403, not
404, from `approveRequest`; and `updateRequest` with a `vehicle_id` that the store rejects (a
number outside the `Int` column, or a value that is not a number) answers 500, not 404. -/
theorem terminal_request_not_always_404 :
    (findUnique SlotRequest.id 1 terminalStore.slot_requests).map SlotRequest.request_status
      = some "approved"
    ∧ approveRequest terminalStore 9 true annCaller 1
      = (terminalStore, .error 403 "Admin access required")
    ∧ (approveRequest terminalStore 9 true annCaller 1).2.status ≠ 404
    ∧ updateRequest terminalStore 9 annCaller 1 (.int 2147483648)
      = (terminalStore, .error 500 "Server error")
    ∧ updateRequest terminalStore 9 annCaller 1 .invalid
      = (terminalStore, .error 500 "Server error") := by
  decide

/-- C3, amended: on a request that is `approved` or `rejected`, each of the four operations
fails and returns the store it was given: `updateRequest` with 500 when the store rejects
the `vehicle_id` and with 404 otherwise; `deleteRequest` with 404; `approveRequest` with 404
for an admin and 403 for any other caller; `rejectRequest` with 403 for a caller who is not
an admin, 400 for an admin without a reason and 404 otherwise.  Hence the request row is the
same after any sequence of these operations. -/
theorem terminal_request_is_final (s : State) (id : Nat) (q : SlotRequest)
    (hnd : (s.slot_requests.map SlotRequest.id).Nodup)
    (hq : findUnique SlotRequest.id id s.slot_requests = some q)
    (hterm : q.request_status = "approved" ∨ q.request_status = "rejected") :
    (∀ now user vehicle_id,
      (vehicle_id.valid = false
        ∧ updateRequest s now user id vehicle_id = (s, .error 500 "Server error"))
      ∨ (vehicle_id.valid = true
        ∧ (updateRequest s now user id vehicle_id = (s, .error 404 "Vehicle not found")
          ∨ updateRequest s now user id vehicle_id
              = (s, .error 404 "Request not found or not editable"))))
    ∧ (∀ now user,
      deleteRequest s now user id = (s, .error 404 "Request not found or not deletable"))
    ∧ (∀ now emailOk user,
      approveRequest s now emailOk user id
        = (s, if user.role = "admin" then .error 404 "Request not found or already processed"
              else .error 403 "Admin access required"))
    ∧ (∀ now emailOk user reason,
      rejectRequest s now emailOk user id reason
        = (s, if user.role = "admin" then
                (if reason = "" then .error 400 "Rejection reason is required"
                 else .error 404 "Request not found or already processed")
              else .error 403 "Admin access required"))
    ∧ (∀ ops, findUnique SlotRequest.id id (runOps s ops).slot_requests = some q) := by
  have hnp := not_pending_of_terminal hterm
  have hnone := find?_pending_eq_none hnd hq hnp
  have hcount : ∀ uid : Nat, countWhere (fun (r : SlotRequest) =>
      r.id == id && vehicleOwnedBy s r uid && r.request_status == "pending")
      s.slot_requests = 0 := by
    intro uid
    apply countWhere_eq_zero
    intro x hx
    by_contra hcon
    simp only [Bool.not_eq_false, Bool.and_eq_true, beq_iff_eq] at hcon
    obtain ⟨hqm, hqid⟩ := findUnique_some hq
    have : x = q := eq_of_key_eq hnd hx hqm (hcon.1.1.trans hqid.symm)
    exact hnp (this ▸ hcon.2)
  refine ⟨?_, ?_, ?_, ?_, ?_⟩
  · intro now user vehicle_id
    unfold updateRequest
    cases hvalid : vehicle_id.valid
    · exact Or.inl ⟨rfl, rfl⟩
    · refine Or.inr ⟨rfl, ?_⟩
      simp only [Bool.not_true, Bool.false_eq_true, if_false]
      split
      · exact Or.inl rfl
      · simp only [hcount user.id]
        exact Or.inr rfl
  · intro now user
    unfold deleteRequest
    simp only [hcount user.id]
    rfl
  · intro now emailOk user
    exact approveRequest_of_no_pending s now emailOk user id hnone
  · intro now emailOk user reason
    exact rejectRequest_of_no_pending s now emailOk user id reason hnone
  · intro ops
    exact runOps_keeps_terminal ops s id q hnd hq hterm

theorem terminal_request_is_final_witness :
    (∀ now user vehicle_id,
      (vehicle_id.valid = false
        ∧ updateRequest terminalStore now user 1 vehicle_id
            = (terminalStore, .error 500 "Server error"))
      ∨ (vehicle_id.valid = true
        ∧ (updateRequest terminalStore now user 1 vehicle_id
              = (terminalStore, .error 404 "Vehicle not found")
          ∨ updateRequest terminalStore now user 1 vehicle_id
              = (terminalStore, .error 404 "Request not found or not editable"))))
    ∧ (∀ now user,
      deleteRequest terminalStore now user 1
        = (terminalStore, .error 404 "Request not found or not deletable"))
    ∧ (∀ now emailOk user,
      approveRequest terminalStore now emailOk user 1
        = (terminalStore,
            if user.role = "admin" then .error 404 "Request not found or already processed"
            else .error 403 "Admin access required"))
    ∧ (∀ now emailOk user reason,
      rejectRequest terminalStore now emailOk user 1 reason
        = (terminalStore,
            if user.role = "admin" then
              (if reason = "" then .error 400 "Rejection reason is required"
               else .error 404 "Request not found or already processed")
            else .error 403 "Admin access required"))
    ∧ (∀ ops, findUnique SlotRequest.id 1 (runOps terminalStore ops).slot_requests
        = some ⟨1, 1, "approved", some 1, some 3⟩) :=
  terminal_request_is_final terminalStore 1 ⟨1, 1, "approved", some 1, some 3⟩
    (by decide) (by decide) (Or.inl rfl)

/-! ## Approval: the successful run -/

theorem updateUnique_of_mem {α : Type} (key : α → Nat) (f : α → α) {rows : List α} {x : α}
    (hx : x ∈ rows) :
    updateUnique key (key x) f rows
      = some (updateMany (fun r => key r == key x) f rows) := by
  unfold updateUnique
  rw [if_pos]
  rw [List.any_eq_true]
  exact ⟨x, hx, by simp⟩

theorem approveRequest_ok (s : State) (now : Nat) (emailOk : Bool) (user : Caller) (id : Nat)
    (request : SlotRequest) (vehicle : Vehicle) (owner : User) (slot : ParkingSlot)
    (hrole : user.role = "admin")
    (hreq : s.slot_requests.find? (fun r => r.id == id && r.request_status == "pending")
      = some request)
    (hveh : findUnique Vehicle.id request.vehicleId s.vehicles = some vehicle)
    (hown : findUnique User.id vehicle.userId s.users = some owner)
    (hslot : s.parking_slots.find? (fun p => p.vehicle_type == vehicle.vehicle_type
        && p.size == vehicle.size && p.status == "available") = some slot)
    (hcaller : s.users.any (fun u => u.id == user.id) = true) :
    approveRequest s now emailOk user id
      = (logs_create (approvedStore s now id slot) now user.id
          ("Slot request " ++ toString id ++ " approved, assigned slot "
            ++ slot.slot_number ++ ", email " ++ (if emailOk then "sent" else "failed")),
         .ok 200 { message := "Request approved", slot := slot,
                   emailStatus := if emailOk then "sent" else "failed" }) := by
  have hrid : request.id = id := by
    have := List.find?_some hreq
    simp only [Bool.and_eq_true, beq_iff_eq] at this
    exact this.1
  have h1 := updateUnique_of_mem SlotRequest.id
    (fun r => { r with request_status := "approved", slot_id := some slot.id,
                       approved_at := some now }) (List.mem_of_find?_eq_some hreq)
  rw [hrid] at h1
  have h2 := updateUnique_of_mem ParkingSlot.id
    (fun p => { p with status := "unavailable" }) (List.mem_of_find?_eq_some hslot)
  have hw : approveWrites now id slot s = some (approvedStore s now id slot) := by
    unfold approveWrites
    rw [h1]
    simp only
    rw [h2]
    rfl
  unfold approveRequest
  simp only [hrole, hreq, hveh, hown, hslot, transaction, hw]
  exact logged_of_user (approvedStore s now id slot) now user.id _ _ _ hcaller

/-- The store after an approval that finds its request, vehicle, owner and slot: both
writes are made whoever the caller is; the answer is 200 when the caller has a user row and
500 when the caller has none. -/
theorem approveRequest_committed (s : State) (now : Nat) (emailOk : Bool) (user : Caller)
    (id : Nat) (request : SlotRequest) (vehicle : Vehicle) (owner : User) (slot : ParkingSlot)
    (hrole : user.role = "admin")
    (hreq : s.slot_requests.find? (fun r => r.id == id && r.request_status == "pending")
      = some request)
    (hveh : findUnique Vehicle.id request.vehicleId s.vehicles = some vehicle)
    (hown : findUnique User.id vehicle.userId s.users = some owner)
    (hslot : s.parking_slots.find? (fun p => p.vehicle_type == vehicle.vehicle_type
        && p.size == vehicle.size && p.status == "available") = some slot) :
    (approveRequest s now emailOk user id).1.slot_requests
        = (approvedStore s now id slot).slot_requests
    ∧ (approveRequest s now emailOk user id).1.parking_slots
        = (approvedStore s now id slot).parking_slots
    ∧ (approveRequest s now emailOk user id).1.vehicles = s.vehicles
    ∧ (approveRequest s now emailOk user id).1.users = s.users
    ∧ (s.users.any (fun u => u.id == user.id) = false →
        approveRequest s now emailOk user id
          = (approvedStore s now id slot, .error 500 "Server error")) := by
  have hrid : request.id = id := by
    have := List.find?_some hreq
    simp only [Bool.and_eq_true, beq_iff_eq] at this
    exact this.1
  have h1 := updateUnique_of_mem SlotRequest.id
    (fun r => { r with request_status := "approved", slot_id := some slot.id,
                       approved_at := some now }) (List.mem_of_find?_eq_some hreq)
  rw [hrid] at h1
  have h2 := updateUnique_of_mem ParkingSlot.id
    (fun p => { p with status := "unavailable" }) (List.mem_of_find?_eq_some hslot)
  have hw : approveWrites now id slot s = some (approvedStore s now id slot) := by
    unfold approveWrites
    rw [h1]
    simp only
    rw [h2]
    rfl
  unfold approveRequest
  simp only [hrole, hreq, hveh, hown, hslot, transaction, hw]
  refine ⟨?_, ?_, ?_, ?_, ?_⟩
  · exact logged_slot_requests (approvedStore s now id slot) now user.id _ _ _
  · exact logged_parking_slots (approvedStore s now id slot) now user.id _ _ _
  · exact logged_vehicles (approvedStore s now id slot) now user.id _ _ _
  · exact logged_users (approvedStore s now id slot) now user.id _ _ _
  · intro hno
    exact logged_of_no_user (approvedStore s now id slot) now user.id _ _ _ hno

theorem find?_updateMany_agree {α : Type} (P p : α → Bool) (f : α → α) (rows : List α)
    (h : ∀ r, P (if p r then f r else r) = P r) :
    (updateMany p f rows).find? P = (rows.find? P).map (fun r => if p r then f r else r) := by
  induction rows with
  | nil => rfl
  | cons a t ih =>
    rw [updateMany_cons]
    cases h1 : P a
    · have h2 : P (if p a = true then f a else a) = false := by rw [h, h1]
      simp only [List.find?_cons, h1, h2]
      exact ih
    · have h2 : P (if p a = true then f a else a) = true := by rw [h, h1]
      simp only [List.find?_cons, h1, h2, Option.map_some']

theorem find?_of_filter_eq_singleton {α : Type} (P : α → Bool) (rows : List α) (x : α)
    (h : rows.filter P = [x]) : rows.find? P = some x := by
  have hx : x ∈ rows.filter P := by rw [h]; exact List.mem_singleton.mpr rfl
  rw [List.mem_filter] at hx
  cases hf : rows.find? P with
  | none =>
    rw [List.find?_eq_none] at hf
    exact absurd hx.2 (hf x hx.1)
  | some y =>
    have hy : y ∈ rows.filter P :=
      List.mem_filter.mpr ⟨List.mem_of_find?_eq_some hf, List.find?_some hf⟩
    rw [h, List.mem_singleton] at hy
    rw [hy]

/-- C4: two distinct pending requests for vehicles of one type and size, and exactly one
available slot of that type and size.  Approving the first, by an admin who has a user row,
succeeds with that slot and marks it `unavailable`; approving the second, by any admin, then
answers 400 "No compatible slots available" and returns the store it was given, in which the
second request is still the same pending row. -/
theorem second_approval_finds_no_slot (s : State) (now1 now2 : Nat) (e1 e2 : Bool)
    (admin1 admin2 : Caller) (r1 r2 : SlotRequest) (v1 v2 : Vehicle) (o1 o2 : User)
    (hadm1 : admin1.role = "admin") (hadm2 : admin2.role = "admin")
    (hcaller : s.users.any (fun u => u.id == admin1.id) = true)
    (hpk : PrimaryKeys s)
    (hr1 : r1 ∈ s.slot_requests) (hr2 : r2 ∈ s.slot_requests) (hne : r1.id ≠ r2.id)
    (hp1 : r1.request_status = "pending") (hp2 : r2.request_status = "pending")
    (hv1 : findUnique Vehicle.id r1.vehicleId s.vehicles = some v1)
    (hv2 : findUnique Vehicle.id r2.vehicleId s.vehicles = some v2)
    (ho1 : findUnique User.id v1.userId s.users = some o1)
    (ho2 : findUnique User.id v2.userId s.users = some o2)
    (htype : v1.vehicle_type = v2.vehicle_type) (hsize : v1.size = v2.size)
    (hone : countWhere (fun p => p.vehicle_type == v1.vehicle_type && p.size == v1.size
      && p.status == "available") s.parking_slots = 1) :
    ∃ slot,
      s.parking_slots.filter (fun p => p.vehicle_type == v1.vehicle_type && p.size == v1.size
        && p.status == "available") = [slot]
      ∧ (approveRequest s now1 e1 admin1 r1.id).2
          = .ok 200 { message := "Request approved", slot := slot,
                      emailStatus := if e1 then "sent" else "failed" }
      ∧ findUnique ParkingSlot.id slot.id (approveRequest s now1 e1 admin1 r1.id).1.parking_slots
          = some { slot with status := "unavailable" }
      ∧ approveRequest (approveRequest s now1 e1 admin1 r1.id).1 now2 e2 admin2 r2.id
          = ((approveRequest s now1 e1 admin1 r1.id).1,
             .error 400 "No compatible slots available")
      ∧ findUnique SlotRequest.id r2.id (approveRequest s now1 e1 admin1 r1.id).1.slot_requests
          = some r2 := by
  obtain ⟨_, _, _, hslots, hreqs⟩ := hpk
  obtain ⟨slot, hfilter⟩ := List.length_eq_one.mp hone
  have hslot := find?_of_filter_eq_singleton _ _ _ hfilter
  have hsmem : slot ∈ s.parking_slots := List.mem_of_find?_eq_some hslot
  have hfind1 : s.slot_requests.find? (fun r => r.id == r1.id && r.request_status == "pending")
      = some r1 :=
    find?_eq_some_of_key hreqs hr1 (by simp [hp1])
      (fun y _ hy => by
        simp only [Bool.and_eq_true, beq_iff_eq] at hy
        exact hy.1)
  have hfirst := approveRequest_ok s now1 e1 admin1 r1.id r1 v1 o1 slot hadm1 hfind1 hv1 ho1
    hslot hcaller
  rw [hfirst]
  -- the second request in the store after the first approval
  have hagree : ∀ r : SlotRequest,
      (fun r => r.id == r2.id && r.request_status == "pending")
        (if (fun r => r.id == r1.id) r = true then
          (fun r => { r with request_status := "approved", slot_id := some slot.id,
                             approved_at := some now1 }) r else r)
      = (fun r => r.id == r2.id && r.request_status == "pending") r := by
    intro r
    by_cases h : r.id = r1.id
    · have h' : ¬ r.id = r2.id := fun e => hne (h.symm.trans e)
      simp [h, h', hne]
    · simp [h]
  have hfind2 : (approvedStore s now1 r1.id slot).slot_requests.find?
      (fun r => r.id == r2.id && r.request_status == "pending") = some r2 := by
    show (updateMany _ _ s.slot_requests).find? _ = some r2
    rw [find?_updateMany_agree _ _ _ _ hagree,
      find?_eq_some_of_key hreqs hr2 (by simp [hp2])
        (fun y _ hy => by
          simp only [Bool.and_eq_true, beq_iff_eq] at hy
          exact hy.1)]
    have h' : ¬ r2.id = r1.id := fun e => hne e.symm
    simp [h']
  have hnoslot : (approvedStore s now1 r1.id slot).parking_slots.find?
      (fun p => p.vehicle_type == v2.vehicle_type && p.size == v2.size
        && p.status == "available") = none := by
    rw [List.find?_eq_none]
    intro x hx hP
    change x ∈ updateMany _ _ s.parking_slots at hx
    unfold updateMany at hx
    rw [List.mem_map] at hx
    obtain ⟨y, hy, hxy⟩ := hx
    by_cases h : y.id = slot.id
    · simp only [beq_iff_eq, h, if_true] at hxy
      rw [← hxy] at hP
      simp at hP
    · simp only [beq_iff_eq, h, if_false] at hxy
      rw [← hxy, ← htype, ← hsize] at hP
      have hmem : y ∈ s.parking_slots.filter (fun p => p.vehicle_type == v1.vehicle_type
          && p.size == v1.size && p.status == "available") := List.mem_filter.mpr ⟨hy, hP⟩
      rw [hfilter, List.mem_singleton] at hmem
      exact h (by rw [hmem])
  refine ⟨slot, hfilter, rfl, ?_, ?_, ?_⟩
  · show findUnique ParkingSlot.id slot.id (updateMany _ _ s.parking_slots) = _
    rw [findUnique_updateMany_key, findUnique_eq_some_of_mem hslots hsmem]
    · rfl
    · intro r; rfl
  · unfold approveRequest
    have hveh : findUnique Vehicle.id r2.vehicleId
        (logs_create (approvedStore s now1 r1.id slot) now1 admin1.id
          ("Slot request " ++ toString r1.id ++ " approved, assigned slot "
            ++ slot.slot_number ++ ", email " ++ (if e1 then "sent" else "failed"))).vehicles
        = some v2 := hv2
    have hown : findUnique User.id v2.userId
        (logs_create (approvedStore s now1 r1.id slot) now1 admin1.id
          ("Slot request " ++ toString r1.id ++ " approved, assigned slot "
            ++ slot.slot_number ++ ", email " ++ (if e1 then "sent" else "failed"))).users
        = some o2 := ho2
    have hreq : (logs_create (approvedStore s now1 r1.id slot) now1 admin1.id
          ("Slot request " ++ toString r1.id ++ " approved, assigned slot "
            ++ slot.slot_number ++ ", email " ++ (if e1 then "sent" else "failed"))).slot_requests.find?
        (fun r => r.id == r2.id && r.request_status == "pending") = some r2 := hfind2
    have hno : (logs_create (approvedStore s now1 r1.id slot) now1 admin1.id
          ("Slot request " ++ toString r1.id ++ " approved, assigned slot "
            ++ slot.slot_number ++ ", email " ++ (if e1 then "sent" else "failed"))).parking_slots.find?
        (fun p => p.vehicle_type == v2.vehicle_type && p.size == v2.size
          && p.status == "available") = none := hnoslot
    simp only [hadm2, hreq, hveh, hown, hno]
    rfl
  · show findUnique SlotRequest.id r2.id (updateMany _ _ s.slot_requests) = some r2
    rw [findUnique_updateMany_other]
    · exact findUnique_eq_some_of_mem hreqs hr2
    · intro r; rfl
    · exact fun e => hne e.symm

theorem second_approval_finds_no_slot_witness :
    ∃ slot,
      demoStore.parking_slots.filter (fun p => p.vehicle_type == "car" && p.size == "small"
        && p.status == "available") = [slot]
      ∧ (approveRequest demoStore 7 true adminCaller 1).2
          = .ok 200 { message := "Request approved", slot := slot,
                      emailStatus := if true then "sent" else "failed" }
      ∧ findUnique ParkingSlot.id slot.id
          (approveRequest demoStore 7 true adminCaller 1).1.parking_slots
          = some { slot with status := "unavailable" }
      ∧ approveRequest (approveRequest demoStore 7 true adminCaller 1).1 8 false adminCaller 2
          = ((approveRequest demoStore 7 true adminCaller 1).1,
             .error 400 "No compatible slots available")
      ∧ findUnique SlotRequest.id 2 (approveRequest demoStore 7 true adminCaller 1).1.slot_requests
          = some ⟨2, 2, "pending", none, none⟩ :=
  second_approval_finds_no_slot demoStore 7 8 true false adminCaller adminCaller
    ⟨1, 1, "pending", none, none⟩ ⟨2, 2, "pending", none, none⟩
    ⟨1, 2, "RAA001", "car", "small"⟩ ⟨2, 3, "RAB002", "car", "small"⟩
    ⟨2, "Ann", "ann@x.com", "h2", "user", false⟩ ⟨3, "Bob", "bob@x.com", "h3", "user", true⟩
    rfl rfl (by decide) (by decide) (by decide) (by decide) (by decide) rfl rfl (by decide)
    (by decide) (by decide) (by decide) rfl rfl (by decide)

/-! ## deleteRequest -/

theorem vehicleOwnedBy_iff (s : State) (r : SlotRequest) (uid : Nat) :
    vehicleOwnedBy s r uid = true
      ↔ ∃ v, findUnique Vehicle.id r.vehicleId s.vehicles = some v ∧ v.userId = uid := by
  unfold vehicleOwnedBy
  cases hv : findUnique Vehicle.id r.vehicleId s.vehicles with
  | none => simp
  | some v => simp

/-- C5: a caller who does not own the vehicle of request `id` gets 404 "Request not found or
not deletable" from `deleteRequest` and the store is returned unchanged, whatever the status
of the request; and a row is missing after `deleteRequest` only if it has that id, its
vehicle belongs to the caller and its status is `pending`. -/
theorem deleteRequest_owner_and_pending_only (s : State) (now : Nat) (user : Caller)
    (id : Nat) (q : SlotRequest) (v : Vehicle)
    (hnd : (s.slot_requests.map SlotRequest.id).Nodup)
    (hq : findUnique SlotRequest.id id s.slot_requests = some q)
    (hv : findUnique Vehicle.id q.vehicleId s.vehicles = some v)
    (hother : v.userId ≠ user.id) :
    deleteRequest s now user id = (s, .error 404 "Request not found or not deletable")
    ∧ findUnique SlotRequest.id id (deleteRequest s now user id).1.slot_requests = some q
    ∧ (∀ (now' : Nat) (user' : Caller) (id' : Nat) (r : SlotRequest),
        r ∈ s.slot_requests → r ∉ (deleteRequest s now' user' id').1.slot_requests →
        r.id = id'
        ∧ (∃ w, findUnique Vehicle.id r.vehicleId s.vehicles = some w ∧ w.userId = user'.id)
        ∧ r.request_status = "pending") := by
  have hcount : countWhere (fun (r : SlotRequest) =>
      r.id == id && vehicleOwnedBy s r user.id && r.request_status == "pending")
      s.slot_requests = 0 := by
    apply countWhere_eq_zero
    intro x hx
    by_contra hcon
    simp only [Bool.not_eq_false, Bool.and_eq_true, beq_iff_eq] at hcon
    obtain ⟨hqm, hqid⟩ := findUnique_some hq
    have hxq : x = q := eq_of_key_eq hnd hx hqm (hcon.1.1.trans hqid.symm)
    obtain ⟨w, hw, hwu⟩ := (vehicleOwnedBy_iff s x user.id).mp hcon.1.2
    rw [hxq, hv] at hw
    exact hother ((Option.some.inj hw) ▸ hwu)
  have hres : deleteRequest s now user id
      = (s, .error 404 "Request not found or not deletable") := by
    unfold deleteRequest
    simp only [hcount]
    rfl
  refine ⟨hres, by rw [hres]; exact hq, ?_⟩
  intro now' user' id' r hr hgone
  rw [deleteRequest_requests] at hgone
  unfold deleteMany at hgone
  rw [List.mem_filter] at hgone
  have hc : (r.id == id' && vehicleOwnedBy s r user'.id && r.request_status == "pending")
      = true := by
    by_contra hcon
    simp only [Bool.not_eq_true] at hcon
    exact hgone ⟨hr, by simp only [hcon, Bool.not_false]⟩
  simp only [Bool.and_eq_true, beq_iff_eq] at hc
  exact ⟨hc.1.1, (vehicleOwnedBy_iff s r user'.id).mp hc.1.2, hc.2⟩

theorem deleteRequest_owner_and_pending_only_witness :
    deleteRequest demoStore 7 annCaller 2
      = (demoStore, .error 404 "Request not found or not deletable")
    ∧ findUnique SlotRequest.id 2 (deleteRequest demoStore 7 annCaller 2).1.slot_requests
      = some ⟨2, 2, "pending", none, none⟩
    ∧ (∀ (now' : Nat) (user' : Caller) (id' : Nat) (r : SlotRequest),
        r ∈ demoStore.slot_requests →
        r ∉ (deleteRequest demoStore now' user' id').1.slot_requests →
        r.id = id'
        ∧ (∃ w, findUnique Vehicle.id r.vehicleId demoStore.vehicles = some w
            ∧ w.userId = user'.id)
        ∧ r.request_status = "pending") :=
  deleteRequest_owner_and_pending_only demoStore 7 annCaller 2 ⟨2, 2, "pending", none, none⟩
    ⟨2, 3, "RAB002", "car", "small"⟩ (by decide) (by decide) (by decide) (by decide)

/-! ## verifyOtp -/

theorem any_key_of_updateUnique {α : Type} {key : α → Nat} {id : Nat} {f : α → α}
    {rows rs : List α} (h : updateUnique key id f rows = some rs)
    (hf : ∀ r, key (f r) = key r) : rs.any (fun r => key r == id) = true := by
  obtain ⟨r, _, hr⟩ := findUnique_updateUnique h hf
  obtain ⟨hmem, hkey⟩ := findUnique_some hr
  exact List.any_eq_true.mpr ⟨f r, hmem, by simp [hkey]⟩

/-- The ways `verifyOtp` ends. -/
theorem verifyOtp_cases (s : State) (now : Nat) (userId : RawId) (otpCode : RawCode) :
    ((userId.truthy = false ∨ otpCode.truthy = false)
      ∧ verifyOtp s now userId otpCode = (s, .error 400 "User ID and OTP code are required"))
    ∨ (userId.truthy = true ∧ otpCode.truthy = true
      ∧ (((userId.parsed = none
            ∨ ∃ n, userId.parsed = some n ∧ (intColumn n = false ∨ otpCode.valid = false))
          ∧ verifyOtp s now userId otpCode = (s, .error 500 "Server error"))
        ∨ ∃ n, userId.parsed = some n ∧ intColumn n = true ∧ otpCode.valid = true
          ∧ ((s.otp.find? (otpUsable now n otpCode) = none
              ∧ verifyOtp s now userId otpCode = (s, .error 400 "Invalid or expired OTP"))
            ∨ ((∃ o, s.otp.find? (otpUsable now n otpCode) = some o)
              ∧ updateUnique User.id n.toNat (fun u => { u with is_verified := true }) s.users
                  = none
              ∧ verifyOtp s now userId otpCode
                = ({ s with otp := consumeOtp n otpCode s.otp }, .error 500 "Server error"))
            ∨ ((∃ o, s.otp.find? (otpUsable now n otpCode) = some o)
              ∧ ∃ us, updateUnique User.id n.toNat (fun u => { u with is_verified := true })
                    s.users = some us
                ∧ verifyOtp s now userId otpCode
                  = (logs_create { s with otp := consumeOtp n otpCode s.otp, users := us }
                       now n.toNat "User verified OTP",
                     .ok 200 { message := "OTP verified, user registration completed" }))))) := by
  generalize hres : verifyOtp s now userId otpCode = res
  unfold verifyOtp at hres
  split at hres
  · rename_i h
    simp only [Bool.or_eq_true, Bool.not_eq_true'] at h
    exact Or.inl ⟨h, hres.symm⟩
  · rename_i h
    simp only [Bool.or_eq_true, Bool.not_eq_true', not_or, Bool.not_eq_false] at h
    refine Or.inr ⟨h.1, h.2, ?_⟩
    split at hres
    · rename_i hp
      exact Or.inl ⟨Or.inl hp, hres.symm⟩
    · rename_i n hp
      split at hres
      · rename_i hbad
        simp only [Bool.or_eq_true, Bool.not_eq_true'] at hbad
        exact Or.inl ⟨Or.inr ⟨n, hp, hbad⟩, hres.symm⟩
      · rename_i hgood
        simp only [Bool.or_eq_true, Bool.not_eq_true', not_or, Bool.not_eq_false] at hgood
        refine Or.inr ⟨n, hp, hgood.1, hgood.2, ?_⟩
        split at hres
        · rename_i hnone
          exact Or.inl ⟨hnone, hres.symm⟩
        · rename_i o hsome
          simp only at hres
          split at hres
          · rename_i hu
            exact Or.inr (Or.inl ⟨⟨o, hsome⟩, hu, hres.symm⟩)
          · rename_i us hu
            refine Or.inr (Or.inr ⟨⟨o, hsome⟩, us, hu, ?_⟩)
            rw [← hres]
            exact logged_of_user _ now n.toNat _ _ _
              (any_key_of_updateUnique hu (fun _ => rfl))

theorem find?_otpUsable_isSome_iff (rows : List Otp) (now : Nat) (n : Int)
    (otpCode : RawCode) :
    (∃ o, rows.find? (otpUsable now n otpCode) = some o)
      ↔ ∃ o ∈ rows, (o.userId : Int) = n ∧ otpCode.accepts o.otp_code = true
          ∧ o.is_verified = false ∧ now < o.expires_at := by
  constructor
  · rintro ⟨o, ho⟩
    have hP := List.find?_some ho
    simp only [otpUsable, Bool.and_eq_true, beq_iff_eq, decide_eq_true_eq] at hP
    exact ⟨o, List.mem_of_find?_eq_some ho, hP.1.1.1, hP.1.1.2, hP.2, hP.1.2⟩
  · rintro ⟨o, ho, h1, h2, h3, h4⟩
    cases hf : rows.find? (otpUsable now n otpCode) with
    | some o' => exact ⟨o', rfl⟩
    | none =>
      rw [List.find?_eq_none] at hf
      exact absurd (by simp [otpUsable, h1, h2, h3, h4]) (hf o ho)

theorem updateUnique_eq_none_iff {α : Type} (key : α → Nat) (id : Nat) (f : α → α)
    (rows : List α) :
    updateUnique key id f rows = none ↔ ¬ ∃ r ∈ rows, key r = id := by
  unfold updateUnique
  cases h : rows.any (fun r => key r == id)
  · rw [if_neg (by simp)]
    refine ⟨fun _ => ?_, fun _ => rfl⟩
    rintro ⟨r, hr, hk⟩
    have : rows.any (fun r => key r == id) = true :=
      List.any_eq_true.mpr ⟨r, hr, by simp [hk]⟩
    rw [h] at this
    exact absurd this (by simp)
  · rw [if_pos rfl]
    obtain ⟨r, hr, hk⟩ := List.any_eq_true.mp h
    refine ⟨fun hh => absurd hh (by simp), fun hh => absurd ⟨r, hr, ?_⟩ hh⟩
    simpa using hk

/-- C6 as stated fails.  With an empty code `verifyOtp` answers "User ID and OTP code are
required", not "Invalid or expired OTP", although no OTP row matches.  With a `userId`
outside the `Int` column it answers 500 "Server error".  And with a string filter in place
of the code (here the filter that accepts every non-empty code) it succeeds, although no
code was given that equals the code of the row. -/
theorem verifyOtp_other_answers :
    (¬ ∃ o ∈ demoStore.otp, o.userId = 2 ∧ o.otp_code = "" ∧ o.is_verified = false
        ∧ 5 < o.expires_at)
    ∧ verifyOtp demoStore 5 (RawId.number 2) (.text "")
        = (demoStore, .error 400 "User ID and OTP code are required")
    ∧ (verifyOtp demoStore 5 (RawId.number 2) (.text "")).2
        ≠ .error 400 "Invalid or expired OTP"
    ∧ verifyOtp demoStore 5 (RawId.number 4294967298) (.text "123456")
        = (demoStore, .error 500 "Server error")
    ∧ (verifyOtp demoStore 5 (RawId.number 2) (.filter (fun code => code != ""))).2
        = .ok 200 { message := "OTP verified, user registration completed" } := by
  decide

/-- C6, amended: for a truthy `userId` that `parseInt` reads as an integer `n` of the `Int`
column, and a truthy code that the store accepts as a condition (a string, or a string
filter), `verifyOtp` succeeds exactly when some OTP row has user `n` and a code that meets
the condition, is unconsumed and has `now < expires_at`, and user `n` has a row; it then
answers 200 and the user's `is_verified` is true.  With no such OTP row it answers 400
"Invalid or expired OTP" and returns the store unchanged.  With such an OTP row and no row
of user `n` it answers 500 "Server error" with the OTP rows consumed.  For every input: a
falsy `userId` or code (among them the empty code) gets 400 "User ID and OTP code are
required", and a truthy `userId` that is not an integer of the `Int` column, or a truthy
code that the store rejects, gets 500 "Server error"; both return the store unchanged.  In
a store where every OTP row belongs to a user, success is equivalent to the OTP row
alone. -/
theorem verifyOtp_outcomes (s : State) (now : Nat) (userId : RawId) (otpCode : RawCode)
    (n : Int) (hid : userId.truthy = true) (hcode : otpCode.truthy = true)
    (hparsed : userId.parsed = some n) (hrange : intColumn n = true)
    (hvalid : otpCode.valid = true) :
    ((verifyOtp s now userId otpCode).2.isOk = true
      ↔ (∃ o ∈ s.otp, (o.userId : Int) = n ∧ otpCode.accepts o.otp_code = true
            ∧ o.is_verified = false ∧ now < o.expires_at)
          ∧ ∃ u ∈ s.users, u.id = n.toNat)
    ∧ ((∃ o ∈ s.otp, (o.userId : Int) = n ∧ otpCode.accepts o.otp_code = true
            ∧ o.is_verified = false ∧ now < o.expires_at) →
        (∃ u ∈ s.users, u.id = n.toNat) →
        (verifyOtp s now userId otpCode).2
          = .ok 200 { message := "OTP verified, user registration completed" }
        ∧ ∃ u, findUnique User.id n.toNat (verifyOtp s now userId otpCode).1.users = some u
            ∧ u.is_verified = true)
    ∧ ((¬ ∃ o ∈ s.otp, (o.userId : Int) = n ∧ otpCode.accepts o.otp_code = true
            ∧ o.is_verified = false ∧ now < o.expires_at) →
        verifyOtp s now userId otpCode = (s, .error 400 "Invalid or expired OTP"))
    ∧ ((∃ o ∈ s.otp, (o.userId : Int) = n ∧ otpCode.accepts o.otp_code = true
            ∧ o.is_verified = false ∧ now < o.expires_at) →
        (¬ ∃ u ∈ s.users, u.id = n.toNat) →
        verifyOtp s now userId otpCode
          = ({ s with otp := consumeOtp n otpCode s.otp }, .error 500 "Server error"))
    ∧ (∀ (now' : Nat) (userId' : RawId) (otpCode' : RawCode),
        (userId'.truthy = false ∨ otpCode'.truthy = false) →
        verifyOtp s now' userId' otpCode'
          = (s, .error 400 "User ID and OTP code are required"))
    ∧ (∀ (now' : Nat) (userId' : RawId) (otpCode' : RawCode),
        userId'.truthy = true → otpCode'.truthy = true →
        (userId'.parsed = none
          ∨ (∃ m, userId'.parsed = some m ∧ intColumn m = false)
          ∨ otpCode'.valid = false) →
        verifyOtp s now' userId' otpCode' = (s, .error 500 "Server error"))
    ∧ (OtpOwnersExist s →
        ((verifyOtp s now userId otpCode).2.isOk = true
          ↔ ∃ o ∈ s.otp, (o.userId : Int) = n ∧ otpCode.accepts o.otp_code = true
              ∧ o.is_verified = false ∧ now < o.expires_at)) := by
  have hempty : ∀ (now' : Nat) (userId' : RawId) (otpCode' : RawCode),
      (userId'.truthy = false ∨ otpCode'.truthy = false) →
      verifyOtp s now' userId' otpCode'
        = (s, .error 400 "User ID and OTP code are required") := by
    intro now' userId' otpCode' h
    rcases verifyOtp_cases s now' userId' otpCode' with ⟨_, hr⟩ | ⟨h1, h2, _⟩
    · exact hr
    · rcases h with h | h
      · rw [h1] at h; exact absurd h (by simp)
      · rw [h2] at h; exact absurd h (by simp)
  have hrejected : ∀ (now' : Nat) (userId' : RawId) (otpCode' : RawCode),
      userId'.truthy = true → otpCode'.truthy = true →
      (userId'.parsed = none
        ∨ (∃ m, userId'.parsed = some m ∧ intColumn m = false)
        ∨ otpCode'.valid = false) →
      verifyOtp s now' userId' otpCode' = (s, .error 500 "Server error") := by
    intro now' userId' otpCode' h1 h2 hbad
    rcases verifyOtp_cases s now' userId' otpCode' with
      ⟨h, _⟩ | ⟨_, _, ⟨_, hr⟩ | ⟨m, hm, hm1, hm2, _⟩⟩
    · rcases h with h | h
      · rw [h1] at h; exact absurd h (by simp)
      · rw [h2] at h; exact absurd h (by simp)
    · exact hr
    · exfalso
      rcases hbad with hb | ⟨m', hm', hb⟩ | hb
      · rw [hm] at hb; exact absurd hb (by simp)
      · rw [hm] at hm'
        rw [← Option.some.inj hm', hm1] at hb
        exact absurd hb (by simp)
      · rw [hm2] at hb; exact absurd hb (by simp)
  rw [← find?_otpUsable_isSome_iff]
  have huser : ∀ us, updateUnique User.id n.toNat (fun u => { u with is_verified := true })
      s.users = some us → ∃ u ∈ s.users, u.id = n.toNat := by
    intro us hu
    by_contra hcon
    rw [(updateUnique_eq_none_iff User.id n.toNat _ s.users).mpr hcon] at hu
    exact absurd hu (by simp)
  rcases verifyOtp_cases s now userId otpCode with
    ⟨h, _⟩ | ⟨_, _, ⟨hbad, _⟩ | ⟨m, hm, _, _, hmain⟩⟩
  · exfalso
    rcases h with h | h
    · rw [hid] at h; exact absurd h (by simp)
    · rw [hcode] at h; exact absurd h (by simp)
  · exfalso
    rcases hbad with hb | ⟨m, hm, hb⟩
    · rw [hparsed] at hb; exact absurd hb (by simp)
    · rw [hparsed] at hm
      rw [← Option.some.inj hm] at hb
      rcases hb with hb | hb
      · rw [hrange] at hb; exact absurd hb (by simp)
      · rw [hvalid] at hb; exact absurd hb (by simp)
  · rw [hparsed] at hm
    obtain rfl := Option.some.inj hm
    rcases hmain with ⟨hnone, hr⟩ | ⟨⟨o, ho⟩, hu, hr⟩ | ⟨⟨o, ho⟩, us, hu, hr⟩
    · have hno : ¬ ∃ o, s.otp.find? (otpUsable now n otpCode) = some o := by
        rintro ⟨o, ho⟩
        rw [hnone] at ho
        exact absurd ho (by simp)
      rw [hr]
      exact ⟨⟨fun h => absurd h (by simp [Response.isOk]), fun h => absurd h.1 hno⟩,
        fun h => absurd h hno, fun _ => rfl, fun h => absurd h hno, hempty, hrejected,
        fun _ => ⟨fun h => absurd h (by simp [Response.isOk]), fun h => absurd h hno⟩⟩
    · have hnouser := (updateUnique_eq_none_iff User.id n.toNat _ s.users).mp hu
      have hfk : ¬ OtpOwnersExist s := by
        intro hfk
        have hP := List.find?_some ho
        simp only [otpUsable, Bool.and_eq_true, beq_iff_eq, decide_eq_true_eq] at hP
        obtain ⟨u, hu1, hu2⟩ := hfk o (List.mem_of_find?_eq_some ho)
        refine hnouser ⟨u, hu1, ?_⟩
        rw [hu2, ← hP.1.1.1]
        rfl
      rw [hr]
      exact ⟨⟨fun h => absurd h (by simp [Response.isOk]), fun h => absurd h.2 hnouser⟩,
        fun _ h => absurd h hnouser, fun h => absurd ⟨o, ho⟩ h, fun _ _ => rfl,
        hempty, hrejected, fun h => absurd h hfk⟩
    · rw [hr]
      obtain ⟨r, _, hr2⟩ := findUnique_updateUnique hu (fun _ => rfl)
      exact ⟨⟨fun _ => ⟨⟨o, ho⟩, huser us hu⟩, fun _ => rfl⟩, fun _ _ => ⟨rfl, _, hr2, rfl⟩,
        fun h => absurd ⟨o, ho⟩ h, fun _ h => absurd (huser us hu) h, hempty, hrejected,
        fun _ => ⟨fun _ => ⟨o, ho⟩, fun _ => rfl⟩⟩

theorem verifyOtp_outcomes_witness :
    ((verifyOtp demoStore 5 (RawId.number 2) (.text "123456")).2.isOk = true
      ↔ (∃ o ∈ demoStore.otp, (o.userId : Int) = 2
            ∧ (RawCode.text "123456").accepts o.otp_code = true
            ∧ o.is_verified = false ∧ 5 < o.expires_at)
          ∧ ∃ u ∈ demoStore.users, u.id = (2 : Int).toNat)
    ∧ ((∃ o ∈ demoStore.otp, (o.userId : Int) = 2
            ∧ (RawCode.text "123456").accepts o.otp_code = true
            ∧ o.is_verified = false ∧ 5 < o.expires_at) →
        (∃ u ∈ demoStore.users, u.id = (2 : Int).toNat) →
        (verifyOtp demoStore 5 (RawId.number 2) (.text "123456")).2
          = .ok 200 { message := "OTP verified, user registration completed" }
        ∧ ∃ u, findUnique User.id (2 : Int).toNat
              (verifyOtp demoStore 5 (RawId.number 2) (.text "123456")).1.users = some u
            ∧ u.is_verified = true)
    ∧ ((¬ ∃ o ∈ demoStore.otp, (o.userId : Int) = 2
            ∧ (RawCode.text "123456").accepts o.otp_code = true
            ∧ o.is_verified = false ∧ 5 < o.expires_at) →
        verifyOtp demoStore 5 (RawId.number 2) (.text "123456")
          = (demoStore, .error 400 "Invalid or expired OTP"))
    ∧ ((∃ o ∈ demoStore.otp, (o.userId : Int) = 2
            ∧ (RawCode.text "123456").accepts o.otp_code = true
            ∧ o.is_verified = false ∧ 5 < o.expires_at) →
        (¬ ∃ u ∈ demoStore.users, u.id = (2 : Int).toNat) →
        verifyOtp demoStore 5 (RawId.number 2) (.text "123456")
          = ({ demoStore with otp := consumeOtp 2 (.text "123456") demoStore.otp },
             .error 500 "Server error"))
    ∧ (∀ (now' : Nat) (userId' : RawId) (otpCode' : RawCode),
        (userId'.truthy = false ∨ otpCode'.truthy = false) →
        verifyOtp demoStore now' userId' otpCode'
          = (demoStore, .error 400 "User ID and OTP code are required"))
    ∧ (∀ (now' : Nat) (userId' : RawId) (otpCode' : RawCode),
        userId'.truthy = true → otpCode'.truthy = true →
        (userId'.parsed = none
          ∨ (∃ m, userId'.parsed = some m ∧ intColumn m = false)
          ∨ otpCode'.valid = false) →
        verifyOtp demoStore now' userId' otpCode' = (demoStore, .error 500 "Server error"))
    ∧ (OtpOwnersExist demoStore →
        ((verifyOtp demoStore 5 (RawId.number 2) (.text "123456")).2.isOk = true
          ↔ ∃ o ∈ demoStore.otp, (o.userId : Int) = 2
              ∧ (RawCode.text "123456").accepts o.otp_code = true
              ∧ o.is_verified = false ∧ 5 < o.expires_at)) :=
  verifyOtp_outcomes demoStore 5 (RawId.number 2) (.text "123456") 2
    (by decide) (by decide) (by decide) (by decide) (by decide)

/-- When every row of the user that the code condition accepts is consumed, `verifyOtp`
finds no usable row. -/
theorem verifyOtp_of_consumed (s : State) (now : Nat) (userId : RawId) (otpCode : RawCode)
    (n : Int) (hid : userId.truthy = true) (hcode : otpCode.truthy = true)
    (hparsed : userId.parsed = some n) (hrange : intColumn n = true)
    (hvalid : otpCode.valid = true)
    (hcons : ∀ o ∈ s.otp, (o.userId : Int) = n → otpCode.accepts o.otp_code = true →
      o.is_verified = true) :
    verifyOtp s now userId otpCode = (s, .error 400 "Invalid or expired OTP") := by
  have hno : s.otp.find? (otpUsable now n otpCode) = none := by
    rw [List.find?_eq_none]
    intro o ho hP
    simp only [otpUsable, Bool.and_eq_true, beq_iff_eq, decide_eq_true_eq] at hP
    have := hcons o ho hP.1.1.1 hP.1.1.2
    rw [hP.2] at this
    exact absurd this (by simp)
  unfold verifyOtp
  simp only [hid, hcode, hparsed, hrange, hvalid, hno]
  rfl

/-- C7: after a successful `verifyOtp`, every OTP row of that user with that code is
consumed, and `verifyOtp` with the same `userId` and code, at any time, answers 400
"Invalid or expired OTP" and returns the store unchanged.  Here `n` is the integer that
`parseInt` makes of `userId`, and a row has the code when the code condition accepts it
(for a string: when it equals the string). -/
theorem verifyOtp_single_use (s : State) (now : Nat) (userId : RawId) (otpCode : RawCode)
    (c : Nat) (body : Message) (hok : (verifyOtp s now userId otpCode).2 = .ok c body) :
    ∃ n, userId.parsed = some n
      ∧ (∀ o ∈ (verifyOtp s now userId otpCode).1.otp,
          (o.userId : Int) = n → otpCode.accepts o.otp_code = true → o.is_verified = true)
      ∧ (∀ now2, verifyOtp (verifyOtp s now userId otpCode).1 now2 userId otpCode
          = ((verifyOtp s now userId otpCode).1, .error 400 "Invalid or expired OTP")) := by
  rcases verifyOtp_cases s now userId otpCode with
    ⟨_, hr⟩ | ⟨hid, hcode, ⟨_, hr⟩ | ⟨n, hn, hrange, hvalid,
      ⟨_, hr⟩ | ⟨_, _, hr⟩ | ⟨_, us, _, hr⟩⟩⟩
  · rw [hr] at hok; exact absurd hok (by simp)
  · rw [hr] at hok; exact absurd hok (by simp)
  · rw [hr] at hok; exact absurd hok (by simp)
  · rw [hr] at hok; exact absurd hok (by simp)
  · rw [hr]
    have hcons : ∀ o ∈ consumeOtp n otpCode s.otp,
        (o.userId : Int) = n → otpCode.accepts o.otp_code = true → o.is_verified = true := by
      intro o ho h1 h2
      unfold consumeOtp updateMany at ho
      rw [List.mem_map] at ho
      obtain ⟨y, _, hy⟩ := ho
      by_cases h : ((y.userId : Int) == n && otpCode.accepts y.otp_code) = true
      · rw [if_pos h] at hy
        rw [← hy]
      · rw [if_neg h] at hy
        rw [hy] at h
        exact absurd (by simp [h1, h2]) h
    exact ⟨n, hn, hcons,
      fun now2 => verifyOtp_of_consumed _ now2 userId otpCode n hid hcode hn hrange hvalid hcons⟩

theorem verifyOtp_single_use_witness :
    ∃ n, (RawId.number 2).parsed = some n
      ∧ (∀ o ∈ (verifyOtp demoStore 5 (RawId.number 2) (.text "123456")).1.otp,
          (o.userId : Int) = n → (RawCode.text "123456").accepts o.otp_code = true →
          o.is_verified = true)
      ∧ (∀ now2, verifyOtp (verifyOtp demoStore 5 (RawId.number 2) (.text "123456")).1 now2
            (RawId.number 2) (.text "123456")
          = ((verifyOtp demoStore 5 (RawId.number 2) (.text "123456")).1,
             .error 400 "Invalid or expired OTP")) :=
  verifyOtp_single_use demoStore 5 (RawId.number 2) (.text "123456") 200
    ⟨"OTP verified, user registration completed"⟩ (by decide)

/-! ## Listings -/

theorem window_length_le {α : Type} {rows d : List α} {skip take : Int}
    (h : window rows skip take = some d) : d.length ≤ take.natAbs := by
  unfold window at h
  split at h
  · exact absurd h (by simp)
  · split at h
    · rename_i ht
      obtain rfl := Option.some.inj h
      rw [List.length_take]
      have : take.toNat = take.natAbs := by omega
      omega
    · obtain rfl := Option.some.inj h
      rw [List.length_reverse, List.length_take]
      omega

theorem window_subset {α : Type} {rows d : List α} {skip take : Int}
    (h : window rows skip take = some d) : ∀ x ∈ d, x ∈ rows := by
  unfold window at h
  split at h
  · exact absurd h (by simp)
  · split at h
    · obtain rfl := Option.some.inj h
      intro x hx
      exact List.mem_of_mem_drop (List.mem_of_mem_take hx)
    · obtain rfl := Option.some.inj h
      intro x hx
      rw [List.mem_reverse] at hx
      exact List.mem_reverse.mp (List.mem_of_mem_drop (List.mem_of_mem_take hx))

theorem totalPagesOf_bounds (n : Nat) (limit : Int) (h : 1 ≤ limit) :
    (Int.ceil ((n : ℚ) / (limit : ℚ)) - 1) * limit < (n : Int)
    ∧ (n : Int) ≤ Int.ceil ((n : ℚ) / (limit : ℚ)) * limit := by
  have hpos : (0 : ℚ) < (limit : ℚ) := by exact_mod_cast (by omega : (0 : Int) < limit)
  have hx : (n : ℚ) / (limit : ℚ) * (limit : ℚ) = (n : ℚ) := by
    field_simp
  have h1 := Int.ceil_lt_add_one ((n : ℚ) / (limit : ℚ))
  have h2 := Int.le_ceil ((n : ℚ) / (limit : ℚ))
  constructor
  · have : ((Int.ceil ((n : ℚ) / (limit : ℚ)) : ℚ) - 1) * (limit : ℚ) < (n : ℚ) := by
      calc ((Int.ceil ((n : ℚ) / (limit : ℚ)) : ℚ) - 1) * (limit : ℚ)
          < (n : ℚ) / (limit : ℚ) * (limit : ℚ) := by
            apply mul_lt_mul_of_pos_right _ hpos
            linarith
        _ = (n : ℚ) := hx
    exact_mod_cast this
  · have : (n : ℚ) ≤ (Int.ceil ((n : ℚ) / (limit : ℚ)) : ℚ) * (limit : ℚ) := by
      calc (n : ℚ) = (n : ℚ) / (limit : ℚ) * (limit : ℚ) := hx.symm
        _ ≤ (Int.ceil ((n : ℚ) / (limit : ℚ)) : ℚ) * (limit : ℚ) :=
            mul_le_mul_of_nonneg_right h2 (le_of_lt hpos)
    exact_mod_cast this

/-- A page built from a window of the matching rows meets the pagination contract. -/
theorem paginationContract_of_window {α β : Type} {rows d : List α} {skip limit : Int}
    (h : window rows skip limit = some d) (data : List β) (hlen : data.length = d.length)
    (matching : Nat) (page : Int) :
    PaginationContract limit matching
      { data := data,
        meta := { totalItems := matching, currentPage := page,
                  totalPages := totalPagesOf matching limit, limit := limit } } := by
  refine ⟨rfl, ?_, ?_, ?_⟩
  · intro h0
    have := window_length_le h
    show (data.length : Int) ≤ limit
    rw [hlen]
    omega
  · intro hne
    show totalPagesOf matching limit = _
    unfold totalPagesOf
    rw [if_neg hne]
  · intro h1
    have hne : limit ≠ 0 := by omega
    refine ⟨Int.ceil ((matching : ℚ) / (limit : ℚ)), ?_, totalPagesOf_bounds matching limit h1⟩
    show totalPagesOf matching limit = _
    unfold totalPagesOf
    rw [if_neg hne]

theorem getSlots_cases (s : State) (now : Nat) (user : Caller) (page limit : Option Int)
    (search : Option String) :
    getSlots s now user page limit search = (s, .error 500 "Server error")
    ∨ ∃ d,
      window ((s.parking_slots.filter (slotWhere user (search.getD ""))).insertionSort
          (fun a b => a.id ≤ b.id)) ((page.getD 1 - 1) * limit.getD 10) (limit.getD 10) = some d
      ∧ getSlots s now user page limit search
        = (logs_create s now user.id "Slots list viewed",
           .ok 200
            { data := d,
              meta := { totalItems := countWhere (slotWhere user (search.getD "")) s.parking_slots,
                        currentPage := page.getD 1,
                        totalPages := totalPagesOf
                          (countWhere (slotWhere user (search.getD "")) s.parking_slots)
                          (limit.getD 10),
                        limit := limit.getD 10 } }) := by
  unfold getSlots
  simp only
  split
  · exact Or.inl rfl
  · rename_i d hd
    cases hany : s.users.any (fun u => u.id == user.id)
    · rw [logged_of_no_user _ _ _ _ _ _ hany]
      exact Or.inl rfl
    · rw [logged_of_user _ _ _ _ _ _ hany]
      exact Or.inr ⟨d, hd, rfl⟩

theorem getRequests_cases (s : State) (now : Nat) (user : Caller) (page limit : Option Int)
    (search : Option String) :
    getRequests s now user page limit search = (s, .error 500 "Server error")
    ∨ ∃ d,
      window ((s.slot_requests.filter (requestWhereFilter s user (search.getD ""))).insertionSort
          (fun a b => a.id ≤ b.id)) ((page.getD 1 - 1) * limit.getD 10) (limit.getD 10) = some d
      ∧ getRequests s now user page limit search
        = (logs_create s now user.id "Slot requests list viewed",
           .ok 200
            { data := d.map (fun r =>
                { request := r,
                  vehicle := (findUnique Vehicle.id r.vehicleId s.vehicles).map
                    (fun v => { plate_number := v.plate_number,
                                vehicle_type := v.vehicle_type }) }),
              meta := { totalItems := countWhere (requestWhereFilter s user (search.getD ""))
                          s.slot_requests,
                        currentPage := page.getD 1,
                        totalPages := totalPagesOf
                          (countWhere (requestWhereFilter s user (search.getD ""))
                            s.slot_requests)
                          (limit.getD 10),
                        limit := limit.getD 10 } }) := by
  unfold getRequests
  simp only
  split
  · exact Or.inl rfl
  · rename_i d hd
    cases hany : s.users.any (fun u => u.id == user.id)
    · rw [logged_of_no_user _ _ _ _ _ _ hany]
      exact Or.inl rfl
    · rw [logged_of_user _ _ _ _ _ _ hany]
      exact Or.inr ⟨d, hd, rfl⟩

theorem getLogs_cases (s : State) (now : Nat) (user : Caller) (page limit : Option Int)
    (search : Option String) (searchNumber : Option Int) :
    (∃ c m, getLogs s now user page limit search searchNumber = (s, .error c m))
    ∨ ∃ d,
      user.role = "admin"
      ∧ window ((s.logs.filter (logWhere (search.getD "") searchNumber)).insertionSort
          (fun a b => b.createdAt ≤ a.createdAt)) ((page.getD 1 - 1) * limit.getD 10)
          (limit.getD 10) = some d
      ∧ getLogs s now user page limit search searchNumber
        = (logs_create s now user.id "Logs list viewed",
           .ok 200
            { data := d.map (fun l =>
                { log := l,
                  user := (findUnique User.id l.userId s.users).map
                    (fun u => { id := u.id, name := u.name, email := u.email }) }),
              meta := { totalItems := countWhere (logWhere (search.getD "") searchNumber) s.logs,
                        currentPage := page.getD 1,
                        totalPages := totalPagesOf
                          (countWhere (logWhere (search.getD "") searchNumber) s.logs)
                          (limit.getD 10),
                        limit := limit.getD 10 } }) := by
  unfold getLogs
  simp only
  split
  · exact Or.inl ⟨_, _, rfl⟩
  · rename_i hrole
    split
    · exact Or.inl ⟨_, _, rfl⟩
    · rename_i d hd
      cases hany : s.users.any (fun u => u.id == user.id)
      · rw [logged_of_no_user _ _ _ _ _ _ hany]
        exact Or.inl ⟨_, _, rfl⟩
      · rw [logged_of_user _ _ _ _ _ _ hany]
        exact Or.inr ⟨d, by simpa using hrole, hd, rfl⟩

/-- C8 as stated fails: with `limit=-1` a non-empty page comes back, so `data.length` is
above `limit`; and with `limit=0` the response carries no number of pages. -/
theorem getSlots_negative_limit_page :
    (getSlots demoStore 5 annCaller none (some (-1)) none).2.status = 200
    ∧ (getSlots demoStore 5 annCaller none (some (-1)) none).2.payload?.map
        (fun p => (p.data, p.meta.limit))
      = some ([⟨1, "A1", "small", "car", "north", "available"⟩], -1)
    ∧ ¬ (((1 : Nat) : Int) ≤ -1)
    ∧ (getSlots demoStore 5 annCaller none (some 0) none).2.payload?.map
        (fun p => (p.data, p.meta.totalItems, p.meta.totalPages, p.meta.limit))
      = some ([], 1, none, 0) := by
  decide

/-- C8, amended: every successful response of `getRequests`, `getSlots` and `getLogs`
meets the pagination contract for the limit in force (10 when none is supplied):
`totalItems` is the number of rows matching the filter, `data.length ≤ limit` whenever
`limit ≥ 0`, and `totalPages = ceil(totalItems / limit)` whenever `limit ≠ 0`. -/
theorem list_pagination_contract (s : State) (now : Nat) (user : Caller)
    (page limit : Option Int) (search : Option String) (searchNumber : Option Int) :
    (∀ c p, (getRequests s now user page limit search).2 = .ok c p →
      PaginationContract (limit.getD 10)
        (countWhere (requestWhereFilter s user (search.getD "")) s.slot_requests) p)
    ∧ (∀ c p, (getSlots s now user page limit search).2 = .ok c p →
      PaginationContract (limit.getD 10)
        (countWhere (slotWhere user (search.getD "")) s.parking_slots) p)
    ∧ (∀ c p, (getLogs s now user page limit search searchNumber).2 = .ok c p →
      PaginationContract (limit.getD 10)
        (countWhere (logWhere (search.getD "") searchNumber) s.logs) p) := by
  refine ⟨?_, ?_, ?_⟩
  · intro c p hok
    rcases getRequests_cases s now user page limit search with h | ⟨d, hd, h⟩
    · rw [h] at hok; exact absurd hok (by simp)
    · rw [h] at hok
      injection hok with _ hp
      rw [← hp]
      exact paginationContract_of_window hd _ (List.length_map _ _) _ _
  · intro c p hok
    rcases getSlots_cases s now user page limit search with h | ⟨d, hd, h⟩
    · rw [h] at hok; exact absurd hok (by simp)
    · rw [h] at hok
      injection hok with _ hp
      rw [← hp]
      exact paginationContract_of_window hd _ rfl _ _
  · intro c p hok
    rcases getLogs_cases s now user page limit search searchNumber with
      ⟨c', m, h⟩ | ⟨d, _, hd, h⟩
    · rw [h] at hok; exact absurd hok (by simp)
    · rw [h] at hok
      injection hok with _ hp
      rw [← hp]
      exact paginationContract_of_window hd _ (List.length_map _ _) _ _

theorem list_pagination_contract_witness :
    PaginationContract 10 1
      ({ data := [{ request := ⟨1, 1, "pending", none, none⟩,
                    vehicle := some ⟨"RAA001", "car"⟩ }],
         meta := { totalItems := 1, currentPage := 1, totalPages := totalPagesOf 1 10,
                   limit := 10 } } : Page RequestRow)
    ∧ PaginationContract 10 1
      ({ data := [⟨1, "A1", "small", "car", "north", "available"⟩],
         meta := { totalItems := 1, currentPage := 1, totalPages := totalPagesOf 1 10,
                   limit := 10 } } : Page ParkingSlot)
    ∧ PaginationContract 10 0
      ({ data := [],
         meta := { totalItems := 0, currentPage := 1, totalPages := totalPagesOf 0 10,
                   limit := 10 } } : Page LogRow) :=
  ⟨(list_pagination_contract demoStore 5 annCaller none none none none).1 200 _ rfl,
   (list_pagination_contract demoStore 5 annCaller none none none none).2.1 200 _ rfl,
   (list_pagination_contract demoStore 5 adminCaller none none none none).2.2 200 _ rfl⟩


theorem mem_insertionSort_iff {α : Type} (r : α → α → Prop) [DecidableRel r] (l : List α)
    (x : α) : x ∈ l.insertionSort r ↔ x ∈ l :=
  (List.perm_insertionSort r l).mem_iff

theorem likeMatch_percent (pattern text : List Char) :
    likeMatch ('%' :: pattern) text = text.tails.any (likeMatch pattern) := by
  rw [likeMatch]

/-- The empty search gives the pattern `%%`, which every text matches. -/
theorem containsInsensitive_empty (field : String) : containsInsensitive field "" = true := by
  unfold containsInsensitive
  show likeMatch ['%', '%'] (field.toList.map Char.toLower) = true
  rw [likeMatch_percent, List.any_eq_true]
  exact ⟨[], (List.mem_tails _ _).mpr List.nil_suffix, by decide⟩

theorem slotWhere_non_admin (user : Caller) (search : String) (hrole : user.role ≠ "admin")
    (x : ParkingSlot) :
    slotWhere user search x
      = ((containsInsensitive x.slot_number search
            || containsInsensitive x.vehicle_type search)
          && x.status == "available") := by
  unfold slotWhere
  have : (user.role == "admin") = false := beq_eq_false_iff_ne.mpr hrole
  rw [this]
  rfl

/-- C9: for a caller who is not an admin, every slot in the page returned by `getSlots` is
a slot of the store with status `available`, and `totalItems` is the number of available
slots that match the search, whatever `page`, `limit` and `search` are. -/
theorem getSlots_non_admin_available_only (s : State) (now : Nat) (user : Caller)
    (page limit : Option Int) (search : Option String) (c : Nat) (p : Page ParkingSlot)
    (hrole : user.role ≠ "admin")
    (hok : (getSlots s now user page limit search).2 = .ok c p) :
    (∀ x ∈ p.data, x ∈ s.parking_slots ∧ x.status = "available")
    ∧ p.meta.totalItems
        = ((s.parking_slots.filter (fun x => x.status == "available")).filter
            (fun x => containsInsensitive x.slot_number (search.getD "")
              || containsInsensitive x.vehicle_type (search.getD ""))).length
    ∧ p.meta.totalItems ≤ (s.parking_slots.filter (fun x => x.status == "available")).length := by
  have hfilter : s.parking_slots.filter (slotWhere user (search.getD ""))
      = (s.parking_slots.filter (fun x => x.status == "available")).filter
          (fun x => containsInsensitive x.slot_number (search.getD "")
            || containsInsensitive x.vehicle_type (search.getD "")) := by
    rw [List.filter_filter]
    apply List.filter_congr
    intro x _
    exact slotWhere_non_admin user _ hrole x
  rcases getSlots_cases s now user page limit search with h | ⟨d, hd, h⟩
  · rw [h] at hok; exact absurd hok (by simp)
  · rw [h] at hok
    injection hok with _ hp
    rw [← hp]
    refine ⟨?_, ?_, ?_⟩
    · intro x hx
      have hx1 := window_subset hd x hx
      rw [mem_insertionSort_iff, List.mem_filter] at hx1
      have hw := hx1.2
      rw [slotWhere_non_admin user _ hrole] at hw
      simp only [Bool.and_eq_true, beq_iff_eq] at hw
      exact ⟨hx1.1, hw.2⟩
    · show countWhere _ _ = _
      unfold countWhere
      rw [hfilter]
    · show countWhere _ _ ≤ _
      unfold countWhere
      rw [hfilter]
      exact List.length_filter_le _ _

theorem getSlots_non_admin_available_only_witness :
    (∀ x ∈ [(⟨1, "A1", "small", "car", "north", "available"⟩ : ParkingSlot)],
        x ∈ demoStore.parking_slots ∧ x.status = "available")
    ∧ 1 = ((demoStore.parking_slots.filter (fun x => x.status == "available")).filter
            (fun x => containsInsensitive x.slot_number ((some "1").getD "")
              || containsInsensitive x.vehicle_type ((some "1").getD ""))).length
    ∧ 1 ≤ (demoStore.parking_slots.filter (fun x => x.status == "available")).length :=
  getSlots_non_admin_available_only demoStore 5 annCaller none none (some "1") 200
    { data := [⟨1, "A1", "small", "car", "north", "available"⟩],
      meta := { totalItems := 1, currentPage := 1, totalPages := totalPagesOf 1 10,
                limit := 10 } }
    (by decide) rfl

/-! ## getRequests -/

theorem requestWhereFilter_non_admin (s : State) (user : Caller) (search : String)
    (hrole : user.role ≠ "admin") (r : SlotRequest) :
    requestWhereFilter s user search r
      = (requestSearchFilter s search r && vehicleOwnedBy s r user.id) := by
  unfold requestWhereFilter
  have : (user.role == "admin") = false := beq_eq_false_iff_ne.mpr hrole
  rw [this]
  rfl

theorem requestWhereFilter_admin_empty (s : State) (user : Caller)
    (hrole : user.role = "admin") (r : SlotRequest) :
    requestWhereFilter s user "" r = true := by
  unfold requestWhereFilter requestSearchFilter
  rw [containsInsensitive_empty r.request_status]
  simp [hrole]

/-- C10: for a caller who is not an admin, every request in the page returned by
`getRequests` is a request of the store whose vehicle belongs to the caller, and
`totalItems` is the number of the caller's requests that match the search; for an admin
with an empty search, `totalItems` is the number of all slot requests. -/
theorem getRequests_scope (s : State) (now : Nat) (user : Caller)
    (page limit : Option Int) (search : Option String) (c : Nat) (p : Page RequestRow)
    (hok : (getRequests s now user page limit search).2 = .ok c p) :
    (user.role ≠ "admin" →
      (∀ row ∈ p.data, row.request ∈ s.slot_requests
        ∧ ∃ v, findUnique Vehicle.id row.request.vehicleId s.vehicles = some v
            ∧ v.userId = user.id)
      ∧ p.meta.totalItems
          = ((s.slot_requests.filter (fun r => vehicleOwnedBy s r user.id)).filter
              (requestSearchFilter s (search.getD ""))).length
      ∧ p.meta.totalItems
          ≤ (s.slot_requests.filter (fun r => vehicleOwnedBy s r user.id)).length)
    ∧ (user.role = "admin" → search.getD "" = "" →
        p.meta.totalItems = s.slot_requests.length) := by
  rcases getRequests_cases s now user page limit search with h | ⟨d, hd, h⟩
  · rw [h] at hok; exact absurd hok (by simp)
  · rw [h] at hok
    injection hok with _ hp
    rw [← hp]
    refine ⟨?_, ?_⟩
    · intro hrole
      have hfilter : s.slot_requests.filter (requestWhereFilter s user (search.getD ""))
          = (s.slot_requests.filter (fun r => vehicleOwnedBy s r user.id)).filter
              (requestSearchFilter s (search.getD "")) := by
        rw [List.filter_filter]
        apply List.filter_congr
        intro x _
        exact requestWhereFilter_non_admin s user _ hrole x
      refine ⟨?_, ?_, ?_⟩
      · intro row hrow
        simp only [List.mem_map] at hrow
        obtain ⟨r, hr, hrr⟩ := hrow
        rw [← hrr]
        have hr1 := window_subset hd r hr
        rw [mem_insertionSort_iff, List.mem_filter] at hr1
        have hw := hr1.2
        rw [requestWhereFilter_non_admin s user _ hrole] at hw
        simp only [Bool.and_eq_true] at hw
        exact ⟨hr1.1, (vehicleOwnedBy_iff s r user.id).mp hw.2⟩
      · show countWhere _ _ = _
        unfold countWhere
        rw [hfilter]
      · show countWhere _ _ ≤ _
        unfold countWhere
        rw [hfilter]
        exact List.length_filter_le _ _
    · intro hrole hsearch
      show countWhere _ _ = _
      unfold countWhere
      rw [hsearch, List.filter_eq_self.mpr]
      intro x _
      exact requestWhereFilter_admin_empty s user hrole x

theorem getRequests_scope_witness :
    ((∀ row ∈ [({ request := ⟨1, 1, "pending", none, none⟩,
                  vehicle := some ⟨"RAA001", "car"⟩ } : RequestRow)],
        row.request ∈ demoStore.slot_requests
        ∧ ∃ v, findUnique Vehicle.id row.request.vehicleId demoStore.vehicles = some v
            ∧ v.userId = annCaller.id)
      ∧ 1 = ((demoStore.slot_requests.filter
                (fun r => vehicleOwnedBy demoStore r annCaller.id)).filter
              (requestSearchFilter demoStore ((none : Option String).getD ""))).length
      ∧ 1 ≤ (demoStore.slot_requests.filter
              (fun r => vehicleOwnedBy demoStore r annCaller.id)).length)
    ∧ 2 = demoStore.slot_requests.length :=
  ⟨(getRequests_scope demoStore 5 annCaller none none none 200
      { data := [{ request := ⟨1, 1, "pending", none, none⟩,
                   vehicle := some ⟨"RAA001", "car"⟩ }],
        meta := { totalItems := 1, currentPage := 1, totalPages := totalPagesOf 1 10,
                  limit := 10 } }
      rfl).1 (by decide),
   (getRequests_scope demoStore 5 adminCaller none none none 200
      { data := [{ request := ⟨1, 1, "pending", none, none⟩,
                   vehicle := some ⟨"RAA001", "car"⟩ },
                 { request := ⟨2, 2, "pending", none, none⟩,
                   vehicle := some ⟨"RAB002", "car"⟩ }],
        meta := { totalItems := 2, currentPage := 1, totalPages := totalPagesOf 2 10,
                  limit := 10 } }
      rfl).2 rfl rfl⟩

/-! ## login -/

/-- C11 as stated fails: an unverified user who gives a wrong password gets 403, not 401. -/
theorem login_unverified_wrong_password_answers_403 :
    demoStore.users.find? (fun u => u.email == "ann@x.com")
      = some ⟨2, "Ann", "ann@x.com", "h2", "user", false⟩
    ∧ plainCompare "wrong" "h2" = false
    ∧ login demoStore 5 plainCompare plainSign "ann@x.com" "wrong"
      = (demoStore, .error 403 "Account not verified. Please verify OTP.")
    ∧ (login demoStore 5 plainCompare plainSign "ann@x.com" "wrong").2.status ≠ 401 := by
  decide

/-- C11, amended: for a non-empty email and password, `login` answers 401 "Invalid
credentials" when no user has the email, 403 when the user is not verified (whether or not
the password matches), 401 when the user is verified and the password does not match, and
200 with the token and the user's id, name, email and role when the user is verified and the
password matches; it succeeds in no other case, and a failing call returns the store
unchanged. -/
theorem login_outcomes (s : State) (now : Nat) (compare : String → String → Bool)
    (sign : Nat → String → String → String) (email password : String)
    (hemail : email ≠ "") (hpw : password ≠ "") :
    (s.users.find? (fun u => u.email == email) = none →
      login s now compare sign email password = (s, .error 401 "Invalid credentials"))
    ∧ (∀ u, s.users.find? (fun u => u.email == email) = some u → u.is_verified = false →
      login s now compare sign email password
        = (s, .error 403 "Account not verified. Please verify OTP."))
    ∧ (∀ u, s.users.find? (fun u => u.email == email) = some u → u.is_verified = true →
      compare password u.password = false →
      login s now compare sign email password = (s, .error 401 "Invalid credentials"))
    ∧ (∀ u, s.users.find? (fun u => u.email == email) = some u → u.is_verified = true →
      compare password u.password = true →
      login s now compare sign email password
        = (logs_create s now u.id "User logged in",
           .ok 200 { token := sign u.id u.email u.role,
                     user := { id := u.id, name := u.name, email := u.email,
                               role := u.role } }))
    ∧ ((login s now compare sign email password).2.isOk = true →
      ∃ u, s.users.find? (fun u => u.email == email) = some u ∧ u.is_verified = true
        ∧ compare password u.password = true) := by
  have hguard : (email == "" || password == "") = false := by
    simp [hemail, hpw]
  have h1 : s.users.find? (fun u => u.email == email) = none →
      login s now compare sign email password = (s, .error 401 "Invalid credentials") := by
    intro h
    unfold login
    simp only [hguard, h]
    rfl
  have h2 : ∀ u, s.users.find? (fun u => u.email == email) = some u → u.is_verified = false →
      login s now compare sign email password
        = (s, .error 403 "Account not verified. Please verify OTP.") := by
    intro u h hv
    unfold login
    simp only [hguard, h, hv]
    rfl
  have h3 : ∀ u, s.users.find? (fun u => u.email == email) = some u → u.is_verified = true →
      compare password u.password = false →
      login s now compare sign email password = (s, .error 401 "Invalid credentials") := by
    intro u h hv hc
    unfold login
    simp only [hguard, h, hv, hc]
    rfl
  have h4 : ∀ u, s.users.find? (fun u => u.email == email) = some u → u.is_verified = true →
      compare password u.password = true →
      login s now compare sign email password
        = (logs_create s now u.id "User logged in",
           .ok 200 { token := sign u.id u.email u.role,
                     user := { id := u.id, name := u.name, email := u.email,
                               role := u.role } }) := by
    intro u h hv hc
    unfold login
    simp only [hguard, h, hv, hc]
    exact logged_of_user s now u.id _ _ _ (any_id_of_mem (List.mem_of_find?_eq_some h))
  refine ⟨h1, h2, h3, h4, ?_⟩
  intro hok
  cases hf : s.users.find? (fun u => u.email == email) with
  | none =>
    rw [h1 hf] at hok
    exact absurd hok (by simp [Response.isOk])
  | some u =>
    cases hv : u.is_verified with
    | false =>
      rw [h2 u hf hv] at hok
      exact absurd hok (by simp [Response.isOk])
    | true =>
      cases hc : compare password u.password with
      | false =>
        rw [h3 u hf hv hc] at hok
        exact absurd hok (by simp [Response.isOk])
      | true => exact ⟨u, rfl, hv, hc⟩

theorem login_outcomes_witness :
    (demoStore.users.find? (fun u => u.email == "bob@x.com") = none →
      login demoStore 5 plainCompare plainSign "bob@x.com" "h3"
        = (demoStore, .error 401 "Invalid credentials"))
    ∧ (∀ u, demoStore.users.find? (fun u => u.email == "bob@x.com") = some u →
      u.is_verified = false →
      login demoStore 5 plainCompare plainSign "bob@x.com" "h3"
        = (demoStore, .error 403 "Account not verified. Please verify OTP."))
    ∧ (∀ u, demoStore.users.find? (fun u => u.email == "bob@x.com") = some u →
      u.is_verified = true → plainCompare "h3" u.password = false →
      login demoStore 5 plainCompare plainSign "bob@x.com" "h3"
        = (demoStore, .error 401 "Invalid credentials"))
    ∧ (∀ u, demoStore.users.find? (fun u => u.email == "bob@x.com") = some u →
      u.is_verified = true → plainCompare "h3" u.password = true →
      login demoStore 5 plainCompare plainSign "bob@x.com" "h3"
        = (logs_create demoStore 5 u.id "User logged in",
           .ok 200 { token := plainSign u.id u.email u.role,
                     user := { id := u.id, name := u.name, email := u.email,
                               role := u.role } }))
    ∧ ((login demoStore 5 plainCompare plainSign "bob@x.com" "h3").2.isOk = true →
      ∃ u, demoStore.users.find? (fun u => u.email == "bob@x.com") = some u
        ∧ u.is_verified = true ∧ plainCompare "h3" u.password = true) :=
  login_outcomes demoStore 5 plainCompare plainSign "bob@x.com" "h3" (by decide) (by decide)

/-! ## Approval and the e-mail -/

/-- C12: when `approveRequest` by an admin who has a user row finds a pending request (with
its vehicle and owner) and a compatible available slot, the run whose e-mail is delivered
and the run whose e-mail fails both answer 200 "Request approved" with the same slot, end
with the same `slot_requests` and `parking_slots` (request approved with the slot assigned,
slot unavailable) and leave the other tables as given; they differ in `emailStatus` (`sent`,
`failed`) and in the text of the one log entry each appends. -/
theorem approveRequest_email_is_soft (s : State) (now : Nat) (user : Caller) (id : Nat)
    (request : SlotRequest) (vehicle : Vehicle) (owner : User) (slot : ParkingSlot)
    (hrole : user.role = "admin")
    (hreq : s.slot_requests.find? (fun r => r.id == id && r.request_status == "pending")
      = some request)
    (hveh : findUnique Vehicle.id request.vehicleId s.vehicles = some vehicle)
    (hown : findUnique User.id vehicle.userId s.users = some owner)
    (hslot : s.parking_slots.find? (fun p => p.vehicle_type == vehicle.vehicle_type
        && p.size == vehicle.size && p.status == "available") = some slot)
    (hcaller : s.users.any (fun u => u.id == user.id) = true) :
    (approveRequest s now true user id).2
        = .ok 200 { message := "Request approved", slot := slot, emailStatus := "sent" }
    ∧ (approveRequest s now false user id).2
        = .ok 200 { message := "Request approved", slot := slot, emailStatus := "failed" }
    ∧ (approveRequest s now true user id).1.slot_requests
        = (approveRequest s now false user id).1.slot_requests
    ∧ (approveRequest s now true user id).1.parking_slots
        = (approveRequest s now false user id).1.parking_slots
    ∧ (∃ q, findUnique SlotRequest.id id (approveRequest s now false user id).1.slot_requests
          = some q ∧ q.request_status = "approved" ∧ q.slot_id = some slot.id)
    ∧ (∃ p, findUnique ParkingSlot.id slot.id (approveRequest s now false user id).1.parking_slots
          = some p ∧ p.status = "unavailable")
    ∧ (∀ e, (approveRequest s now e user id).1.users = s.users
        ∧ (approveRequest s now e user id).1.otp = s.otp
        ∧ (approveRequest s now e user id).1.vehicles = s.vehicles)
    ∧ (approveRequest s now true user id).1.logs
        = s.logs ++ [{ userId := user.id,
                       action := "Slot request " ++ toString id ++ " approved, assigned slot "
                         ++ slot.slot_number ++ ", email " ++ "sent",
                       createdAt := now }]
    ∧ (approveRequest s now false user id).1.logs
        = s.logs ++ [{ userId := user.id,
                       action := "Slot request " ++ toString id ++ " approved, assigned slot "
                         ++ slot.slot_number ++ ", email " ++ "failed",
                       createdAt := now }] := by
  have hrun := fun e => approveRequest_ok s now e user id request vehicle owner slot
    hrole hreq hveh hown hslot hcaller
  have hrid : request.id = id := by
    have := List.find?_some hreq
    simp only [Bool.and_eq_true, beq_iff_eq] at this
    exact this.1
  have h1 := updateUnique_of_mem SlotRequest.id
    (fun r => { r with request_status := "approved", slot_id := some slot.id,
                       approved_at := some now }) (List.mem_of_find?_eq_some hreq)
  rw [hrid] at h1
  have h2 := updateUnique_of_mem ParkingSlot.id
    (fun p => { p with status := "unavailable" }) (List.mem_of_find?_eq_some hslot)
  obtain ⟨q0, _, hq⟩ := findUnique_updateUnique h1 (fun _ => rfl)
  obtain ⟨p0, _, hp⟩ := findUnique_updateUnique h2 (fun _ => rfl)
  rw [hrun true, hrun false]
  refine ⟨rfl, rfl, rfl, rfl, ⟨_, hq, rfl, rfl⟩, ⟨_, hp, rfl⟩, ?_, rfl, rfl⟩
  intro e
  rw [hrun e]
  exact ⟨rfl, rfl, rfl⟩

theorem approveRequest_email_is_soft_witness :
    (approveRequest demoStore 7 true adminCaller 1).2
        = .ok 200 { message := "Request approved",
                    slot := ⟨1, "A1", "small", "car", "north", "available"⟩,
                    emailStatus := "sent" }
    ∧ (approveRequest demoStore 7 false adminCaller 1).2
        = .ok 200 { message := "Request approved",
                    slot := ⟨1, "A1", "small", "car", "north", "available"⟩,
                    emailStatus := "failed" }
    ∧ (approveRequest demoStore 7 true adminCaller 1).1.slot_requests
        = (approveRequest demoStore 7 false adminCaller 1).1.slot_requests
    ∧ (approveRequest demoStore 7 true adminCaller 1).1.parking_slots
        = (approveRequest demoStore 7 false adminCaller 1).1.parking_slots
    ∧ (∃ q, findUnique SlotRequest.id 1
          (approveRequest demoStore 7 false adminCaller 1).1.slot_requests = some q
          ∧ q.request_status = "approved" ∧ q.slot_id = some 1)
    ∧ (∃ p, findUnique ParkingSlot.id 1
          (approveRequest demoStore 7 false adminCaller 1).1.parking_slots = some p
          ∧ p.status = "unavailable")
    ∧ (∀ e, (approveRequest demoStore 7 e adminCaller 1).1.users = demoStore.users
        ∧ (approveRequest demoStore 7 e adminCaller 1).1.otp = demoStore.otp
        ∧ (approveRequest demoStore 7 e adminCaller 1).1.vehicles = demoStore.vehicles)
    ∧ (approveRequest demoStore 7 true adminCaller 1).1.logs
        = demoStore.logs ++ [{ userId := 1,
                               action := "Slot request " ++ toString 1
                                 ++ " approved, assigned slot " ++ "A1" ++ ", email " ++ "sent",
                               createdAt := 7 }]
    ∧ (approveRequest demoStore 7 false adminCaller 1).1.logs
        = demoStore.logs ++ [{ userId := 1,
                               action := "Slot request " ++ toString 1
                                 ++ " approved, assigned slot " ++ "A1" ++ ", email " ++ "failed",
                               createdAt := 7 }] :=
  approveRequest_email_is_soft demoStore 7 adminCaller 1 ⟨1, 1, "pending", none, none⟩
    ⟨1, 2, "RAA001", "car", "small"⟩ ⟨2, "Ann", "ann@x.com", "h2", "user", false⟩
    ⟨1, "A1", "small", "car", "north", "available"⟩ rfl (by decide) (by decide) (by decide)
    (by decide) (by decide)

/-! ## Admin-only operations -/

/-- The three handlers that test the role answer 403 to a caller who is not an admin and
return the store they were given. -/
theorem admin_gate_of_checked_handlers (s : State) (now : Nat) (emailOk : Bool)
    (user : Caller) (id : Nat) (reason : String) (page limit : Option Int)
    (search : Option String) (searchNumber : Option Int) (hrole : user.role ≠ "admin") :
    approveRequest s now emailOk user id = (s, .error 403 "Admin access required")
    ∧ rejectRequest s now emailOk user id reason = (s, .error 403 "Admin access required")
    ∧ getLogs s now user page limit search searchNumber
        = (s, .error 403 "Admin access required") := by
  refine ⟨?_, ?_, ?_⟩
  · unfold approveRequest
    simp [hrole]
  · unfold rejectRequest
    simp [hrole]
  · unfold getLogs
    simp [hrole]

/-- C14: the code at the failing inputs.  A caller who is not an admin lists all users,
deletes a user and creates a slot: each call succeeds and changes the store. -/
theorem ungated_admin_operations :
    annCaller.role ≠ "admin"
    ∧ (getUsers guestStore 5 annCaller none none none).2.status = 200
    ∧ (getUsers guestStore 5 annCaller none none none).2.payload?.map
        (fun p => p.data.map UserRow.email)
      = some ["admin@park.com", "ann@x.com", "bob@x.com", "guest@x.com"]
    ∧ deleteUser guestStore 5 annCaller 4
      = ({ demoStore with logs := [⟨2, "User 4 deleted", 5⟩] },
         .ok 200 { message := "User deleted" })
    ∧ (bulkCreateSlots guestStore 5 annCaller [⟨"C1", "small", "car", "east"⟩]).2.status = 201
    ∧ (bulkCreateSlots guestStore 5 annCaller [⟨"C1", "small", "car", "east"⟩]).1.parking_slots
      = guestStore.parking_slots ++ [⟨3, "C1", "small", "car", "east", "available"⟩] := by
  decide

/-! ## Audit log -/

theorem auditContract_error {s s' : State} {actor : Option Nat} {now : Nat}
    (h : s'.logs = s.logs) : AuditContract s s' false actor now :=
  ⟨fun hok => absurd hok (by simp), fun _ => h⟩

theorem auditContract_ok {s s1 : State} {userId now : Nat} {action : String}
    (h : s1.logs = s.logs) :
    AuditContract s (logs_create s1 now userId action) true (some userId) now :=
  ⟨fun _ => ⟨userId, action, rfl, by
      show s1.logs ++ _ = s.logs ++ _
      rw [h]⟩,
    fun hok => absurd hok (by simp)⟩

theorem auditContract_logged {α : Type} {s s1 : State} {userId now : Nat} {action : String}
    {failure success : Response α} (h : s1.logs = s.logs) (hf : failure.isOk = false)
    (hs : success.isOk = true) :
    AuditContract s (logged s1 now userId action failure success).1
      (logged s1 now userId action failure success).2.isOk (some userId) now := by
  rcases logged_cases s1 now userId action failure success with ⟨_, e⟩ | ⟨_, e⟩
  · rw [e]
    show AuditContract s (logs_create s1 now userId action) success.isOk (some userId) now
    rw [hs]
    exact auditContract_ok h
  · rw [e]
    show AuditContract s s1 failure.isOk (some userId) now
    rw [hf]
    exact auditContract_error h

theorem createRequest_audit (s : State) (now : Nat) (user : Caller) (vehicle_id : RawInt) :
    AuditContract s (createRequest s now user vehicle_id).1
      (createRequest s now user vehicle_id).2.isOk (some user.id) now := by
  unfold createRequest
  split
  · exact auditContract_error rfl
  · split
    · exact auditContract_error rfl
    · split
      · exact auditContract_logged rfl rfl rfl
      · exact auditContract_error rfl

theorem updateRequest_audit (s : State) (now : Nat) (user : Caller) (id : Nat)
    (vehicle_id : RawInt) :
    AuditContract s (updateRequest s now user id vehicle_id).1
      (updateRequest s now user id vehicle_id).2.isOk (some user.id) now := by
  unfold updateRequest
  split
  · exact auditContract_error rfl
  · split
    · exact auditContract_error rfl
    · simp only
      split
      · exact auditContract_error rfl
      · exact auditContract_logged rfl rfl rfl

theorem deleteRequest_audit (s : State) (now : Nat) (user : Caller) (id : Nat) :
    AuditContract s (deleteRequest s now user id).1
      (deleteRequest s now user id).2.isOk (some user.id) now := by
  unfold deleteRequest
  simp only
  split
  · exact auditContract_error rfl
  · exact auditContract_logged rfl rfl rfl

theorem approveRequest_audit (s : State) (now : Nat) (emailOk : Bool) (user : Caller)
    (id : Nat) :
    AuditContract s (approveRequest s now emailOk user id).1
      (approveRequest s now emailOk user id).2.isOk (some user.id) now := by
  rcases approveRequest_cases s now emailOk user id with
    ⟨c, m, h⟩ | ⟨_, _, slot, s1, _, _, _, _, hw, ⟨_, h⟩ | ⟨_, h⟩⟩
  · rw [h]
    exact auditContract_error rfl
  · rw [h]
    exact auditContract_ok (approveWrites_logs hw)
  · rw [h]
    exact auditContract_error (approveWrites_logs hw)

theorem rejectRequest_audit (s : State) (now : Nat) (emailOk : Bool) (user : Caller)
    (id : Nat) (reason : String) :
    AuditContract s (rejectRequest s now emailOk user id reason).1
      (rejectRequest s now emailOk user id reason).2.isOk (some user.id) now := by
  unfold rejectRequest
  split
  · exact auditContract_error rfl
  · split
    · exact auditContract_error rfl
    · split
      · exact auditContract_error rfl
      · split
        · exact auditContract_error rfl
        · split
          · exact auditContract_error rfl
          · simp only
            split
            · exact auditContract_error rfl
            · exact auditContract_logged rfl rfl rfl

theorem getRequests_audit (s : State) (now : Nat) (user : Caller) (page limit : Option Int)
    (search : Option String) :
    AuditContract s (getRequests s now user page limit search).1
      (getRequests s now user page limit search).2.isOk (some user.id) now := by
  rcases getRequests_cases s now user page limit search with h | ⟨d, _, h⟩
  · rw [h]; exact auditContract_error rfl
  · rw [h]; exact auditContract_ok rfl

theorem getSlots_audit (s : State) (now : Nat) (user : Caller) (page limit : Option Int)
    (search : Option String) :
    AuditContract s (getSlots s now user page limit search).1
      (getSlots s now user page limit search).2.isOk (some user.id) now := by
  rcases getSlots_cases s now user page limit search with h | ⟨d, _, h⟩
  · rw [h]; exact auditContract_error rfl
  · rw [h]; exact auditContract_ok rfl

theorem getLogs_audit (s : State) (now : Nat) (user : Caller) (page limit : Option Int)
    (search : Option String) (searchNumber : Option Int) :
    AuditContract s (getLogs s now user page limit search searchNumber).1
      (getLogs s now user page limit search searchNumber).2.isOk (some user.id) now := by
  rcases getLogs_cases s now user page limit search searchNumber with
    ⟨c, m, h⟩ | ⟨d, _, _, h⟩
  · rw [h]; exact auditContract_error rfl
  · rw [h]; exact auditContract_ok rfl

theorem verifyOtp_audit (s : State) (now : Nat) (userId : RawId) (otpCode : RawCode) :
    AuditContract s (verifyOtp s now userId otpCode).1
      (verifyOtp s now userId otpCode).2.isOk (userId.parsed.map Int.toNat) now := by
  rcases verifyOtp_cases s now userId otpCode with
    ⟨_, h⟩ | ⟨_, _, ⟨_, h⟩ | ⟨n, hn, _, _, ⟨_, h⟩ | ⟨_, _, h⟩ | ⟨_, us, _, h⟩⟩⟩
  · rw [h]; exact auditContract_error rfl
  · rw [h]; exact auditContract_error rfl
  · rw [h]; exact auditContract_error rfl
  · rw [h]; exact auditContract_error rfl
  · rw [h, hn]; exact auditContract_ok rfl

theorem resendOtp_audit (s : State) (now : Nat) (emailOk : Bool) (otpCode : String)
    (userId : RawId) :
    AuditContract s (resendOtp s now emailOk otpCode userId).1
      (resendOtp s now emailOk otpCode userId).2.isOk (userId.parsed.map Int.toNat) now := by
  unfold resendOtp
  split
  · exact auditContract_error rfl
  · split
    · exact auditContract_error rfl
    · rename_i n hn
      rw [hn]
      split
      · exact auditContract_error rfl
      · split
        · exact auditContract_error rfl
        · rename_i user hfind
          have hid : n.toNat = user.id := by
            have := List.find?_some hfind
            simp only [Bool.and_eq_true, beq_iff_eq] at this
            rw [← this.1]
            rfl
          simp only
          split
          · exact auditContract_error rfl
          · show AuditContract s _ _ (some n.toNat) now
            rw [hid]
            exact auditContract_logged rfl rfl rfl

theorem login_audit (s : State) (now : Nat) (compare : String → String → Bool)
    (sign : Nat → String → String → String) (email password : String) :
    AuditContract s (login s now compare sign email password).1
      (login s now compare sign email password).2.isOk
      ((s.users.find? (fun u => u.email == email)).map User.id) now := by
  unfold login
  split
  · exact auditContract_error rfl
  · split
    · exact auditContract_error rfl
    · rename_i user hfind
      rw [hfind]
      split
      · exact auditContract_error rfl
      · split
        · exact auditContract_error rfl
        · exact auditContract_logged rfl rfl rfl

theorem updateProfile_audit (s : State) (now : Nat) (hash : String → String) (user : Caller)
    (name email password : String) :
    AuditContract s (updateProfile s now hash user name email password).1
      (updateProfile s now hash user name email password).2.isOk (some user.id) now := by
  unfold updateProfile
  simp only
  split
  · exact auditContract_error rfl
  · split
    · exact auditContract_logged rfl rfl rfl
    · exact auditContract_error rfl

theorem getUsers_audit (s : State) (now : Nat) (user : Caller) (page limit : Option Int)
    (search : Option String) :
    AuditContract s (getUsers s now user page limit search).1
      (getUsers s now user page limit search).2.isOk (some user.id) now := by
  unfold getUsers
  simp only
  split
  · exact auditContract_error rfl
  · exact auditContract_logged rfl rfl rfl

theorem deleteUser_audit (s : State) (now : Nat) (user : Caller) (id : Nat) :
    AuditContract s (deleteUser s now user id).1
      (deleteUser s now user id).2.isOk (some user.id) now := by
  unfold deleteUser
  split
  · exact auditContract_error rfl
  · split
    · exact auditContract_error rfl
    · exact auditContract_logged rfl rfl rfl

theorem createVehicle_audit (s : State) (now : Nat) (user : Caller)
    (plate_number vehicle_type size : String) :
    AuditContract s (createVehicle s now user plate_number vehicle_type size).1
      (createVehicle s now user plate_number vehicle_type size).2.isOk (some user.id) now := by
  unfold createVehicle
  split
  · exact auditContract_error rfl
  · exact auditContract_logged rfl rfl rfl

theorem getVehicles_audit (s : State) (now : Nat) (user : Caller) (page limit : Option Int)
    (search : Option String) (searchNumber : Option Int) :
    AuditContract s (getVehicles s now user page limit search searchNumber).1
      (getVehicles s now user page limit search searchNumber).2.isOk (some user.id) now := by
  unfold getVehicles
  simp only
  split
  · exact auditContract_error rfl
  · exact auditContract_logged rfl rfl rfl

theorem updateVehicle_audit (s : State) (now : Nat) (user : Caller) (id : Nat)
    (plate_number vehicle_type size : String) :
    AuditContract s (updateVehicle s now user id plate_number vehicle_type size).1
      (updateVehicle s now user id plate_number vehicle_type size).2.isOk
      (some user.id) now := by
  unfold updateVehicle
  simp only
  split
  · exact auditContract_error rfl
  · split
    · exact auditContract_error rfl
    · exact auditContract_logged rfl rfl rfl

theorem deleteVehicle_audit (s : State) (now : Nat) (user : Caller) (id : Nat) :
    AuditContract s (deleteVehicle s now user id).1
      (deleteVehicle s now user id).2.isOk (some user.id) now := by
  unfold deleteVehicle
  split
  · exact auditContract_error rfl
  · split
    · exact auditContract_error rfl
    · exact auditContract_logged rfl rfl rfl

theorem bulkCreateSlots_audit (s : State) (now : Nat) (user : Caller)
    (slots : List SlotInput) :
    AuditContract s (bulkCreateSlots s now user slots).1
      (bulkCreateSlots s now user slots).2.isOk (some user.id) now := by
  unfold bulkCreateSlots
  exact auditContract_logged rfl rfl rfl

theorem updateSlot_audit (s : State) (now : Nat) (user : Caller) (id : Nat)
    (slot_number size vehicle_type location : String) :
    AuditContract s (updateSlot s now user id slot_number size vehicle_type location).1
      (updateSlot s now user id slot_number size vehicle_type location).2.isOk
      (some user.id) now := by
  unfold updateSlot
  split
  · exact auditContract_error rfl
  · simp only
    split
    · exact auditContract_logged rfl rfl rfl
    · exact auditContract_error rfl

theorem deleteSlot_audit (s : State) (now : Nat) (user : Caller) (id : Nat) :
    AuditContract s (deleteSlot s now user id).1
      (deleteSlot s now user id).2.isOk (some user.id) now := by
  unfold deleteSlot
  split
  · exact auditContract_logged rfl rfl rfl
  · exact auditContract_error rfl

/-- C13 as stated fails: a successful `register` creates a user and an OTP row and appends
no log entry; and a `resendOtp` whose e-mail fails has replaced the user's OTP rows and
appends no log entry. -/
theorem register_and_failed_resend_write_no_log :
    (register demoStore 5 true plainHash "654321" "Cy" "cy@x.com" "pw").2
      = .ok 201 { message := "User registered, OTP sent to email", userId := 4 }
    ∧ (register demoStore 5 true plainHash "654321" "Cy" "cy@x.com" "pw").1.users
      = demoStore.users ++ [⟨4, "Cy", "cy@x.com", "pw", "user", false⟩]
    ∧ (register demoStore 5 true plainHash "654321" "Cy" "cy@x.com" "pw").1.otp
      = demoStore.otp ++ [⟨2, 4, "654321", 900005, false⟩]
    ∧ (register demoStore 5 true plainHash "654321" "Cy" "cy@x.com" "pw").1.logs
      = demoStore.logs
    ∧ (resendOtp demoStore 5 false "999999" (RawId.number 2)).2
      = .error 500 "Failed to resend OTP email"
    ∧ (resendOtp demoStore 5 false "999999" (RawId.number 2)).1.otp
      = [⟨2, 2, "999999", 300005, false⟩]
    ∧ (resendOtp demoStore 5 false "999999" (RawId.number 2)).1.otp ≠ demoStore.otp
    ∧ (resendOtp demoStore 5 false "999999" (RawId.number 2)).1.logs = demoStore.logs := by
  decide

/-- C13, amended: every call other than `register` meets the audit contract: when it
succeeds it appends exactly one log entry, by the acting user and stamped with the time of
the call, and when it fails it appends none. -/
theorem audit_contract_of_operations (env : Env) (s : State) (now : Nat) (op : Operation)
    (hop : op.isRegister = false) :
    AuditContract s (op.exec env s now).1 (op.exec env s now).2.ok (op.actor s) now := by
  cases op with
  | register emailOk otpCode name email password => exact absurd hop (by simp [Operation.isRegister])
  | verifyOtp userId otpCode => exact verifyOtp_audit s now userId otpCode
  | resendOtp emailOk otpCode userId => exact resendOtp_audit s now emailOk otpCode userId
  | login email password => exact login_audit s now env.compare env.sign email password
  | updateProfile user name email password =>
    exact updateProfile_audit s now env.hash user name email password
  | getUsers user page limit search => exact getUsers_audit s now user page limit search
  | deleteUser user id => exact deleteUser_audit s now user id
  | createVehicle user plate_number vehicle_type size =>
    exact createVehicle_audit s now user plate_number vehicle_type size
  | getVehicles user page limit search searchNumber =>
    exact getVehicles_audit s now user page limit search searchNumber
  | updateVehicle user id plate_number vehicle_type size =>
    exact updateVehicle_audit s now user id plate_number vehicle_type size
  | deleteVehicle user id => exact deleteVehicle_audit s now user id
  | bulkCreateSlots user slots => exact bulkCreateSlots_audit s now user slots
  | getSlots user page limit search => exact getSlots_audit s now user page limit search
  | updateSlot user id slot_number size vehicle_type location =>
    exact updateSlot_audit s now user id slot_number size vehicle_type location
  | deleteSlot user id => exact deleteSlot_audit s now user id
  | createRequest user vehicle_id => exact createRequest_audit s now user vehicle_id
  | getRequests user page limit search => exact getRequests_audit s now user page limit search
  | updateRequest user id vehicle_id => exact updateRequest_audit s now user id vehicle_id
  | deleteRequest user id => exact deleteRequest_audit s now user id
  | approveRequest emailOk user id => exact approveRequest_audit s now emailOk user id
  | rejectRequest emailOk user id reason =>
    exact rejectRequest_audit s now emailOk user id reason
  | getLogs user page limit search searchNumber =>
    exact getLogs_audit s now user page limit search searchNumber

theorem audit_contract_of_operations_witness :
    AuditContract demoStore
      (logs_create
        { demoStore with
          slot_requests := demoStore.slot_requests ++ [⟨3, 1, "pending", none, none⟩] }
        5 2 "Slot request created for vehicle 1")
      true (some 2) 5 :=
  audit_contract_of_operations plainEnv demoStore 5 (.createRequest annCaller (.int 1)) rfl

/-! ## The slot-assignment invariant -/

theorem le_foldr_max (ids : List Nat) : ∀ x ∈ ids, x ≤ ids.foldr max 0 := by
  induction ids with
  | nil => intro x hx; exact absurd hx (List.not_mem_nil x)
  | cons a t ih =>
    intro x hx
    rw [List.foldr_cons]
    rcases List.mem_cons.mp hx with h | h
    · rw [h]; exact le_max_left _ _
    · exact le_trans (ih x h) (le_max_right _ _)

theorem nextId_not_mem (ids : List Nat) : nextId ids ∉ ids := by
  intro h
  have := le_foldr_max ids _ h
  unfold nextId at this
  omega

theorem nodup_key_concat {α : Type} (key : α → Nat) (rows : List α) (x : α)
    (hnd : (rows.map key).Nodup) (hx : key x ∉ rows.map key) :
    ((rows ++ [x]).map key).Nodup := by
  rw [List.map_append, List.map_singleton]
  exact List.Nodup.append hnd (List.nodup_singleton _)
    (List.disjoint_singleton.mpr hx)

theorem createManySlots_nodup (inputs : List SlotInput) :
    ∀ rows : List ParkingSlot, (rows.map ParkingSlot.id).Nodup →
      ((createManySlots inputs rows).map ParkingSlot.id).Nodup := by
  induction inputs with
  | nil => intro rows h; exact h
  | cons i rest ih =>
    intro rows h
    unfold createManySlots
    split
    · exact ih rows h
    · exact ih _ (nodup_key_concat ParkingSlot.id rows _ h (nextId_not_mem _))

theorem createManySlots_mem (inputs : List SlotInput) :
    ∀ rows : List ParkingSlot, ∀ p ∈ rows, p ∈ createManySlots inputs rows := by
  induction inputs with
  | nil => intro rows p hp; exact hp
  | cons i rest ih =>
    intro rows p hp
    unfold createManySlots
    split
    · exact ih rows p hp
    · exact ih _ p (List.mem_append_left _ hp)

/-- The invariant is kept by a step whose approved requests were approved before with the
same slot, and whose slots keep every unavailable slot unavailable. -/
theorem slotsAssignedOnce_of_step {s s' : State}
    (hreq : ∀ r' ∈ s'.slot_requests, r'.request_status = "approved" →
      ∃ r ∈ s.slot_requests, r.id = r'.id ∧ r.request_status = "approved"
        ∧ r.slot_id = r'.slot_id)
    (hslot : ∀ p ∈ s.parking_slots, p.status = "unavailable" →
      ∃ p' ∈ s'.parking_slots, p'.id = p.id ∧ p'.status = "unavailable")
    (h : SlotsAssignedOnce s) : SlotsAssignedOnce s' := by
  obtain ⟨h4, h3⟩ := h
  refine ⟨?_, ?_⟩
  · intro r1' hr1 r2' hr2 ha1 ha2 hne
    obtain ⟨r1, hm1, hid1, hs1, hsl1⟩ := hreq r1' hr1 ha1
    obtain ⟨r2, hm2, hid2, hs2, hsl2⟩ := hreq r2' hr2 ha2
    rw [← hsl1, ← hsl2]
    exact h4 r1 hm1 r2 hm2 hs1 hs2 (by rw [hid1, hid2]; exact hne)
  · intro r' hr ha
    obtain ⟨r, hm, _, hs, hsl⟩ := hreq r' hr ha
    obtain ⟨p, hp, hpid, hpst⟩ := h3 r hm hs
    obtain ⟨p', hp', hid', hst'⟩ := hslot p hp hpst
    exact ⟨p', hp', by rw [← hsl, hpid, hid'], hst'⟩

theorem mem_updateMany {α : Type} {p : α → Bool} {f : α → α} {rows : List α} {x : α}
    (h : x ∈ updateMany p f rows) :
    ∃ y ∈ rows, x = if p y = true then f y else y := by
  unfold updateMany at h
  rw [List.mem_map] at h
  obtain ⟨y, hy, hxy⟩ := h
  exact ⟨y, hy, hxy.symm⟩

theorem mem_updateMany_of_mem {α : Type} (p : α → Bool) (f : α → α) {rows : List α} {y : α}
    (h : y ∈ rows) : (if p y = true then f y else y) ∈ updateMany p f rows := by
  unfold updateMany
  exact List.mem_map.mpr ⟨y, h, rfl⟩

/-- Slots after an `updateMany` that leaves id and status as they are, or sets the status
to `unavailable`: an unavailable slot stays unavailable. -/
theorem unavailable_kept_updateMany (p : ParkingSlot → Bool) (f : ParkingSlot → ParkingSlot)
    (hid : ∀ x, (f x).id = x.id)
    (hst : ∀ x, x.status = "unavailable" → (f x).status = "unavailable")
    (rows : List ParkingSlot) :
    ∀ x ∈ rows, x.status = "unavailable" →
      ∃ x' ∈ updateMany p f rows, x'.id = x.id ∧ x'.status = "unavailable" := by
  intro x hx hst'
  refine ⟨_, mem_updateMany_of_mem p f hx, ?_, ?_⟩
  · by_cases h : p x = true
    · rw [if_pos h]; exact hid x
    · rw [if_neg h]
  · by_cases h : p x = true
    · rw [if_pos h]; exact hst x hst'
    · rw [if_neg h]; exact hst'

theorem approveWrites_eq {now id : Nat} {slot : ParkingSlot} {tx s1 : State}
    (h : approveWrites now id slot tx = some s1) : s1 = approvedStore tx now id slot := by
  unfold approveWrites at h
  split at h
  · exact absurd h (by simp)
  · rename_i rs hrs
    split at h
    · exact absurd h (by simp)
    · rename_i ps hps
      obtain rfl := Option.some.inj h
      rw [updateUnique_eq_some hrs, updateUnique_eq_some hps]
      rfl

/-- The store after `approveRequest`: the tables it was given, or the approved store for a
pending request and an available slot. -/
theorem approveRequest_tables (s : State) (now : Nat) (emailOk : Bool) (user : Caller)
    (id : Nat) :
    ((approveRequest s now emailOk user id).1.slot_requests = s.slot_requests
      ∧ (approveRequest s now emailOk user id).1.parking_slots = s.parking_slots)
    ∨ (∃ (request : SlotRequest) (slot : ParkingSlot),
        s.slot_requests.find? (fun r => r.id == id && r.request_status == "pending")
          = some request
        ∧ slot ∈ s.parking_slots ∧ slot.status = "available"
        ∧ (approveRequest s now emailOk user id).1.slot_requests
          = (approvedStore s now id slot).slot_requests
        ∧ (approveRequest s now emailOk user id).1.parking_slots
          = (approvedStore s now id slot).parking_slots) := by
  rcases approveRequest_cases s now emailOk user id with
    ⟨c, m, h⟩ | ⟨request, _, slot, s1, _, hreq, _, hslot, hw, ⟨_, h⟩ | ⟨_, h⟩⟩
  · rw [h]; exact Or.inl ⟨rfl, rfl⟩
  · rw [h, approveWrites_eq hw]
    have hP := List.find?_some hslot
    simp only [Bool.and_eq_true, beq_iff_eq] at hP
    exact Or.inr ⟨request, slot, hreq, List.mem_of_find?_eq_some hslot, hP.2, rfl, rfl⟩
  · rw [h, approveWrites_eq hw]
    have hP := List.find?_some hslot
    simp only [Bool.and_eq_true, beq_iff_eq] at hP
    exact Or.inr ⟨request, slot, hreq, List.mem_of_find?_eq_some hslot, hP.2, rfl, rfl⟩

/-- The invariant across a successful approval. -/
theorem slotsAssignedOnce_approved (s : State) (now id : Nat) (slot : ParkingSlot)
    (hslots : (s.parking_slots.map ParkingSlot.id).Nodup)
    (hmem : slot ∈ s.parking_slots) (havail : slot.status = "available")
    (h : SlotsAssignedOnce s) : SlotsAssignedOnce (approvedStore s now id slot) := by
  obtain ⟨h4, h3⟩ := h
  -- a request approved before does not hold the chosen slot
  have hfree : ∀ r ∈ s.slot_requests, r.request_status = "approved" →
      r.slot_id ≠ some slot.id := by
    intro r hr ha hsl
    obtain ⟨p, hp, hpid, hpst⟩ := h3 r hr ha
    have hpid' : p.id = slot.id := by
      rw [hpid] at hsl
      exact Option.some.inj hsl
    have : p = slot := eq_of_key_eq hslots hp hmem hpid'
    rw [this, havail] at hpst
    exact absurd hpst (by decide)
  have hslotKept : ∀ p ∈ s.parking_slots, p.status = "unavailable" →
      ∃ p' ∈ (approvedStore s now id slot).parking_slots,
        p'.id = p.id ∧ p'.status = "unavailable" := by
    apply unavailable_kept_updateMany
    · intro x; rfl
    · intro x _; rfl
  have hchosen : ∃ p' ∈ (approvedStore s now id slot).parking_slots,
      p'.id = slot.id ∧ p'.status = "unavailable" := by
    refine ⟨_, mem_updateMany_of_mem _ _ hmem, ?_, ?_⟩
    · rw [if_pos (by simp)]
    · rw [if_pos (by simp)]
  -- the row a request becomes
  have hrow : ∀ r' ∈ (approvedStore s now id slot).slot_requests,
      ∃ r ∈ s.slot_requests, r'.id = r.id
        ∧ ((r.id = id ∧ r'.slot_id = some slot.id) ∨ (r.id ≠ id ∧ r' = r)) := by
    intro r' hr'
    obtain ⟨r, hm, hrr⟩ := mem_updateMany hr'
    refine ⟨r, hm, ?_, ?_⟩
    · by_cases c : (r.id == id) = true
      · rw [hrr, if_pos c]
      · rw [hrr, if_neg c]
    · by_cases c : (r.id == id) = true
      · left
        rw [hrr, if_pos c]
        exact ⟨by simpa using c, rfl⟩
      · right
        rw [hrr, if_neg c]
        exact ⟨by simpa using c, rfl⟩
  refine ⟨?_, ?_⟩
  · intro r1' hr1 r2' hr2 ha1 ha2 hne
    obtain ⟨r1, hm1, hid1, hc1⟩ := hrow r1' hr1
    obtain ⟨r2, hm2, hid2, hc2⟩ := hrow r2' hr2
    rcases hc1 with ⟨c1, hs1⟩ | ⟨c1, e1⟩
    · rcases hc2 with ⟨c2, hs2⟩ | ⟨c2, e2⟩
      · exact absurd (by rw [hid1, hid2, c1, c2]) hne
      · rw [hs1, e2]
        rw [e2] at ha2
        exact fun heq => hfree r2 hm2 ha2 heq.symm
    · rcases hc2 with ⟨c2, hs2⟩ | ⟨c2, e2⟩
      · rw [hs2, e1]
        rw [e1] at ha1
        exact hfree r1 hm1 ha1
      · have hne' : r1.id ≠ r2.id := by
          rw [← hid1, ← hid2]; exact hne
        rw [e1] at ha1
        rw [e2] at ha2
        rw [e1, e2]
        exact h4 r1 hm1 r2 hm2 ha1 ha2 hne'
  · intro r' hr ha
    obtain ⟨r, hm, _, hc⟩ := hrow r' hr
    rcases hc with ⟨_, hs⟩ | ⟨_, e⟩
    · obtain ⟨p', hp', hid', hst'⟩ := hchosen
      exact ⟨p', hp', by rw [hs, hid'], hst'⟩
    · rw [e] at ha
      rw [e]
      obtain ⟨p, hp, hpid, hpst⟩ := h3 r hm ha
      obtain ⟨p', hp', hid', hst'⟩ := hslotKept p hp hpst
      exact ⟨p', hp', by rw [hpid, hid'], hst'⟩

theorem approvedRows_of_updateMany (p : SlotRequest → Bool) (f : SlotRequest → SlotRequest)
    (hf : ∀ r, (f r).request_status = "approved" →
      (f r).id = r.id ∧ r.request_status = "approved" ∧ (f r).slot_id = r.slot_id)
    (rows : List SlotRequest) :
    ∀ r' ∈ updateMany p f rows, r'.request_status = "approved" →
      ∃ r ∈ rows, r.id = r'.id ∧ r.request_status = "approved" ∧ r.slot_id = r'.slot_id := by
  intro r' hr' ha
  obtain ⟨r, hm, hrr⟩ := mem_updateMany hr'
  by_cases c : p r = true
  · rw [if_pos c] at hrr
    rw [hrr] at ha ⊢
    obtain ⟨h1, h2, h3⟩ := hf r ha
    exact ⟨r, hm, h1.symm, h2, h3.symm⟩
  · rw [if_neg c] at hrr
    rw [hrr] at ha ⊢
    exact ⟨r, hm, rfl, ha, rfl⟩

theorem approvedRows_of_same (rows : List SlotRequest) :
    ∀ r' ∈ rows, r'.request_status = "approved" →
      ∃ r ∈ rows, r.id = r'.id ∧ r.request_status = "approved" ∧ r.slot_id = r'.slot_id :=
  fun r' hr' ha => ⟨r', hr', rfl, ha, rfl⟩

theorem unavailable_kept_same (rows : List ParkingSlot) :
    ∀ x ∈ rows, x.status = "unavailable" →
      ∃ x' ∈ rows, x'.id = x.id ∧ x'.status = "unavailable" :=
  fun x hx hst => ⟨x, hx, rfl, hst⟩

theorem createRequest_tables (s : State) (now : Nat) (user : Caller) (vehicle_id : RawInt) :
    ((createRequest s now user vehicle_id).1.slot_requests = s.slot_requests
      ∨ ∃ v, (createRequest s now user vehicle_id).1.slot_requests
        = s.slot_requests ++ [{ id := nextId (s.slot_requests.map SlotRequest.id),
                                vehicleId := v, request_status := "pending",
                                slot_id := none, approved_at := none }])
    ∧ (createRequest s now user vehicle_id).1.parking_slots = s.parking_slots := by
  unfold createRequest
  split
  · exact ⟨Or.inl rfl, rfl⟩
  · split
    · exact ⟨Or.inl rfl, rfl⟩
    · split
      · exact ⟨Or.inr ⟨_, logged_slot_requests _ _ _ _ _ _⟩, logged_parking_slots _ _ _ _ _ _⟩
      · exact ⟨Or.inl rfl, rfl⟩

theorem updateRequest_slots (s : State) (now : Nat) (user : Caller) (id : Nat)
    (vehicle_id : RawInt) :
    (updateRequest s now user id vehicle_id).1.parking_slots = s.parking_slots := by
  unfold updateRequest
  split
  · rfl
  · split
    · rfl
    · simp only
      split
      · rfl
      · exact logged_parking_slots _ _ _ _ _ _

theorem deleteRequest_slots (s : State) (now : Nat) (user : Caller) (id : Nat) :
    (deleteRequest s now user id).1.parking_slots = s.parking_slots := by
  unfold deleteRequest
  simp only
  split
  · rfl
  · exact logged_parking_slots _ _ _ _ _ _

theorem rejectRequest_slots (s : State) (now : Nat) (emailOk : Bool) (user : Caller)
    (id : Nat) (reason : String) :
    (rejectRequest s now emailOk user id reason).1.parking_slots = s.parking_slots := by
  unfold rejectRequest
  split
  · rfl
  · split
    · rfl
    · split
      · rfl
      · split
        · rfl
        · split
          · rfl
          · simp only
            split
            · rfl
            · exact logged_parking_slots _ _ _ _ _ _

theorem bulkCreateSlots_tables (s : State) (now : Nat) (user : Caller)
    (slots : List SlotInput) :
    (bulkCreateSlots s now user slots).1.slot_requests = s.slot_requests
    ∧ (bulkCreateSlots s now user slots).1.parking_slots
      = createManySlots slots s.parking_slots := by
  unfold bulkCreateSlots
  exact ⟨logged_slot_requests _ _ _ _ _ _, logged_parking_slots _ _ _ _ _ _⟩

theorem updateSlot_tables (s : State) (now : Nat) (user : Caller) (id : Nat)
    (slot_number size vehicle_type location : String) :
    (updateSlot s now user id slot_number size vehicle_type location).1.slot_requests
      = s.slot_requests
    ∧ ((updateSlot s now user id slot_number size vehicle_type location).1.parking_slots
        = s.parking_slots
      ∨ (updateSlot s now user id slot_number size vehicle_type location).1.parking_slots
        = updateMany (fun p => p.id == id)
            (fun p => { p with slot_number := slot_number, size := size,
                               vehicle_type := vehicle_type, location := location })
            s.parking_slots) := by
  unfold updateSlot
  split
  · exact ⟨rfl, Or.inl rfl⟩
  · simp only
    split
    · rename_i ps _ hps
      refine ⟨logged_slot_requests _ _ _ _ _ _, Or.inr ?_⟩
      rw [logged_parking_slots]
      exact updateUnique_eq_some hps
    · exact ⟨rfl, Or.inl rfl⟩

/-- Every workflow call keeps an unavailable slot unavailable. -/
theorem workflow_keeps_unavailable (s : State) (now : Nat) (op : WorkflowOp) :
    ∀ p ∈ s.parking_slots, p.status = "unavailable" →
      ∃ p' ∈ (op.run s now).parking_slots, p'.id = p.id ∧ p'.status = "unavailable" := by
  cases op with
  | createRequest user vehicle_id =>
    show ∀ p ∈ s.parking_slots, p.status = "unavailable" →
      ∃ p' ∈ (createRequest s now user vehicle_id).1.parking_slots, _
    rw [(createRequest_tables s now user vehicle_id).2]
    exact unavailable_kept_same _
  | updateRequest user id vehicle_id =>
    show ∀ p ∈ s.parking_slots, p.status = "unavailable" →
      ∃ p' ∈ (updateRequest s now user id vehicle_id).1.parking_slots, _
    rw [updateRequest_slots]
    exact unavailable_kept_same _
  | deleteRequest user id =>
    show ∀ p ∈ s.parking_slots, p.status = "unavailable" →
      ∃ p' ∈ (deleteRequest s now user id).1.parking_slots, _
    rw [deleteRequest_slots]
    exact unavailable_kept_same _
  | approveRequest emailOk user id =>
    show ∀ p ∈ s.parking_slots, p.status = "unavailable" →
      ∃ p' ∈ (approveRequest s now emailOk user id).1.parking_slots, _
    rcases approveRequest_tables s now emailOk user id with ⟨_, h⟩ | ⟨_, slot, _, _, _, _, h⟩
    · rw [h]
      exact unavailable_kept_same _
    · rw [h]
      apply unavailable_kept_updateMany
      · intro x; rfl
      · intro x _; rfl
  | rejectRequest emailOk user id reason =>
    show ∀ p ∈ s.parking_slots, p.status = "unavailable" →
      ∃ p' ∈ (rejectRequest s now emailOk user id reason).1.parking_slots, _
    rw [rejectRequest_slots]
    exact unavailable_kept_same _
  | bulkCreateSlots user slots =>
    show ∀ p ∈ s.parking_slots, p.status = "unavailable" →
      ∃ p' ∈ (bulkCreateSlots s now user slots).1.parking_slots, _
    rw [(bulkCreateSlots_tables s now user slots).2]
    intro p hp hst
    exact ⟨p, createManySlots_mem slots _ p hp, rfl, hst⟩
  | updateSlot user id slot_number size vehicle_type location =>
    show ∀ p ∈ s.parking_slots, p.status = "unavailable" →
      ∃ p' ∈ (updateSlot s now user id slot_number size vehicle_type location).1.parking_slots,
        _
    rcases (updateSlot_tables s now user id slot_number size vehicle_type location).2 with
      h | h
    · rw [h]
      exact unavailable_kept_same _
    · rw [h]
      apply unavailable_kept_updateMany
      · intro x; rfl
      · intro x hx; exact hx

theorem slotsAssignedOnce_congr {s s' : State}
    (hr : s'.slot_requests = s.slot_requests) (hp : s'.parking_slots = s.parking_slots)
    (h : SlotsAssignedOnce s) : SlotsAssignedOnce s' :=
  slotsAssignedOnce_of_step (by rw [hr]; exact approvedRows_of_same _)
    (by rw [hp]; exact unavailable_kept_same _) h

/-- One workflow call keeps the ids of requests and of slots unique and keeps the
slot-assignment invariant. -/
theorem workflow_step_keeps_invariant (s : State) (now : Nat) (op : WorkflowOp)
    (hreqs : (s.slot_requests.map SlotRequest.id).Nodup)
    (hslots : (s.parking_slots.map ParkingSlot.id).Nodup)
    (h : SlotsAssignedOnce s) :
    ((op.run s now).slot_requests.map SlotRequest.id).Nodup
    ∧ ((op.run s now).parking_slots.map ParkingSlot.id).Nodup
    ∧ SlotsAssignedOnce (op.run s now) := by
  have hkeep := workflow_keeps_unavailable s now op
  cases op with
  | createRequest user vehicle_id =>
    obtain ⟨hr, hp⟩ := createRequest_tables s now user vehicle_id
    change ∀ p ∈ s.parking_slots, p.status = "unavailable" →
      ∃ p' ∈ (createRequest s now user vehicle_id).1.parking_slots, _ at hkeep
    show ((createRequest s now user vehicle_id).1.slot_requests.map SlotRequest.id).Nodup
      ∧ ((createRequest s now user vehicle_id).1.parking_slots.map ParkingSlot.id).Nodup
      ∧ SlotsAssignedOnce (createRequest s now user vehicle_id).1
    rcases hr with hr | ⟨v, hr⟩
    · refine ⟨by rw [hr]; exact hreqs, by rw [hp]; exact hslots, ?_⟩
      exact slotsAssignedOnce_congr hr hp h
    · refine ⟨?_, by rw [hp]; exact hslots, ?_⟩
      · rw [hr]
        exact nodup_key_concat SlotRequest.id _ _ hreqs (nextId_not_mem _)
      · refine slotsAssignedOnce_of_step ?_ hkeep h
        rw [hr]
        intro r' hr' ha
        rcases List.mem_append.mp hr' with hm | hm
        · exact ⟨r', hm, rfl, ha, rfl⟩
        · rw [List.mem_singleton] at hm
          rw [hm] at ha
          have hpend : ("pending" : String) ≠ "approved" := by decide
          exact absurd ha hpend
  | updateRequest user id vehicle_id =>
    have hp := updateRequest_slots s now user id vehicle_id
    change ∀ p ∈ s.parking_slots, p.status = "unavailable" →
      ∃ p' ∈ (updateRequest s now user id vehicle_id).1.parking_slots, _ at hkeep
    show ((updateRequest s now user id vehicle_id).1.slot_requests.map SlotRequest.id).Nodup
      ∧ ((updateRequest s now user id vehicle_id).1.parking_slots.map ParkingSlot.id).Nodup
      ∧ SlotsAssignedOnce (updateRequest s now user id vehicle_id).1
    rcases updateRequest_requests s now user id vehicle_id with hr | hr
    · exact ⟨by rw [hr]; exact hreqs, by rw [hp]; exact hslots,
        slotsAssignedOnce_congr hr hp h⟩
    · refine ⟨?_, by rw [hp]; exact hslots, ?_⟩
      · rw [hr, map_key_updateMany]
        · exact hreqs
        · intro r; rfl
      · refine slotsAssignedOnce_of_step ?_ hkeep h
        rw [hr]
        apply approvedRows_of_updateMany
        intro r ha
        exact ⟨rfl, ha, rfl⟩
  | deleteRequest user id =>
    have hp := deleteRequest_slots s now user id
    have hr := deleteRequest_requests s now user id
    change ∀ p ∈ s.parking_slots, p.status = "unavailable" →
      ∃ p' ∈ (deleteRequest s now user id).1.parking_slots, _ at hkeep
    show ((deleteRequest s now user id).1.slot_requests.map SlotRequest.id).Nodup
      ∧ ((deleteRequest s now user id).1.parking_slots.map ParkingSlot.id).Nodup
      ∧ SlotsAssignedOnce (deleteRequest s now user id).1
    refine ⟨?_, by rw [hp]; exact hslots, ?_⟩
    · rw [hr]
      exact nodup_key_deleteMany _ _ _ hreqs
    · refine slotsAssignedOnce_of_step ?_ hkeep h
      rw [hr]
      intro r' hr' ha
      unfold deleteMany at hr'
      exact ⟨r', (List.mem_filter.mp hr').1, rfl, ha, rfl⟩
  | approveRequest emailOk user id =>
    show ((approveRequest s now emailOk user id).1.slot_requests.map SlotRequest.id).Nodup
      ∧ ((approveRequest s now emailOk user id).1.parking_slots.map ParkingSlot.id).Nodup
      ∧ SlotsAssignedOnce (approveRequest s now emailOk user id).1
    rcases approveRequest_tables s now emailOk user id with
      ⟨hr, hp⟩ | ⟨_, slot, _, hmem, havail, hr, hp⟩
    · exact ⟨by rw [hr]; exact hreqs, by rw [hp]; exact hslots,
        slotsAssignedOnce_congr hr hp h⟩
    · refine ⟨?_, ?_, ?_⟩
      · rw [hr]
        show ((updateMany _ _ s.slot_requests).map SlotRequest.id).Nodup
        rw [map_key_updateMany]
        · exact hreqs
        · intro r; rfl
      · rw [hp]
        show ((updateMany _ _ s.parking_slots).map ParkingSlot.id).Nodup
        rw [map_key_updateMany]
        · exact hslots
        · intro r; rfl
      · exact slotsAssignedOnce_congr hr hp
          (slotsAssignedOnce_approved s now id slot hslots hmem havail h)
  | rejectRequest emailOk user id reason =>
    have hp := rejectRequest_slots s now emailOk user id reason
    change ∀ p ∈ s.parking_slots, p.status = "unavailable" →
      ∃ p' ∈ (rejectRequest s now emailOk user id reason).1.parking_slots, _ at hkeep
    show ((rejectRequest s now emailOk user id reason).1.slot_requests.map
        SlotRequest.id).Nodup
      ∧ ((rejectRequest s now emailOk user id reason).1.parking_slots.map
        ParkingSlot.id).Nodup
      ∧ SlotsAssignedOnce (rejectRequest s now emailOk user id reason).1
    rcases rejectRequest_requests s now emailOk user id reason with hr | ⟨_, _, hr⟩
    · exact ⟨by rw [hr]; exact hreqs, by rw [hp]; exact hslots,
        slotsAssignedOnce_congr hr hp h⟩
    · refine ⟨?_, by rw [hp]; exact hslots, ?_⟩
      · rw [hr, map_key_updateMany]
        · exact hreqs
        · intro r; rfl
      · refine slotsAssignedOnce_of_step ?_ hkeep h
        rw [hr]
        apply approvedRows_of_updateMany
        intro r ha
        have hrej : ("rejected" : String) ≠ "approved" := by decide
        exact absurd ha hrej
  | bulkCreateSlots user slots =>
    obtain ⟨hr, hp⟩ := bulkCreateSlots_tables s now user slots
    change ∀ p ∈ s.parking_slots, p.status = "unavailable" →
      ∃ p' ∈ (bulkCreateSlots s now user slots).1.parking_slots, _ at hkeep
    show ((bulkCreateSlots s now user slots).1.slot_requests.map SlotRequest.id).Nodup
      ∧ ((bulkCreateSlots s now user slots).1.parking_slots.map ParkingSlot.id).Nodup
      ∧ SlotsAssignedOnce (bulkCreateSlots s now user slots).1
    refine ⟨by rw [hr]; exact hreqs, ?_, ?_⟩
    · rw [hp]
      exact createManySlots_nodup slots _ hslots
    · refine slotsAssignedOnce_of_step ?_ hkeep h
      rw [hr]
      exact approvedRows_of_same _
  | updateSlot user id slot_number size vehicle_type location =>
    obtain ⟨hr, hp⟩ := updateSlot_tables s now user id slot_number size vehicle_type location
    change ∀ p ∈ s.parking_slots, p.status = "unavailable" →
      ∃ p' ∈ (updateSlot s now user id slot_number size vehicle_type
        location).1.parking_slots, _ at hkeep
    show ((updateSlot s now user id slot_number size vehicle_type
          location).1.slot_requests.map SlotRequest.id).Nodup
      ∧ ((updateSlot s now user id slot_number size vehicle_type
          location).1.parking_slots.map ParkingSlot.id).Nodup
      ∧ SlotsAssignedOnce (updateSlot s now user id slot_number size vehicle_type location).1
    refine ⟨by rw [hr]; exact hreqs, ?_, ?_⟩
    · rcases hp with hp | hp
      · rw [hp]; exact hslots
      · rw [hp, map_key_updateMany]
        · exact hslots
        · intro r; rfl
    · refine slotsAssignedOnce_of_step ?_ hkeep h
      rw [hr]
      exact approvedRows_of_same _

theorem runWorkflow_keeps_invariant (ops : List (Nat × WorkflowOp)) :
    ∀ s : State, (s.slot_requests.map SlotRequest.id).Nodup →
      (s.parking_slots.map ParkingSlot.id).Nodup → SlotsAssignedOnce s →
      SlotsAssignedOnce (runWorkflow s ops) := by
  induction ops with
  | nil => intro s _ _ h; exact h
  | cons a rest ih =>
    intro s hreqs hslots h
    obtain ⟨now, op⟩ := a
    obtain ⟨h1, h2, h3⟩ := workflow_step_keeps_invariant s now op hreqs hslots h
    exact ih (op.run s now) h1 h2 h3

/-- C15: from a store with unique row ids and no approved request, every store reached by
a sequence of `createRequest`, `updateRequest`, `deleteRequest`, `approveRequest`,
`rejectRequest`, `bulkCreateSlots` and `updateSlot` calls has approved requests with
different ids on different slots, each such slot a stored slot with status `unavailable`;
and no further call of these makes an unavailable slot available again. -/
theorem workflow_assigns_each_slot_once (s0 : State) (ops : List (Nat × WorkflowOp))
    (hpk : PrimaryKeys s0)
    (hnone : ∀ r ∈ s0.slot_requests, r.request_status ≠ "approved") :
    SlotsAssignedOnce (runWorkflow s0 ops)
    ∧ (∀ (now : Nat) (op : WorkflowOp), ∀ p ∈ (runWorkflow s0 ops).parking_slots,
        p.status = "unavailable" →
        ∃ p' ∈ (op.run (runWorkflow s0 ops) now).parking_slots,
          p'.id = p.id ∧ p'.status = "unavailable") := by
  obtain ⟨_, _, _, hslots, hreqs⟩ := hpk
  have h0 : SlotsAssignedOnce s0 :=
    ⟨fun r1 hr1 _ _ ha1 _ _ => absurd ha1 (hnone r1 hr1),
     fun r hr ha => absurd ha (hnone r hr)⟩
  exact ⟨runWorkflow_keeps_invariant ops s0 hreqs hslots h0,
    fun now op => workflow_keeps_unavailable _ now op⟩

theorem workflow_assigns_each_slot_once_witness :
    SlotsAssignedOnce (runWorkflow demoStore demoWorkflow)
    ∧ (∀ (now : Nat) (op : WorkflowOp), ∀ p ∈ (runWorkflow demoStore demoWorkflow).parking_slots,
        p.status = "unavailable" →
        ∃ p' ∈ (op.run (runWorkflow demoStore demoWorkflow) now).parking_slots,
          p'.id = p.id ∧ p'.status = "unavailable") :=
  workflow_assigns_each_slot_once demoStore demoWorkflow (by decide) (by decide)

end Parking
